import Mathlib

/-!
TerraSphere: navigation state machine and hit-testing

A shallow embedding of `src/App.jsx` (the navigation state held in React
`useState` cells, the three navigation commands and their `setTimeout`
callbacks, the zoom animation), of the node layout of the paint path and the
pointer hit-testing of `src/components/CanvasRenderer.jsx`, of the weather
provider `src/utils/weatherAPI.js` and of the tooltip
`src/components/WeatherTooltip.jsx`.

Conventions of the embedding.

* A React handler reads the state of the render that created it and queues
  setter calls; the state after the handler is the read state with the
  queued setters applied.  A handler is therefore a function from the state
  it reads to the next state, paired with the callback it hands to
  `setTimeout` (if any).
* A `setTimeout` callback is a closure: the values it captured are stored in
  a `Commit` value, and running it is `runCommit`.
* A JavaScript `TypeError` raised in the middle of a callback leaves the
  setter calls made before it in force; `CommitResult.threw` records it.
* `worldData.json` is a parameter (`WorldData`): objects are association
  lists in `Object.entries` order. `getProp` is the own-property part of a
  read `obj[k]`, and the navigation commands, the click path and the cache
  are first given with it; `readProp` is the read through the prototype
  chain, and `Proto.commitClick`, `Proto.commitBack`, `Proto.fetchWeather`
  and the tooltip are given with it. The two agree on every key that is
  not the name of a member of `Object.prototype`.
* Host functions (`Math.cos`, `Math.sin`, `String.prototype.toLowerCase`) and
  the outcome of a network request are parameters.
* Numbers are exact rationals in the layout, the click path and the
  weather record. The hover hit-test is also given in the arithmetic of the
  program, binary64 (`Double`, `Binary64.checkEarthNodeHover` and the two
  grid functions), where the rounding of each operation is modelled.
-/

namespace TerraSphere

/-! ## Catalog (`worldData.json`) -/

/-- City record of the catalog: `name`, `lat`, `lon`. -/
structure City where
  name : String
  lat : ℚ
  lon : ℚ
  deriving DecidableEq, Repr

/-- Country record: `name`, `color`, `children` (cities by key). -/
structure Country where
  name : String
  color : String
  children : List (String × City)
  deriving DecidableEq, Repr

/-- Polar placement hint of a continent: `position.x` is an angle fraction,
`position.y` a radial fraction. -/
structure Position where
  x : ℚ
  y : ℚ
  deriving DecidableEq, Repr

/-- Continent record: `name`, `color`, `position`, `children` (countries by key). -/
structure Continent where
  name : String
  color : String
  position : Position
  children : List (String × Country)
  deriving DecidableEq, Repr

/-- The object `worldData.earth`: `children` are the continents by key. -/
structure WorldData where
  children : List (String × Continent)
  deriving DecidableEq, Repr

/-- Property key used by `obj[k]` when `k` is a selection cell: JavaScript
turns `null` into the string `"null"`. -/
def jsKey : Option String → String
  | none => "null"
  | some k => k

/-- Own-property read `obj[k]`; `none` is `undefined`. For a key that is the
name of a member of `Object.prototype` and not an own key, the read of the
program finds that member: `readProp`. -/
def getProp {α : Type} (obj : List (String × α)) (k : String) : Option α :=
  obj.lookup k

/-! ## Navigation state (`App.jsx`, lines 15-31) -/

/-- The four values the `layer` cell takes: `'earth'`, `'continent'`,
`'country'`, `'city'`. -/
inductive Layer where
  | earth
  | continent
  | country
  | city
  deriving DecidableEq, Repr

/-- The cell `zoomDirection`: `'in'` or `'out'`. -/
inductive ZoomDirection where
  | zoomIn
  | zoomOut
  deriving DecidableEq, Repr

/-- The `useState` cells of `App` that navigation reads or writes. -/
structure NavState where
  layer : Layer
  history : List Layer
  selectedContinent : Option String
  selectedCountry : Option String
  selectedCity : Option String
  hoveredNode : Option String
  transitioning : Bool
  bgColor : String
  zoomProgress : ℚ
  zoomDirection : ZoomDirection
  deriving DecidableEq, Repr

/-- Initial values of the cells (the arguments of `useState`). -/
def initialState : NavState where
  layer := .earth
  history := [.earth]
  selectedContinent := none
  selectedCountry := none
  selectedCity := none
  hoveredNode := none
  transitioning := false
  bgColor := "#0A1628"
  zoomProgress := 0
  zoomDirection := .zoomIn

/-- A call `fetchWeather(name, lat, lon)`. -/
structure FetchCall where
  name : String
  lat : ℚ
  lon : ℚ
  deriving DecidableEq, Repr

/-- A callback handed to `setTimeout(…, 400)` together with the values it
captured from the render in which the command ran. -/
inductive Commit where
  /-- Callback of `handleNodeClick`: captures `newLayer`, `selection`,
  `selectedContinent`, `selectedCountry`. -/
  | click (newLayer : Layer) (selection : String)
      (selectedContinent selectedCountry : Option String)
  /-- Callback of `goBack`: captures `newHistory`, `prevLayer`,
  `selectedContinent`, `selectedCountry`. -/
  | back (newHistory : List Layer) (prevLayer : Layer)
      (selectedContinent selectedCountry : Option String)
  /-- Callback of `goHome`: captures nothing. -/
  | home
  deriving DecidableEq, Repr

/-- State after a `setTimeout` callback, the `fetchWeather` calls it issued,
and whether it ended in an uncaught `TypeError`. -/
structure CommitResult where
  state : NavState
  fetches : List FetchCall
  threw : Bool
  deriving DecidableEq, Repr

/-! ## Commands -/

/-- Handler `handleNodeClick(newLayer, selection)` (lines 67-125): the state after
the handler and the callback it schedules. -/
def handleNodeClick (s : NavState) (newLayer : Layer) (selection : String) :
    NavState × Option Commit :=
  if s.transitioning then (s, none)
  else if s.layer = .city then (s, none)
  else
    ({ s with transitioning := true, zoomDirection := .zoomIn },
     some (.click newLayer selection s.selectedContinent s.selectedCountry))

/-- Handler `goBack()` (lines 138-170). `newHistory` and `prevLayer` are computed by
the handler, before the timeout; past the guard `history` has two entries or
more, so `newHistory` has a last element. -/
def goBack (s : NavState) : NavState × Option Commit :=
  if h : s.history.length ≤ 1 ∨ s.transitioning = true then (s, none)
  else
    let newHistory := s.history.dropLast
    let prevLayer := newHistory.getLast (by
      intro hnil
      have hlen : s.history.dropLast.length = 0 :=
        (congrArg List.length hnil).trans List.length_nil
      rw [List.length_dropLast] at hlen
      exact h (Or.inl (by omega)))
    ({ s with transitioning := true, zoomDirection := .zoomOut },
     some (.back newHistory prevLayer s.selectedContinent s.selectedCountry))

/-- Handler `goHome()` (lines 175-189). -/
def goHome (s : NavState) : NavState × Option Commit :=
  if s.layer = .earth ∨ s.transitioning = true then (s, none)
  else
    ({ s with transitioning := true, zoomDirection := .zoomOut }, some .home)

/-! ## Deferred commits (the `setTimeout` callbacks) -/

/-- The two last statements of the click callback: `setLayer(newLayer)` and
`setHistory(prev => [...prev, newLayer])`. -/
def pushLayer (newLayer : Layer) (s : NavState) : NavState :=
  { s with layer := newLayer, history := s.history ++ [newLayer] }

/-- The `fetchWeather(city.name, city.lat, city.lon)` call for a city. -/
def fetchOf (city : City) : FetchCall :=
  { name := city.name, lat := city.lat, lon := city.lon }

/-- Callback of `handleNodeClick` (lines 80-124), with own-property reads.
Reading a property of `undefined` throws, which skips the rest of the
callback. It is the callback of the program for every `selection` that is
not the name of a member of `Object.prototype`; `Proto.commitClick` covers
those names too. -/
def commitClick (wd : WorldData) (newLayer : Layer) (selection : String)
    (selectedContinent selectedCountry : Option String) (s : NavState) :
    CommitResult :=
  match newLayer with
  | .continent =>
    let s1 := { s with selectedContinent := some selection }
    match getProp wd.children selection with
    | none => { state := s1, fetches := [], threw := true }
    | some continent =>
      let s2 := { s1 with bgColor := continent.color ++ "30" }
      { state := pushLayer newLayer s2, fetches := [], threw := false }
  | .country =>
    let s1 := { s with selectedCountry := some selection }
    match getProp wd.children (jsKey selectedContinent) with
    | none => { state := s1, fetches := [], threw := true }
    | some continent =>
      match getProp continent.children selection with
      | none => { state := s1, fetches := [], threw := true }
      | some country =>
        let s2 := { s1 with bgColor := country.color ++ "20" }
        { state := pushLayer newLayer s2,
          fetches := country.children.map (fun kc => fetchOf kc.2),
          threw := false }
  | .city =>
    let s1 := { s with selectedCity := some selection, bgColor := "#12192B" }
    match getProp wd.children (jsKey selectedContinent) with
    | none => { state := s1, fetches := [], threw := true }
    | some continent =>
      match getProp continent.children (jsKey selectedCountry) with
      | none => { state := s1, fetches := [], threw := true }
      | some country =>
        match getProp country.children selection with
        | none => { state := s1, fetches := [], threw := true }
        | some city =>
          { state := pushLayer newLayer s1, fetches := [fetchOf city],
            threw := false }
  | .earth => { state := pushLayer newLayer s, fetches := [], threw := false }

/-- Callback of `goBack` (lines 148-169), with own-property reads;
`Proto.commitBack` has the reads through the prototype chain. -/
def commitBack (wd : WorldData) (newHistory : List Layer) (prevLayer : Layer)
    (selectedContinent selectedCountry : Option String) (s : NavState) :
    CommitResult :=
  let s1 := { s with history := newHistory, layer := prevLayer }
  match prevLayer with
  | .earth =>
    { state := { s1 with bgColor := "#0A1628", selectedContinent := none,
                         selectedCountry := none, selectedCity := none },
      fetches := [], threw := false }
  | .continent =>
    match getProp wd.children (jsKey selectedContinent) with
    | none => { state := s1, fetches := [], threw := true }
    | some continent =>
      { state := { s1 with bgColor := continent.color ++ "30",
                           selectedCountry := none, selectedCity := none },
        fetches := [], threw := false }
  | .country =>
    match getProp wd.children (jsKey selectedContinent) with
    | none => { state := s1, fetches := [], threw := true }
    | some continent =>
      match getProp continent.children (jsKey selectedCountry) with
      | none => { state := s1, fetches := [], threw := true }
      | some country =>
        { state := { s1 with bgColor := country.color ++ "20",
                             selectedCity := none },
          fetches := [], threw := false }
  | .city => { state := s1, fetches := [], threw := false }

/-- Callback of `goHome` (lines 181-188). -/
def commitHome (s : NavState) : CommitResult :=
  { state := { s with layer := .earth, history := [.earth],
                      bgColor := "#0A1628", selectedContinent := none,
                      selectedCountry := none, selectedCity := none },
    fetches := [], threw := false }

/-- Running a scheduled callback on the state current when the timer fires. -/
def runCommit (wd : WorldData) (c : Commit) (s : NavState) : CommitResult :=
  match c with
  | .click newLayer selection selectedContinent selectedCountry =>
    commitClick wd newLayer selection selectedContinent selectedCountry s
  | .back newHistory prevLayer selectedContinent selectedCountry =>
    commitBack wd newHistory prevLayer selectedContinent selectedCountry s
  | .home => commitHome s

/-! ## Zoom animation (lines 37-61) -/

/-- One call of `animate` of the zoom effect, started at `startTime`, at
clock value `now` (milliseconds): the next state and whether another frame
is requested. -/
def animate (startTime now : ℤ) (s : NavState) : NavState × Bool :=
  let duration : ℚ := 800
  let elapsed : ℚ := ((now - startTime : ℤ) : ℚ)
  let progress := min (elapsed / duration) 1
  let s1 := { s with zoomProgress := progress }
  if progress < 1 then (s1, true)
  else ({ s1 with transitioning := false, zoomProgress := 0 }, false)

/-- A command followed through: if it scheduled a callback, the callback runs
(at 400 ms) and the frame at 800 ms ends the transition; a rejected command
leaves the state as it is. -/
def settle (wd : WorldData) (r : NavState × Option Commit) : NavState :=
  match r.2 with
  | none => r.1
  | some c => (animate 0 800 (runCommit wd c r.1).state).1

/-! ## Command sequences -/

/-- The navigation commands. -/
inductive Cmd where
  | click (newLayer : Layer) (selection : String)
  | back
  | home
  deriving DecidableEq, Repr

/-- The handler of a command. -/
def issue (s : NavState) : Cmd → NavState × Option Commit
  | .click newLayer selection => handleNodeClick s newLayer selection
  | .back => goBack s
  | .home => goHome s

/-- A command, its deferred commit and the end of its transition. -/
def exec (wd : WorldData) (s : NavState) (c : Cmd) : NavState :=
  settle wd (issue s c)

/-- Depth of a layer: Planet 0, Continent 1, Country 2, City 3. -/
def Layer.depth : Layer → ℕ
  | .earth => 0
  | .continent => 1
  | .country => 2
  | .city => 3

/-- The selection cell of a layer (the planet has none). -/
def selectionAt (s : NavState) : Layer → Option String
  | .earth => none
  | .continent => s.selectedContinent
  | .country => s.selectedCountry
  | .city => s.selectedCity

/-- The key of a click resolves in the catalog under the selection of `s`:
the lookups of the click callback all succeed. -/
def resolves (wd : WorldData) (s : NavState) (newLayer : Layer)
    (selection : String) : Bool :=
  match newLayer with
  | .earth => false
  | .continent => (getProp wd.children selection).isSome
  | .country =>
    match getProp wd.children (jsKey s.selectedContinent) with
    | none => false
    | some continent => (getProp continent.children selection).isSome
  | .city =>
    match getProp wd.children (jsKey s.selectedContinent) with
    | none => false
    | some continent =>
      match getProp continent.children (jsKey s.selectedCountry) with
      | none => false
      | some country => (getProp country.children selection).isSome

/-- Every click targets the layer immediately below the current one (at
City, where there is none, any click is allowed: it is rejected). -/
def descends (s : NavState) : Cmd → Bool
  | .click newLayer _ =>
    decide (s.layer = .city) || decide (newLayer.depth = s.layer.depth + 1)
  | _ => true

/-- A descending command whose click key, if any, resolves in the catalog. -/
def descendsResolved (wd : WorldData) (s : NavState) : Cmd → Bool
  | .click newLayer selection =>
    decide (s.layer = .city) ||
      (decide (newLayer.depth = s.layer.depth + 1) &&
        resolves wd s newLayer selection)
  | _ => true

/-- A descending click (no `goBack`, no `goHome`). -/
def descendingClick (s : NavState) : Cmd → Bool
  | .click newLayer _ =>
    decide (s.layer = .city) || decide (newLayer.depth = s.layer.depth + 1)
  | _ => false

/-- States reached from the initial state by commands allowed by `ok`, each
followed through to the end of its transition before the next. -/
inductive Reachable (wd : WorldData) (ok : NavState → Cmd → Bool) :
    NavState → Prop where
  | init : Reachable wd ok initialState
  | step {s : NavState} (c : Cmd) :
      Reachable wd ok s → ok s c = true → Reachable wd ok (exec wd s c)

/-! ## Hit-testing (`CanvasRenderer.jsx`, lines 504-674) -/

/-- The members of the host `Math` object that the renderer uses, as a
parameter: their values are doubles, which are rationals. -/
structure JsMath where
  PI : ℚ
  cos : ℚ → ℚ
  sin : ℚ → ℚ

/-- An uncaught JavaScript exception. -/
inductive JsError where
  | typeError
  deriving DecidableEq, Repr

/-- A node as the loops of the hit-test see it: the entry key and the centre
`(nodeX, nodeY)` computed for it. -/
structure Node where
  key : String
  nodeX : ℚ
  nodeY : ℚ
  deriving DecidableEq, Repr

/-- The test `Math.sqrt((x - nodeX) ** 2 + (y - nodeY) ** 2) < r` for a
radius `r ≥ 0`, decided on the squares, in exact arithmetic;
`Binary64.distance` is the distance the program computes. -/
def isHit (r x y : ℚ) (n : Node) : Bool :=
  decide ((x - n.nodeX) ^ 2 + (y - n.nodeY) ^ 2 < r ^ 2)

/-- The hover loops: `for (…) { … if (distance < r) return key; } return null`. -/
def firstHit (r x y : ℚ) : List Node → Option String
  | [] => none
  | n :: rest => if isHit r x y n then some n.key else firstHit r x y rest

/-- The click loops: `forEach(… if (distance < r) onNodeClick(layer, key) …)`;
the keys passed to `onNodeClick`, in call order. -/
def allHits (r x y : ℚ) : List Node → List String
  | [] => []
  | n :: rest =>
    if isHit r x y n then n.key :: allHits r x y rest else allHits r x y rest

/-- Body of the Planet loops (lines 532-535 and 623-626) for one entry, on a
`w` by `h` canvas with rotation `rotation`. -/
def earthNode (M : JsMath) (w h : ℕ) (rotation : ℚ)
    (entry : String × Continent) : Node :=
  let cx : ℚ := (w : ℚ) / 2
  let cy : ℚ := (h : ℚ) / 2
  let radius : ℚ := min (w : ℚ) (h : ℚ) * (28 / 100)
  let angle := entry.2.position.x * M.PI * 2 + rotation
  let dist := radius * (75 / 100)
  { key := entry.1,
    nodeX := cx + M.cos angle * dist * entry.2.position.y,
    nodeY := cy + M.sin angle * dist * entry.2.position.y }

/-- The Planet nodes in `Object.entries` order. -/
def earthNodes (M : JsMath) (wd : WorldData) (w h : ℕ) (rotation : ℚ) :
    List Node :=
  wd.children.map (earthNode M w h rotation)

/-- The value `Math.ceil(Math.sqrt(n))` for a length `n`. -/
def ceilSqrt (n : ℕ) : ℕ :=
  if Nat.sqrt n * Nat.sqrt n = n then Nat.sqrt n else Nat.sqrt n + 1

/-- Body of the grid loops (lines 553-556, 574-577, 644-647, 665-668) for the
entry `key` at position `index`; `factor` is 0.22 or 0.25. The formulas are
carried out in exact arithmetic: this is the layout the program
approximates, and `Binary64.gridNode` is the value it computes. -/
def gridNode (factor : ℚ) (w h cols index : ℕ) (key : String) : Node :=
  let spacing : ℚ := min (w : ℚ) (h : ℚ) * factor
  let startX : ℚ := (w : ℚ) / 2 - ((cols : ℚ) * spacing) / 2
  let startY : ℚ := (h : ℚ) / 2
  let col : ℕ := index % cols
  let row : ℕ := index / cols
  { key := key,
    nodeX := startX + (col : ℚ) * spacing + spacing / 2,
    nodeY := startY + (row : ℚ) * spacing - 30 }

/-- The grid nodes for the keys from position `index` on. -/
def gridNodesFrom (factor : ℚ) (w h cols : ℕ) : ℕ → List String → List Node
  | _, [] => []
  | index, key :: rest =>
    gridNode factor w h cols index key ::
      gridNodesFrom factor w h cols (index + 1) rest

/-- The grid nodes of a layer, in `Object.entries` order, with
`cols = Math.ceil(Math.sqrt(entries.length))`. -/
def gridNodes (factor : ℚ) (w h : ℕ) (keys : List String) : List Node :=
  gridNodesFrom factor w h (ceilSqrt keys.length) 0 keys

/-- The list `Object.entries(obj)` reduced to its keys. -/
def keysOf {α : Type} (obj : List (String × α)) : List String :=
  obj.map Prod.fst

/-- The read `worldData.earth.children[selectedContinent].children`; a read
through `undefined` throws. -/
def countriesOf (wd : WorldData) (selectedContinent : Option String) :
    Except JsError (List (String × Country)) :=
  match getProp wd.children (jsKey selectedContinent) with
  | none => .error .typeError
  | some continent => .ok continent.children

/-- The read
`worldData.earth.children[selectedContinent].children[selectedCountry].children`;
a read through `undefined` throws. -/
def citiesOf (wd : WorldData) (selectedContinent selectedCountry : Option String) :
    Except JsError (List (String × City)) :=
  match getProp wd.children (jsKey selectedContinent) with
  | none => .error .typeError
  | some continent =>
    match getProp continent.children (jsKey selectedCountry) with
    | none => .error .typeError
    | some country => .ok country.children

/-- Function `checkEarthNodeHover(x, y, canvas)` (lines 616-632). -/
def checkEarthNodeHover (M : JsMath) (wd : WorldData) (rotation x y : ℚ)
    (w h : ℕ) : Option String :=
  firstHit 25 x y (earthNodes M wd w h rotation)

/-- Function `checkContinentNodeHover(x, y, canvas)` (lines 634-653). -/
def checkContinentNodeHover (wd : WorldData) (selectedContinent : Option String)
    (x y : ℚ) (w h : ℕ) : Except JsError (Option String) :=
  match countriesOf wd selectedContinent with
  | .error e => .error e
  | .ok countries => .ok (firstHit 50 x y (gridNodes (22 / 100) w h (keysOf countries)))

/-- Function `checkCountryNodeHover(x, y, canvas)` (lines 655-674). -/
def checkCountryNodeHover (wd : WorldData)
    (selectedContinent selectedCountry : Option String)
    (x y : ℚ) (w h : ℕ) : Except JsError (Option String) :=
  match citiesOf wd selectedContinent selectedCountry with
  | .error e => .error e
  | .ok cities => .ok (firstHit 55 x y (gridNodes (25 / 100) w h (keysOf cities)))

/-- Function `checkEarthNodeClick(x, y, canvas)` (lines 525-542): the calls of
`onNodeClick` it makes. -/
def checkEarthNodeClick (M : JsMath) (wd : WorldData) (rotation x y : ℚ)
    (w h : ℕ) : List (Layer × String) :=
  (allHits 25 x y (earthNodes M wd w h rotation)).map (fun k => (Layer.continent, k))

/-- Function `checkContinentNodeClick(x, y, canvas)` (lines 544-563). -/
def checkContinentNodeClick (wd : WorldData) (selectedContinent : Option String)
    (x y : ℚ) (w h : ℕ) : Except JsError (List (Layer × String)) :=
  match countriesOf wd selectedContinent with
  | .error e => .error e
  | .ok countries =>
    .ok ((allHits 50 x y (gridNodes (22 / 100) w h (keysOf countries))).map
      (fun k => (Layer.country, k)))

/-- Function `checkCountryNodeClick(x, y, canvas)` (lines 565-584). -/
def checkCountryNodeClick (wd : WorldData)
    (selectedContinent selectedCountry : Option String)
    (x y : ℚ) (w h : ℕ) : Except JsError (List (Layer × String)) :=
  match citiesOf wd selectedContinent selectedCountry with
  | .error e => .error e
  | .ok cities =>
    .ok ((allHits 55 x y (gridNodes (25 / 100) w h (keysOf cities))).map
      (fun k => (Layer.city, k)))

/-- Handler `handleCanvasClick` (lines 507-523) at pointer `(x, y)`: the calls of
`onNodeClick` made for one click event. -/
def handleCanvasClick (M : JsMath) (wd : WorldData) (layer : Layer)
    (selectedContinent selectedCountry : Option String) (rotation x y : ℚ)
    (w h : ℕ) : Except JsError (List (Layer × String)) :=
  match layer with
  | .city => .ok []
  | .earth => .ok (checkEarthNodeClick M wd rotation x y w h)
  | .continent => checkContinentNodeClick wd selectedContinent x y w h
  | .country => checkCountryNodeClick wd selectedContinent selectedCountry x y w h

/-- The `hoveredKey` of `handleMouseMove` (lines 589-603) at pointer `(x, y)`. -/
def hoveredKey (M : JsMath) (wd : WorldData) (layer : Layer)
    (selectedContinent selectedCountry : Option String) (rotation x y : ℚ)
    (w h : ℕ) : Except JsError (Option String) :=
  match layer with
  | .earth => .ok (checkEarthNodeHover M wd rotation x y w h)
  | .continent => checkContinentNodeHover wd selectedContinent x y w h
  | .country => checkCountryNodeHover wd selectedContinent selectedCountry x y w h
  | .city => .ok none

/-! ## Invariants of command sequences -/

/-- The history a state has when each descent went one layer deeper: the
layers from Planet down to the given one. -/
def layersUpTo : Layer → List Layer
  | .earth => [.earth]
  | .continent => [.earth, .continent]
  | .country => [.earth, .continent, .country]
  | .city => [.earth, .continent, .country, .city]

/-- The selection keys of the layers at or above the current one resolve in
the catalog (the lookups the `goBack` callback makes succeed). -/
def resolvedUpTo (wd : WorldData) (s : NavState) : Bool :=
  match s.layer with
  | .earth => true
  | .continent => (getProp wd.children (jsKey s.selectedContinent)).isSome
  | _ =>
    match getProp wd.children (jsKey s.selectedContinent) with
    | none => false
    | some continent =>
      (getProp continent.children (jsKey s.selectedCountry)).isSome

/-- Invariant of descending command sequences: the state is idle, the
history lists the layers down to the current one, and the keys down to the
current layer resolve. -/
def NavInv (wd : WorldData) (s : NavState) : Prop :=
  s.transitioning = false ∧ s.history = layersUpTo s.layer ∧
    resolvedUpTo wd s = true

/-- The history tracks the layer: its last element is the current layer and
its length less one is the depth of the current layer. -/
def historyTracksLayer (s : NavState) : Prop :=
  s.history.getLast? = some s.layer ∧ s.history.length - 1 = s.layer.depth

/-- The selection path is consistent with the layer: at Planet no key is
set, at Continent only the continent key, at Country the continent and the
country key, at City all three. -/
def selectionConsistent (s : NavState) : Bool :=
  match s.layer with
  | .earth =>
    s.selectedContinent.isNone && s.selectedCountry.isNone && s.selectedCity.isNone
  | .continent =>
    s.selectedContinent.isSome && s.selectedCountry.isNone && s.selectedCity.isNone
  | .country =>
    s.selectedContinent.isSome && s.selectedCountry.isSome && s.selectedCity.isNone
  | .city =>
    s.selectedContinent.isSome && s.selectedCountry.isSome && s.selectedCity.isSome

/-! ## Reading of the hit-test on real distances -/

/-- The Euclidean distance from the pointer `(x, y)` to the centre of `n` is
strictly less than `r`. -/
def withinRadius (r x y : ℚ) (n : Node) : Prop :=
  Real.sqrt (((x : ℝ) - (n.nodeX : ℝ)) ^ 2 + ((y : ℝ) - (n.nodeY : ℝ)) ^ 2) < (r : ℝ)

/-! ## Sample data -/

/-- The cities of `france` in the sample catalog. -/
def sampleFrenchCities : List (String × City) :=
  [("paris", { name := "Paris", lat := 4886 / 100, lon := 235 / 100 }),
   ("lyon", { name := "Lyon", lat := 4576 / 100, lon := 484 / 100 })]

/-- The countries of `europe` in the sample catalog. -/
def sampleCountries : List (String × Country) :=
  [("france", { name := "France", color := "#3B7DD8", children := sampleFrenchCities }),
   ("spain",
    { name := "Spain", color := "#D9534F",
      children :=
        [("madrid", { name := "Madrid", lat := 4042 / 100, lon := -370 / 100 }),
         ("seville", { name := "Seville", lat := 3739 / 100, lon := -599 / 100 })] })]

/-- A small catalog: one continent with two countries of two cities each. -/
def sampleWorld : WorldData where
  children :=
    [("europe",
      { name := "Europe", color := "#4A90D9", position := { x := 1 / 4, y := 1 },
        children := sampleCountries })]

/-- The idle state at City(europe, france, paris) of the sample catalog. -/
def sampleCityState : NavState where
  layer := .city
  history := [.earth, .continent, .country, .city]
  selectedContinent := some "europe"
  selectedCountry := some "france"
  selectedCity := some "paris"
  hoveredNode := none
  transitioning := false
  bgColor := "#12192B"
  zoomProgress := 0
  zoomDirection := .zoomIn

/-- The idle state at Continent(europe) of the sample catalog. -/
def sampleContinentState : NavState where
  layer := .continent
  history := [.earth, .continent]
  selectedContinent := some "europe"
  selectedCountry := none
  selectedCity := none
  hoveredNode := none
  transitioning := false
  bgColor := "#4A90D930"
  zoomProgress := 0
  zoomDirection := .zoomIn

/-- The idle state at Country(europe, france) of the sample catalog. -/
def sampleCountryState : NavState where
  layer := .country
  history := [.earth, .continent, .country]
  selectedContinent := some "europe"
  selectedCountry := some "france"
  selectedCity := none
  hoveredNode := none
  transitioning := false
  bgColor := "#3B7DD820"
  zoomProgress := 0
  zoomDirection := .zoomIn

/-- A stand-in for the host `Math` object where only the grid layers, which
do not use it, are evaluated. -/
def sampleMath : JsMath where
  PI := 22 / 7
  cos := fun _ => 1
  sin := fun _ => 0

/-! ## Paint path (`CanvasRenderer.jsx`, lines 146-434) -/

/-- The test `!k` on a selection or hover cell: null and the empty string are
falsy. -/
def jsFalsy : Option String → Bool
  | none => true
  | some k => decide (k = "")

/-- The node centres `drawEarthLayer` (lines 146-251) draws, in canvas
coordinates, and the value it leaves in `rotationRef.current`. The function
adds 0.0015 to the rotation before it computes any angle, and draws after
`ctx.translate(cx, cy)`, so the point `(x, y)` of the loop is the canvas
point `(cx + x, cy + y)`. -/
def drawEarthLayer (M : JsMath) (wd : WorldData) (w h : ℕ) (rotation : ℚ) :
    ℚ × List Node :=
  let cx : ℚ := (w : ℚ) / 2
  let cy : ℚ := (h : ℚ) / 2
  let radius : ℚ := min (w : ℚ) (h : ℚ) * (28 / 100)
  let rotation1 : ℚ := rotation + 15 / 10000
  (rotation1,
   wd.children.map (fun entry =>
     let angle := entry.2.position.x * M.PI * 2 + rotation1
     let dist := radius * (75 / 100)
     let x := M.cos angle * dist * entry.2.position.y
     let y := M.sin angle * dist * entry.2.position.y
     { key := entry.1, nodeX := cx + x, nodeY := cy + y }))

/-- The `forEach` of the grid paint loops (lines 280-284 and 364-368) from
position `index` on: the centre `(x, y)` drawn for each entry. -/
def paintGridFrom (spacing startX startY : ℚ) (cols : ℕ) : ℕ → List String → List Node
  | _, [] => []
  | index, key :: rest =>
    let col : ℕ := index % cols
    let row : ℕ := index / cols
    let x : ℚ := startX + (col : ℚ) * spacing + spacing / 2
    let y : ℚ := startY + (row : ℚ) * spacing - 30
    { key := key, nodeX := x, nodeY := y } ::
      paintGridFrom spacing startX startY cols (index + 1) rest

/-- The node centres `drawContinentLayer` (lines 256-337) draws; it returns
early, drawing nothing, when the continent key is falsy or does not resolve. -/
def drawContinentLayer (wd : WorldData) (selectedContinent : Option String)
    (w h : ℕ) : List Node :=
  if jsFalsy selectedContinent then []
  else
    match getProp wd.children (jsKey selectedContinent) with
    | none => []
    | some continent =>
      let entries := keysOf continent.children
      let cols := ceilSqrt entries.length
      let spacing : ℚ := min (w : ℚ) (h : ℚ) * (22 / 100)
      let startX : ℚ := (w : ℚ) / 2 - ((cols : ℚ) * spacing) / 2
      let startY : ℚ := (h : ℚ) / 2
      paintGridFrom spacing startX startY cols 0 entries

/-- The node centres `drawCountryLayer` (lines 342-434) draws; it returns
early when a key is falsy and throws when a key does not resolve. -/
def drawCountryLayer (wd : WorldData)
    (selectedContinent selectedCountry : Option String) (w h : ℕ) :
    Except JsError (List Node) :=
  if jsFalsy selectedCountry || jsFalsy selectedContinent then .ok []
  else
    match getProp wd.children (jsKey selectedContinent) with
    | none => .error .typeError
    | some continent =>
      match getProp continent.children (jsKey selectedCountry) with
      | none => .error .typeError
      | some country =>
        let entries := keysOf country.children
        let cols := ceilSqrt entries.length
        let spacing : ℚ := min (w : ℚ) (h : ℚ) * (25 / 100)
        let startX : ℚ := (w : ℚ) / 2 - ((cols : ℚ) * spacing) / 2
        let startY : ℚ := (h : ℚ) / 2
        .ok (paintGridFrom spacing startX startY cols 0 entries)

/-! ## Setter calls of the zoom animation -/

/-- A call of a `useState` setter made by `animate`. -/
inductive Setter where
  | setZoomProgress (progress : ℚ)
  | setTransitioning (flag : Bool)
  deriving DecidableEq, Repr

/-- The effect of one setter call on the cells. -/
def applySetter (s : NavState) : Setter → NavState
  | .setZoomProgress progress => { s with zoomProgress := progress }
  | .setTransitioning flag => { s with transitioning := flag }

/-- The local `progress` of `animate` (lines 47-48):
`Math.min(elapsed / duration, 1)` with `elapsed = Date.now() - startTime`. -/
def animateProgress (startTime now : ℤ) : ℚ :=
  let duration : ℚ := 800
  let elapsed : ℚ := ((now - startTime : ℤ) : ℚ)
  min (elapsed / duration) 1

/-- The setter calls of one call of `animate` (lines 46-58), in order, and
whether it calls `requestAnimationFrame(animate)`. -/
def animateCalls (startTime now : ℤ) : List Setter × Bool :=
  let progress := animateProgress startTime now
  if progress < 1 then ([.setZoomProgress progress], true)
  else ([.setZoomProgress progress, .setTransitioning false, .setZoomProgress 0], false)

/-- The operation `clamp(v, 0, 1)` of the specification. -/
def clamp01 (v : ℚ) : ℚ :=
  max 0 (min v 1)

/-! ## A click event, from the canvas to the timers -/

/-- A pending `setTimeout` callback and the clock value at which it is due. -/
structure Timer where
  due : ℤ
  commit : Commit
  deriving DecidableEq, Repr

/-- One click event at clock value `now`: `handleCanvasClick` reports its
nodes to `onNodeClick`, which is the `handleNodeClick` of the render `s`;
every call of the event reads the cells of that same render, and each
accepted call queues its setters and schedules its callback 400 ms ahead.
The result is the state after the event and the timers it started. -/
def onCanvasClick (M : JsMath) (wd : WorldData) (s : NavState) (now : ℤ)
    (rotation x y : ℚ) (w h : ℕ) : Except JsError (NavState × List Timer) :=
  match handleCanvasClick M wd s.layer s.selectedContinent s.selectedCountry
      rotation x y w h with
  | .error e => .error e
  | .ok calls =>
    .ok (calls.foldl
      (fun acc call =>
        match handleNodeClick s call.1 call.2 with
        | (_, none) => acc
        | (s1, some c) => (s1, acc.2 ++ [{ due := now + 400, commit := c }]))
      (s, []))

/-! ## Weather provider (`utils/weatherAPI.js`) and its use in `App.jsx` -/

/-- The weather record `fetchWeather` builds and caches (lines 37-44). -/
structure Snapshot where
  temp : ℤ
  humidity : ℚ
  condition : String
  icon : String
  windSpeed : ℤ
  description : String
  deriving DecidableEq, Repr

/-- The object `data.current.condition` of a response body. -/
structure Condition where
  text : String
  icon : String
  deriving DecidableEq, Repr

/-- The object `data.current` of a response body; `condition = none` is a
body without `current.condition`. -/
structure Current where
  temp_c : ℚ
  humidity : ℚ
  condition : Option Condition
  wind_kph : ℚ
  deriving DecidableEq, Repr

/-- The outcome of `response.json()`: a rejection, or a body with or without
a `current` field. -/
inductive Body where
  | unreadable
  | json (current : Option Current)
  deriving DecidableEq, Repr

/-- The outcome of the network request `fetch(url)`: a rejection, or a
response with its `ok` flag and body. -/
inductive Response where
  | failed
  | http (ok : Bool) (body : Body)
  deriving DecidableEq, Repr

/-- What is thrown inside the `try` block of `fetchWeather`. -/
inductive FetchError where
  | network
  | httpStatus
  | badJson
  | typeError
  deriving DecidableEq, Repr

/-- The function `Math.round`: nearest integer, halves upward. -/
def jsRound (v : ℚ) : ℤ :=
  ⌊v + 1 / 2⌋

/-- The assignment `obj[k] = v`: an existing entry is replaced in place, a new
one is appended. -/
def setProp {α : Type} (obj : List (String × α)) (k : String) (v : α) :
    List (String × α) :=
  match obj with
  | [] => [(k, v)]
  | e :: rest => if e.1 = k then (k, v) :: rest else e :: setProp rest k v

/-- The `try` block of `fetchWeather` (lines 24-49) up to the record it
builds: `.error` is an exception thrown inside the block, `.ok none` is a body
without `current`. The host `toLowerCase` is a parameter. The quotient
`wind_kph / 3.6` is exact here; the program rounds it to binary64 before
`Math.round`, which can change `windSpeed` by one when the exact quotient
is a half-integer. -/
def fetchAttempt (toLowerCase : String → String) (resp : Response) :
    Except FetchError (Option Snapshot) :=
  match resp with
  | .failed => .error .network
  | .http false _ => .error .httpStatus
  | .http true .unreadable => .error .badJson
  | .http true (.json none) => .ok none
  | .http true (.json (some current)) =>
    match current.condition with
    | none => .error .typeError
    | some condition =>
      .ok (some
        { temp := jsRound current.temp_c,
          humidity := current.humidity,
          condition := condition.text,
          icon := condition.icon,
          windSpeed := jsRound (current.wind_kph / (36 / 10)),
          description := toLowerCase condition.text })

/-- What one call of `fetchWeather` resolves to (`none` is `null`), the cache
after it, and whether it issued the network request. -/
structure FetchResult where
  result : Option Snapshot
  cache : List (String × Snapshot)
  requested : Bool
  deriving DecidableEq, Repr

/-- The function `fetchWeather(cityName, lat, lon)` (lines 15-56) on the
module cache `weatherCache`, with `resp` the outcome of the network request
if it is issued. The `catch` turns every exception of the `try` block into
the result `null`. The cache test is an own-property read: this is the
function of the program for every name whose cache key is not the name of a
member of `Object.prototype`; `Proto.fetchWeather` covers those names too. -/
def fetchWeather (toLowerCase : String → String) (cache : List (String × Snapshot))
    (resp : Response) (cityName : String) : FetchResult :=
  let cacheKey := toLowerCase cityName
  match getProp cache cacheKey with
  | some cached => { result := some cached, cache := cache, requested := false }
  | none =>
    match fetchAttempt toLowerCase resp with
    | .error _ => { result := none, cache := cache, requested := true }
    | .ok none => { result := none, cache := cache, requested := true }
    | .ok (some weatherData) =>
      { result := some weatherData, cache := setProp cache cacheKey weatherData,
        requested := true }

/-- The function `getCachedWeather(cityName)` (lines 83-85), with an
own-property read. -/
def getCachedWeather (toLowerCase : String → String)
    (cache : List (String × Snapshot)) (cityName : String) : Option Snapshot :=
  getProp cache (toLowerCase cityName)

/-- The cache after a sequence of `fetchWeather` calls, each with the name
asked for and the outcome of its request. -/
def fetchMany (toLowerCase : String → String) (cache : List (String × Snapshot)) :
    List (String × Response) → List (String × Snapshot)
  | [] => cache
  | call :: rest =>
    fetchMany toLowerCase (fetchWeather toLowerCase cache call.2 call.1).cache rest

/-- A lowercase function for the sample names: it lowers `Paris`, `PARIS` and
`Sunny` and leaves other strings as they are. -/
def sampleLower (name : String) : String :=
  if name = "Paris" ∨ name = "PARIS" then "paris"
  else if name = "Sunny" then "sunny" else name

/-- A weather record for Paris. -/
def sampleSnapshot : Snapshot where
  temp := 18
  humidity := 60
  condition := "Sunny"
  icon := "sun.png"
  windSpeed := 3
  description := "sunny"

/-- A cache holding the record for Paris. -/
def sampleCache : List (String × Snapshot) :=
  [("paris", sampleSnapshot)]

/-! ## Property reads through the prototype chain

The catalog objects, the module cache `weatherCache` and the cell
`weatherData` are plain objects, so a read `obj[k]` that finds no own
property `k` goes on to `Object.prototype`. The definitions of this section
model that read in full; `getProp` above is its own-property part, and the
two agree on every key that is not the name of a member of
`Object.prototype`. -/

/-- The names of the members of `Object.prototype`: what a read `obj[k]` on a
plain object finds when `obj` has no own property `k`. -/
def objectPrototypeNames : List String :=
  ["constructor", "__defineGetter__", "__defineSetter__", "hasOwnProperty",
   "__lookupGetter__", "__lookupSetter__", "isPrototypeOf", "propertyIsEnumerable",
   "toString", "valueOf", "__proto__", "toLocaleString"]

/-- The outcome of a read `obj[k]` on a plain object: the value of the own
property, the member of `Object.prototype` of that name (a function, or
`Object.prototype` itself for `__proto__`; truthy in every case), or
`undefined`. -/
inductive Read (α : Type) where
  | own (v : α)
  | inherited (member : String)
  | undefined
  deriving DecidableEq, Repr

/-- The read `obj[k]` on a plain object. -/
def readProp {α : Type} (obj : List (String × α)) (k : String) : Read α :=
  match getProp obj k with
  | some v => .own v
  | none => if k ∈ objectPrototypeNames then .inherited k else .undefined

/-- The property `name` of a member of `Object.prototype`: the function
`Object` for `constructor`, the member's own name for the other functions,
and `undefined` for `__proto__`, whose value `Object.prototype` has no
`name`. The properties `color`, `children`, `lat`, `lon`, `temp`,
`condition` and `humidity` of every member are `undefined`. -/
def memberName (member : String) : Option String :=
  if member = "__proto__" then none
  else if member = "constructor" then some "Object"
  else some member

/-- The string concatenation `v + suffix` for a value that is a string or
`undefined`. -/
def jsConcat (v : Option String) (suffix : String) : String :=
  match v with
  | some str => str ++ suffix
  | none => "undefined" ++ suffix

namespace Proto

/-- A call `fetchWeather(name, lat, lon)`; `none` is an argument that is
`undefined`. -/
structure FetchCall where
  name : Option String
  lat : Option ℚ
  lon : Option ℚ
  deriving DecidableEq, Repr

/-- State after a `setTimeout` callback, the `fetchWeather` calls it issued,
and whether it ended in an uncaught `TypeError`. -/
structure CommitResult where
  state : NavState
  fetches : List FetchCall
  threw : Bool
  deriving DecidableEq, Repr

/-- The `fetchWeather(city.name, city.lat, city.lon)` call for a catalog
city. -/
def fetchOf (city : City) : FetchCall :=
  { name := some city.name, lat := some city.lat, lon := some city.lon }

/-- Callback of `handleNodeClick` (`App.jsx`, lines 80-124), with every read
going through the prototype chain. Reading a property of `undefined` throws,
which skips the rest of the callback; a member of `Object.prototype` is an
object whose `color` and `children` are `undefined`, so `member.color` does
not throw, and `member.children[k]` and `Object.values(member.children)`
do. -/
def commitClick (wd : WorldData) (newLayer : Layer) (selection : String)
    (selectedContinent selectedCountry : Option String) (s : NavState) :
    CommitResult :=
  match newLayer with
  | .continent =>
    let s1 := { s with selectedContinent := some selection }
    match readProp wd.children selection with
    | .undefined => { state := s1, fetches := [], threw := true }
    | .own continent =>
      let s2 := { s1 with bgColor := continent.color ++ "30" }
      { state := pushLayer newLayer s2, fetches := [], threw := false }
    | .inherited _ =>
      let s2 := { s1 with bgColor := jsConcat none "30" }
      { state := pushLayer newLayer s2, fetches := [], threw := false }
  | .country =>
    let s1 := { s with selectedCountry := some selection }
    match readProp wd.children (jsKey selectedContinent) with
    | .undefined => { state := s1, fetches := [], threw := true }
    | .inherited _ => { state := s1, fetches := [], threw := true }
    | .own continent =>
      match readProp continent.children selection with
      | .undefined => { state := s1, fetches := [], threw := true }
      | .inherited _ =>
        { state := { s1 with bgColor := jsConcat none "20" }, fetches := [],
          threw := true }
      | .own country =>
        let s2 := { s1 with bgColor := country.color ++ "20" }
        { state := pushLayer newLayer s2,
          fetches := country.children.map (fun kc => fetchOf kc.2),
          threw := false }
  | .city =>
    let s1 := { s with selectedCity := some selection, bgColor := "#12192B" }
    match readProp wd.children (jsKey selectedContinent) with
    | .undefined => { state := s1, fetches := [], threw := true }
    | .inherited _ => { state := s1, fetches := [], threw := true }
    | .own continent =>
      match readProp continent.children (jsKey selectedCountry) with
      | .undefined => { state := s1, fetches := [], threw := true }
      | .inherited _ => { state := s1, fetches := [], threw := true }
      | .own country =>
        match readProp country.children selection with
        | .undefined => { state := s1, fetches := [], threw := true }
        | .inherited member =>
          { state := pushLayer newLayer s1,
            fetches := [{ name := memberName member, lat := none, lon := none }],
            threw := false }
        | .own city =>
          { state := pushLayer newLayer s1, fetches := [fetchOf city],
            threw := false }
  | .earth => { state := pushLayer newLayer s, fetches := [], threw := false }

/-- Callback of `goBack` (`App.jsx`, lines 148-169), with every read going
through the prototype chain. -/
def commitBack (wd : WorldData) (newHistory : List Layer) (prevLayer : Layer)
    (selectedContinent selectedCountry : Option String) (s : NavState) :
    CommitResult :=
  let s1 := { s with history := newHistory, layer := prevLayer }
  match prevLayer with
  | .earth =>
    { state := { s1 with bgColor := "#0A1628", selectedContinent := none,
                         selectedCountry := none, selectedCity := none },
      fetches := [], threw := false }
  | .continent =>
    match readProp wd.children (jsKey selectedContinent) with
    | .undefined => { state := s1, fetches := [], threw := true }
    | .inherited _ =>
      { state := { s1 with bgColor := jsConcat none "30",
                           selectedCountry := none, selectedCity := none },
        fetches := [], threw := false }
    | .own continent =>
      { state := { s1 with bgColor := continent.color ++ "30",
                           selectedCountry := none, selectedCity := none },
        fetches := [], threw := false }
  | .country =>
    match readProp wd.children (jsKey selectedContinent) with
    | .undefined => { state := s1, fetches := [], threw := true }
    | .inherited _ => { state := s1, fetches := [], threw := true }
    | .own continent =>
      match readProp continent.children (jsKey selectedCountry) with
      | .undefined => { state := s1, fetches := [], threw := true }
      | .inherited _ =>
        { state := { s1 with bgColor := jsConcat none "20",
                             selectedCity := none },
          fetches := [], threw := false }
      | .own country =>
        { state := { s1 with bgColor := country.color ++ "20",
                             selectedCity := none },
          fetches := [], threw := false }
  | .city => { state := s1, fetches := [], threw := false }

/-- Callback of `goHome` (`App.jsx`, lines 181-188); it reads no property. -/
def commitHome (s : NavState) : CommitResult :=
  { state := { s with layer := .earth, history := [.earth],
                      bgColor := "#0A1628", selectedContinent := none,
                      selectedCountry := none, selectedCity := none },
    fetches := [], threw := false }

/-- Running a scheduled callback on the state current when the timer fires. -/
def runCommit (wd : WorldData) (c : Commit) (s : NavState) : CommitResult :=
  match c with
  | .click newLayer selection selectedContinent selectedCountry =>
    commitClick wd newLayer selection selectedContinent selectedCountry s
  | .back newHistory prevLayer selectedContinent selectedCountry =>
    commitBack wd newHistory prevLayer selectedContinent selectedCountry s
  | .home => commitHome s

/-- The own-property result read as a result of this section. -/
def ofResult (r : TerraSphere.CommitResult) : CommitResult :=
  { state := r.state,
    fetches := r.fetches.map
      (fun f => { name := some f.name, lat := some f.lat, lon := some f.lon }),
    threw := r.threw }

/-- A value held by `weatherCache[k]` or `weatherData[k]`, or returned by
`fetchWeather`: a weather record, or a member of `Object.prototype`. -/
inductive FetchValue where
  | snapshot (weather : Snapshot)
  | inherited (member : String)
  deriving DecidableEq, Repr

/-- What one call of `fetchWeather` resolves to (`none` is `null`), the cache
after it, and whether it issued the network request. -/
structure FetchResult where
  result : Option FetchValue
  cache : List (String × Snapshot)
  requested : Bool
  deriving DecidableEq, Repr

/-- The function `fetchWeather(cityName, lat, lon)` (`weatherAPI.js`, lines
15-56) on the module cache `weatherCache = {}`, with `resp` the outcome of
the network request if it is issued. The test `if (weatherCache[cacheKey])`
is a read through the prototype chain: for a key that names a member of
`Object.prototype` it is truthy, and the member is returned at line 21. The
assignment of line 47 is reached only for other keys, so the cache holds
weather records only. -/
def fetchWeather (toLowerCase : String → String) (cache : List (String × Snapshot))
    (resp : Response) (cityName : String) : FetchResult :=
  let cacheKey := toLowerCase cityName
  match readProp cache cacheKey with
  | .own cached => { result := some (.snapshot cached), cache := cache, requested := false }
  | .inherited member =>
    { result := some (.inherited member), cache := cache, requested := false }
  | .undefined =>
    match fetchAttempt toLowerCase resp with
    | .error _ => { result := none, cache := cache, requested := true }
    | .ok none => { result := none, cache := cache, requested := true }
    | .ok (some weatherData) =>
      { result := some (.snapshot weatherData),
        cache := setProp cache cacheKey weatherData, requested := true }

/-- The `then` handler of `App.jsx` (lines 93-100 and 112-119) on the cell
`weatherData`: `if (data) setWeatherData(prev => (…prev, [name]: data))`.
Every non-null result of `fetchWeather` is truthy; the computed key creates an
own property. -/
def onWeatherFetched (toLowerCase : String → String)
    (weatherData : List (String × FetchValue)) (cityName : String)
    (data : Option FetchValue) : List (String × FetchValue) :=
  match data with
  | none => weatherData
  | some d => setProp weatherData (toLowerCase cityName) d

end Proto

/-! ## Tooltip (`components/WeatherTooltip.jsx`) -/

/-- The `weather` part of a tooltip; `none` is a field that is `undefined`. -/
structure TooltipWeather where
  temp : Option ℤ
  condition : Option String
  humidity : Option ℚ
  deriving DecidableEq, Repr

/-- The object `getTooltipContent` returns when it does not return null;
`none` is a field that is `undefined` (or, for `weather`, null). -/
structure TooltipContent where
  name : Option String
  type : String
  icon : String
  color : Option String
  weather : Option TooltipWeather
  deriving DecidableEq, Repr

/-- The expression `weather ? (temp: weather.temp, …) : null` (lines 58-64) on
the outcome of the read `weatherData[…]`: a member of `Object.prototype` is
truthy and has none of the three fields. -/
def weatherPart (weather : Read Proto.FetchValue) : Option TooltipWeather :=
  match weather with
  | .undefined => none
  | .own (.snapshot w) =>
    some { temp := some w.temp, condition := some w.condition,
           humidity := some w.humidity }
  | .own (.inherited _) => some { temp := none, condition := none, humidity := none }
  | .inherited _ => some { temp := none, condition := none, humidity := none }

/-- The function `getTooltipContent` (lines 19-72) for a truthy `hoveredNode`;
`none` is null. The reads go through the prototype chain: a member of
`Object.prototype` passes the guards `if (!continent)`, `if (!country)`,
`if (!city)` and fails the guards `!continent.children`,
`!country.children`. The one exception the body can raise,
`city.name.toLowerCase()` on a `city` without `name`, is caught by the
`try`/`catch` and gives null. -/
def getTooltipContent (toLowerCase : String → String) (wd : WorldData)
    (layer : Layer) (hoveredNode : String)
    (selectedContinent selectedCountry : Option String)
    (weatherData : List (String × Proto.FetchValue)) : Option TooltipContent :=
  match layer with
  | .earth =>
    match readProp wd.children hoveredNode with
    | .undefined => none
    | .own continent =>
      some { name := some continent.name, type := "Continent", icon := "🌍",
             color := some continent.color, weather := none }
    | .inherited member =>
      some { name := memberName member, type := "Continent", icon := "🌍",
             color := none, weather := none }
  | .continent =>
    if jsFalsy selectedContinent then none
    else
      match readProp wd.children (jsKey selectedContinent) with
      | .undefined => none
      | .inherited _ => none
      | .own continent =>
        match readProp continent.children hoveredNode with
        | .undefined => none
        | .own country =>
          some { name := some country.name, type := "Country", icon := "🏴",
                 color := some country.color, weather := none }
        | .inherited member =>
          some { name := memberName member, type := "Country", icon := "🏴",
                 color := none, weather := none }
  | .country =>
    if jsFalsy selectedContinent || jsFalsy selectedCountry then none
    else
      match readProp wd.children (jsKey selectedContinent) with
      | .undefined => none
      | .inherited _ => none
      | .own continent =>
        match readProp continent.children (jsKey selectedCountry) with
        | .undefined => none
        | .inherited _ => none
        | .own country =>
          match readProp country.children hoveredNode with
          | .undefined => none
          | .own city =>
            some { name := some city.name, type := "City", icon := "🏙️",
                   color := some country.color,
                   weather := weatherPart (readProp weatherData (toLowerCase city.name)) }
          | .inherited member =>
            match memberName member with
            | none => none
            | some cityName =>
              some { name := some cityName, type := "City", icon := "🏙️",
                     color := some country.color,
                     weather := weatherPart (readProp weatherData (toLowerCase cityName)) }
  | .city => none

/-- What the component `WeatherTooltip` (lines 9-136) renders: `none` when it
returns null, otherwise the content it lays out. -/
def WeatherTooltip (toLowerCase : String → String) (wd : WorldData)
    (hoveredNode : Option String) (layer : Layer)
    (selectedContinent selectedCountry : Option String)
    (weatherData : List (String × Proto.FetchValue)) : Option TooltipContent :=
  if jsFalsy hoveredNode then none
  else
    getTooltipContent toLowerCase wd layer (jsKey hoveredNode) selectedContinent
      selectedCountry weatherData

/-- The key names a catalog node in the scope of the layer and selection: a
continent at Planet, a country of the selected continent at Continent, a city
of the selected country at Country; nothing at City. -/
def hoverResolves (wd : WorldData) (layer : Layer)
    (selectedContinent selectedCountry : Option String) (k : String) : Bool :=
  match layer with
  | .earth => (getProp wd.children k).isSome
  | .continent =>
    match getProp wd.children (jsKey selectedContinent) with
    | none => false
    | some continent => (getProp continent.children k).isSome
  | .country =>
    match getProp wd.children (jsKey selectedContinent) with
    | none => false
    | some continent =>
      match getProp continent.children (jsKey selectedCountry) with
      | none => false
      | some country => (getProp country.children k).isSome
  | .city => false

/-! ## The two halves of a `fetchWeather` call

`fetchWeather` is an `async` function: the part before the first `await`
runs when it is called, the part after the response runs later, on the cache
as it is then. Other calls can run in between. -/

/-- The part of `fetchWeather` before `await fetch(…)` (lines 16-27):
`some cached` is a cache hit, returned at once; `none` means the request was
issued and the call is in flight. -/
def fetchStart (toLowerCase : String → String) (cache : List (String × Snapshot))
    (cityName : String) : Option Snapshot :=
  getProp cache (toLowerCase cityName)

/-- The part of `fetchWeather` after the response arrived (lines 30-56), for a
call in flight, on the cache current at that time: what the call resolves to
and the cache after it. -/
def fetchFinish (toLowerCase : String → String) (cache : List (String × Snapshot))
    (resp : Response) (cityName : String) : Option Snapshot × List (String × Snapshot) :=
  match fetchAttempt toLowerCase resp with
  | .error _ => (none, cache)
  | .ok none => (none, cache)
  | .ok (some weatherData) =>
    (some weatherData, setProp cache (toLowerCase cityName) weatherData)

/-- A successful response body for Paris with the given temperature. -/
def sampleResponse (temp_c : ℚ) : Response :=
  .http true (.json (some
    { temp_c := temp_c, humidity := 60,
      condition := some { text := "Sunny", icon := "sun.png" }, wind_kph := 10 }))

/-! ## Temperature colours (`utils/weatherAPI.js`, lines 58-68) -/

/-- The function `getColorForTemp(temp)` on a temperature in degrees Celsius. -/
def getColorForTemp (temp : ℚ) : String :=
  if temp < 10 then "#4DA6FF"
  else if temp < 20 then "#66CC66"
  else if temp < 30 then "#FF9933"
  else "#FF4C4C"

/-- A catalog in which the continent `australia` has a country with the same
key. -/
def collidingWorld : WorldData where
  children :=
    [("australia",
      { name := "Australia (continent)", color := "#2E8B57",
        position := { x := 3 / 4, y := 1 },
        children :=
          [("australia",
            { name := "Australia (country)", color := "#20B2AA",
              children :=
                [("sydney", { name := "Sydney", lat := -3387 / 100, lon := 15121 / 100 })] })] })]

/-- The background colour is the one the last commit derived for the layer:
the default at Planet, the selected continent's colour with `'30'` at
Continent, the selected country's colour with `'20'` at Country, and
`'#12192B'` at City. -/
def bgTracksLayer (wd : WorldData) (s : NavState) : Prop :=
  match s.layer with
  | .earth => s.bgColor = "#0A1628"
  | .continent =>
    ∃ continent, getProp wd.children (jsKey s.selectedContinent) = some continent ∧
      s.bgColor = continent.color ++ "30"
  | .country =>
    ∃ continent country,
      getProp wd.children (jsKey s.selectedContinent) = some continent ∧
      getProp continent.children (jsKey s.selectedCountry) = some country ∧
      s.bgColor = country.color ++ "20"
  | .city => s.bgColor = "#12192B"

/-- The idle state at Planet of the sample catalog after a click on the key
`atlantis`, which names no continent: the callback recorded the key and
threw. -/
def sampleStaleState : NavState where
  layer := .earth
  history := [.earth]
  selectedContinent := some "atlantis"
  selectedCountry := none
  selectedCity := none
  hoveredNode := none
  transitioning := false
  bgColor := "#0A1628"
  zoomProgress := 0
  zoomDirection := .zoomIn

/-! ## Binary64 arithmetic

JavaScript numbers are IEEE 754 binary64 values, and every arithmetic
operation returns the binary64 value nearest to the exact result, ties to
the even significand. A finite number is written here as `mant * 2 ^ exp`
with integers `mant` and `exp`; the operations compute the exact result on
integers and round it to 53 significant bits. Infinities, NaN, the sign of
zero, overflow and subnormal numbers are outside the model: canvas sizes and
pointer coordinates are far inside the range where none of them arises. -/

/-- The number of binary digits of `n`, with `fuel` steps. -/
def bitLengthAux : ℕ → ℕ → ℕ
  | 0, _ => 0
  | fuel + 1, n => if n = 0 then 0 else bitLengthAux fuel (n / 2) + 1

/-- The number of binary digits of `n`: 0 for 0, and `k + 1` when
`2 ^ k ≤ n < 2 ^ (k + 1)`. -/
def bitLength (n : ℕ) : ℕ := bitLengthAux n n

/-- The integer square root, one binary digit at a time from digit `b - 1`
down, starting from `r`. -/
def isqrtAux (n : ℕ) : ℕ → ℕ → ℕ
  | 0, r => r
  | b + 1, r =>
    if (r + 2 ^ b) * (r + 2 ^ b) ≤ n then isqrtAux n b (r + 2 ^ b) else isqrtAux n b r

/-- The integer square root of `n`: the largest `r` with `r * r ≤ n`. -/
def isqrt (n : ℕ) : ℕ := isqrtAux n (bitLength n / 2 + 1) 0

/-- A finite JavaScript number, `mant * 2 ^ exp`. -/
structure Double where
  mant : ℤ
  exp : ℤ
  deriving DecidableEq, Repr

namespace Double

/-- The rational value of a number. -/
def toRat (a : Double) : ℚ := (a.mant : ℚ) * (2 : ℚ) ^ a.exp

/-- Rounding of `n * 2 ^ e` to 53 significant bits, to nearest, ties to the
even significand: the digits below the 53rd are cut off, and the significand
is incremented when they are more than half a unit, or exactly half with the
significand odd. -/
def roundNat (n : ℕ) (e : ℤ) : ℕ × ℤ :=
  let len := bitLength n
  if len ≤ 53 then (n, e)
  else
    let s := len - 53
    let q := n / 2 ^ s
    let r := n % 2 ^ s
    let half := 2 ^ (s - 1)
    if half < r ∨ (r = half ∧ q % 2 = 1) then (q + 1, e + s) else (q, e + s)

/-- Rounding of `m * 2 ^ e` to binary64. -/
def round (m e : ℤ) : Double :=
  let p := roundNat m.natAbs e
  { mant := if m < 0 then -(p.1 : ℤ) else p.1, exp := p.2 }

/-- The two numbers written with their common, smaller exponent. -/
def align (a b : Double) : ℤ × ℤ × ℤ :=
  let e := min a.exp b.exp
  (a.mant * 2 ^ (a.exp - e).toNat, b.mant * 2 ^ (b.exp - e).toNat, e)

/-- The sum `a + b`. -/
def add (a b : Double) : Double :=
  let t := align a b
  round (t.1 + t.2.1) t.2.2

/-- The difference `a - b`. -/
def sub (a b : Double) : Double :=
  let t := align a b
  round (t.1 - t.2.1) t.2.2

/-- The product `a * b`. -/
def mul (a b : Double) : Double :=
  round (a.mant * b.mant) (a.exp + b.exp)

/-- The power `a ** 2`, which the engines compute as the product `a * a`. -/
def sq (a : Double) : Double := mul a a

/-- The quotient `a / b` for `b` other than zero (a zero divisor is outside
the model and is given the value zero). The quotient of the significands is
computed with at least 57 binary digits, and a digit is appended that records
whether the division left a remainder, so that rounding sees on which side of
a half unit the exact quotient lies. -/
def div (a b : Double) : Double :=
  let n1 := a.mant.natAbs
  let n2 := b.mant.natAbs
  if n1 = 0 ∨ n2 = 0 then { mant := 0, exp := 0 }
  else
    let k := 56 + bitLength n2
    let q := n1 * 2 ^ k / n2
    let r := n1 * 2 ^ k % n2
    let x : ℕ := 2 * q + (if r = 0 then 0 else 1)
    let p := roundNat x (a.exp - b.exp - k - 1)
    { mant := if decide (a.mant < 0) = decide (b.mant < 0) then (p.1 : ℤ) else -(p.1 : ℤ),
      exp := p.2 }

/-- The value `Math.sqrt(a)` for `a ≥ 0` (a negative argument is outside the
model and is given the value zero): the integer square root of the
significand scaled to at least 113 binary digits, with a digit appended that
records whether the root is inexact, rounded to binary64. -/
def sqrt (a : Double) : Double :=
  if a.mant ≤ 0 then { mant := 0, exp := 0 }
  else
    let k : ℕ := if (a.exp - 112) % 2 = 0 then 112 else 113
    let n := a.mant.natAbs * 2 ^ k
    let s := isqrt n
    let x : ℕ := 2 * s + (if s * s = n then 0 else 1)
    let p := roundNat x ((a.exp - k) / 2 - 1)
    { mant := p.1, exp := p.2 }

/-- The comparison `a < b`, which is exact. -/
def lt (a b : Double) : Bool :=
  let t := align a b
  decide (t.1 < t.2.1)

/-- The value `Math.min(a, b)`. -/
def min (a b : Double) : Double := if lt b a then b else a

/-- The remainder `a % b` for `b` other than zero (a zero divisor is outside
the model and is given the value zero): it is exact and has the sign of
`a`. -/
def mod (a b : Double) : Double :=
  let t := align a b
  if t.2.1 = 0 then { mant := 0, exp := 0 }
  else
    { mant := if t.1 < 0 then -((t.1.natAbs % t.2.1.natAbs : ℕ) : ℤ)
              else ((t.1.natAbs % t.2.1.natAbs : ℕ) : ℤ),
      exp := t.2.2 }

/-- The integer part of `n * 2 ^ e`, rounded down. -/
def natFloor (n : ℕ) (e : ℤ) : ℕ :=
  if 0 ≤ e then n * 2 ^ e.toNat else n / 2 ^ (-e).toNat

/-- The integer part of `n * 2 ^ e`, rounded up. -/
def natCeil (n : ℕ) (e : ℤ) : ℕ :=
  if 0 ≤ e then n * 2 ^ e.toNat else (n + 2 ^ (-e).toNat - 1) / 2 ^ (-e).toNat

/-- The value `Math.floor(a)`. -/
def floor (a : Double) : Double :=
  if 0 ≤ a.mant then { mant := (natFloor a.mant.natAbs a.exp : ℕ), exp := 0 }
  else { mant := -((natCeil a.mant.natAbs a.exp : ℕ) : ℤ), exp := 0 }

/-- The value `Math.ceil(a)`. -/
def ceil (a : Double) : Double :=
  if 0 ≤ a.mant then { mant := (natCeil a.mant.natAbs a.exp : ℕ), exp := 0 }
  else { mant := -((natFloor a.mant.natAbs a.exp : ℕ) : ℤ), exp := 0 }

/-- An integer such as `canvas.width`, `entries.length`, a loop index or an
integer literal, as a number. -/
def ofNat (n : ℕ) : Double := round (n : ℤ) 0

/-- The decimal literal with value `num / den`, such as `0.22` for
`22 / 100`: the binary64 value nearest to it. -/
def lit (num den : ℕ) : Double :=
  div { mant := (num : ℤ), exp := 0 } { mant := (den : ℤ), exp := 0 }

/-- A number of the catalog with decimal value `q`: the binary64 value nearest
to it. -/
def ofRat (q : ℚ) : Double :=
  div { mant := q.num, exp := 0 } { mant := (q.den : ℤ), exp := 0 }

end Double

/-! ## Hover hit-testing in binary64 (`CanvasRenderer.jsx`, lines 616-674)

The hover functions with the arithmetic of the program: the formulas are
those of `earthNode`, `gridNode` and `isHit` above, which carry them out in
exact arithmetic. -/

namespace Binary64

/-- The members of the host `Math` object that the renderer uses besides
`Math.sqrt`, `Math.min`, `Math.ceil` and `Math.floor`, as a parameter. -/
structure JsMath where
  PI : Double
  cos : Double → Double
  sin : Double → Double

/-- A node as the hover loops see it: the entry key and the centre
`(nodeX, nodeY)` computed for it. -/
structure Node where
  key : String
  nodeX : Double
  nodeY : Double
  deriving DecidableEq, Repr

/-- The value `distance = Math.sqrt((x - nodeX) ** 2 + (y - nodeY) ** 2)`. -/
def distance (x y : Double) (n : Node) : Double :=
  Double.sqrt (Double.add (Double.sq (Double.sub x n.nodeX))
    (Double.sq (Double.sub y n.nodeY)))

/-- The hover loops: `for (…) { … if (distance < r) return key; } return null`. -/
def firstHit (r x y : Double) : List Node → Option String
  | [] => none
  | n :: rest =>
    if Double.lt (distance x y n) r then some n.key else firstHit r x y rest

/-- Body of the Planet loop (lines 623-626) for one entry, on a `w` by `h`
canvas with rotation `rotation`. -/
def earthNode (M : JsMath) (w h : ℕ) (rotation : Double)
    (entry : String × Continent) : Node :=
  let cx := Double.div (Double.ofNat w) (Double.ofNat 2)
  let cy := Double.div (Double.ofNat h) (Double.ofNat 2)
  let radius := Double.mul (Double.min (Double.ofNat w) (Double.ofNat h)) (Double.lit 28 100)
  let angle :=
    Double.add
      (Double.mul (Double.mul (Double.ofRat entry.2.position.x) M.PI) (Double.ofNat 2))
      rotation
  let dist := Double.mul radius (Double.lit 75 100)
  { key := entry.1,
    nodeX :=
      Double.add cx
        (Double.mul (Double.mul (M.cos angle) dist) (Double.ofRat entry.2.position.y)),
    nodeY :=
      Double.add cy
        (Double.mul (Double.mul (M.sin angle) dist) (Double.ofRat entry.2.position.y)) }

/-- The Planet nodes in `Object.entries` order. -/
def earthNodes (M : JsMath) (wd : WorldData) (w h : ℕ) (rotation : Double) :
    List Node :=
  wd.children.map (earthNode M w h rotation)

/-- Body of the grid loops (lines 644-647 and 665-668) for the entry `key` at
position `index`, with `cols` columns; `factor` is `0.22` or `0.25`. -/
def gridNode (factor : Double) (w h : ℕ) (cols : Double) (index : ℕ)
    (key : String) : Node :=
  let spacing := Double.mul (Double.min (Double.ofNat w) (Double.ofNat h)) factor
  let startX :=
    Double.sub (Double.div (Double.ofNat w) (Double.ofNat 2))
      (Double.div (Double.mul cols spacing) (Double.ofNat 2))
  let startY := Double.div (Double.ofNat h) (Double.ofNat 2)
  let col := Double.mod (Double.ofNat index) cols
  let row := Double.floor (Double.div (Double.ofNat index) cols)
  { key := key,
    nodeX :=
      Double.add (Double.add startX (Double.mul col spacing))
        (Double.div spacing (Double.ofNat 2)),
    nodeY :=
      Double.sub (Double.add startY (Double.mul row spacing)) (Double.ofNat 30) }

/-- The grid nodes for the keys from position `index` on. -/
def gridNodesFrom (factor : Double) (w h : ℕ) (cols : Double) :
    ℕ → List String → List Node
  | _, [] => []
  | index, key :: rest =>
    gridNode factor w h cols index key ::
      gridNodesFrom factor w h cols (index + 1) rest

/-- The grid nodes of a layer, in `Object.entries` order, with
`cols = Math.ceil(Math.sqrt(entries.length))`. -/
def gridNodes (factor : Double) (w h : ℕ) (keys : List String) : List Node :=
  gridNodesFrom factor w h
    (Double.ceil (Double.sqrt (Double.ofNat keys.length))) 0 keys

/-- Function `checkEarthNodeHover(x, y, canvas)` (lines 616-632). -/
def checkEarthNodeHover (M : JsMath) (wd : WorldData) (rotation x y : Double)
    (w h : ℕ) : Option String :=
  firstHit (Double.ofNat 25) x y (earthNodes M wd w h rotation)

/-- Function `checkContinentNodeHover(x, y, canvas)` (lines 634-653). -/
def checkContinentNodeHover (wd : WorldData) (selectedContinent : Option String)
    (x y : Double) (w h : ℕ) : Except JsError (Option String) :=
  match countriesOf wd selectedContinent with
  | .error e => .error e
  | .ok countries =>
    .ok (firstHit (Double.ofNat 50) x y
      (gridNodes (Double.lit 22 100) w h (keysOf countries)))

/-- Function `checkCountryNodeHover(x, y, canvas)` (lines 655-674). -/
def checkCountryNodeHover (wd : WorldData)
    (selectedContinent selectedCountry : Option String)
    (x y : Double) (w h : ℕ) : Except JsError (Option String) :=
  match citiesOf wd selectedContinent selectedCountry with
  | .error e => .error e
  | .ok cities =>
    .ok (firstHit (Double.ofNat 55) x y
      (gridNodes (Double.lit 25 100) w h (keysOf cities)))

/-- The result `res` is the key of the first node of `nodes`, in list order,
whose computed distance from the pointer is strictly less than `r`, and is
null exactly when no node has one. -/
def FirstComputed (r : ℚ) (x y : Double) (nodes : List Node)
    (res : Option String) : Prop :=
  (res = none ↔ ∀ n ∈ nodes, ¬ (distance x y n).toRat < r) ∧
    ∀ k, res = some k ↔
      ∃ (i : ℕ) (n : Node), nodes[i]? = some n ∧ n.key = k ∧
        (distance x y n).toRat < r ∧
        ∀ (j : ℕ) (m : Node), j < i → nodes[j]? = some m →
          ¬ (distance x y m).toRat < r

end Binary64

/-- The five countries `a` to `e` of the continent of `fiveWorld`. -/
def fiveCountries : List (String × Country) :=
  [("a", { name := "A", color := "#101010", children := [] }),
   ("b", { name := "B", color := "#202020", children := [] }),
   ("c", { name := "C", color := "#303030", children := [] }),
   ("d", { name := "D", color := "#404040", children := [] }),
   ("e", { name := "E", color := "#505050", children := [] })]

/-- A catalog whose continent `europe` has five countries, laid out in three
columns. -/
def fiveWorld : WorldData where
  children :=
    [("europe",
      { name := "Europe", color := "#3B7DD8", position := { x := 1 / 2, y := 1 },
        children := fiveCountries })]

/-- The pointer abscissa `273.1999999999996`
(`0x1.113333333332cp+8`). -/
def offGridX : Double := { mant := 4806185227334444, exp := -44 }

/-- The pointer ordinate `338.0000000000001`
(`0x1.5200000000002p+8`). -/
def offGridY : Double := { mant := 5946158883012610, exp := -44 }

/-- A catalog whose continent `europe` has one country, keyed
`constructor`. -/
def memberKeyWorld : WorldData where
  children :=
    [("europe",
      { name := "Europe", color := "#3B7DD8", position := { x := 1 / 2, y := 1 },
        children :=
          [("constructor",
            { name := "Constructor", color := "#AA3333", children := [] })] })]

/-- The idle state at Continent(europe) of `memberKeyWorld` with the pointer
resting on the country node `constructor`. -/
def memberHoverState : NavState where
  layer := .continent
  history := [.earth, .continent]
  selectedContinent := some "europe"
  selectedCountry := none
  selectedCity := none
  hoveredNode := some "constructor"
  transitioning := false
  bgColor := "#3B7DD830"
  zoomProgress := 0
  zoomDirection := .zoomIn

/-! # Theorems -/

/-! ## Rejected commands -/

/-- C1: in a state with an active transition (`transitioning = true`),
`handleNodeClick` (for every target layer and key), `goBack` and `goHome`
return the state unchanged, so layer, the three selection keys and history
are unchanged, and schedule no deferred commit. -/
theorem commands_rejected_while_transitioning (s : NavState)
    (h : s.transitioning = true) (newLayer : Layer) (selection : String) :
    handleNodeClick s newLayer selection = (s, none) ∧
      goBack s = (s, none) ∧ goHome s = (s, none) := by
  refine ⟨?_, ?_, ?_⟩
  · simp [handleNodeClick, h]
  · simp [goBack, h]
  · simp [goHome, h]

/-- Witness of C1 at the initial state with the transition flag raised. -/
theorem commands_rejected_while_transitioning_witness :
    ({ initialState with transitioning := true } : NavState).transitioning = true ∧
      (handleNodeClick { initialState with transitioning := true } .continent "asia"
          = ({ initialState with transitioning := true }, none) ∧
        goBack { initialState with transitioning := true }
          = ({ initialState with transitioning := true }, none) ∧
        goHome { initialState with transitioning := true }
          = ({ initialState with transitioning := true }, none)) :=
  ⟨rfl, commands_rejected_while_transitioning
    { initialState with transitioning := true } rfl .continent "asia"⟩

/-- C2: in an idle state, `handleNodeClick` at layer City (any target layer
and key), `goBack` with a history of length at most 1 and `goHome` at layer
Planet each return the whole state unchanged and schedule no deferred
commit. -/
theorem invalid_commands_ignored_when_idle (s : NavState)
    (_hidle : s.transitioning = false) :
    (s.layer = .city →
        ∀ (newLayer : Layer) (selection : String),
          handleNodeClick s newLayer selection = (s, none)) ∧
      (s.history.length ≤ 1 → goBack s = (s, none)) ∧
      (s.layer = .earth → goHome s = (s, none)) := by
  refine ⟨?_, ?_, ?_⟩
  · intro hcity newLayer selection
    simp [handleNodeClick, hcity]
  · intro hlen
    simp [goBack, hlen]
  · intro hearth
    simp [goHome, hearth]

/-- Witness of C2: the initial state (Planet, history of length 1) for
`goBack` and `goHome`, and the same state moved to City for the click. -/
theorem invalid_commands_ignored_when_idle_witness :
    initialState.transitioning = false ∧
      goBack initialState = (initialState, none) ∧
      goHome initialState = (initialState, none) ∧
      handleNodeClick { initialState with layer := .city } .city "paris"
        = ({ initialState with layer := .city }, none) :=
  ⟨rfl,
   (invalid_commands_ignored_when_idle initialState rfl).2.1 (by decide),
   (invalid_commands_ignored_when_idle initialState rfl).2.2 rfl,
   (invalid_commands_ignored_when_idle { initialState with layer := .city } rfl).1
     rfl .city "paris"⟩

/-! ## Accepted commands -/

/-- C3: in an idle state with layer other than City, a `handleNodeClick`
whose key resolves in the catalog under the current selection immediately
sets `transitioning` and direction `'in'` and leaves layer, selection keys
and history as they are; its deferred commit then sets the selection key of
the target layer to the key, sets the layer to the target layer, appends the
target layer to the history and leaves the other selection keys unchanged. -/
theorem click_then_commit (wd : WorldData) (s : NavState) (newLayer : Layer)
    (selection : String) (hidle : s.transitioning = false)
    (hlayer : s.layer ≠ .city)
    (hres : resolves wd s newLayer selection = true) :
    (handleNodeClick s newLayer selection).1.transitioning = true ∧
      (handleNodeClick s newLayer selection).1.zoomDirection = .zoomIn ∧
      (handleNodeClick s newLayer selection).1.layer = s.layer ∧
      (handleNodeClick s newLayer selection).1.history = s.history ∧
      (∀ l, selectionAt (handleNodeClick s newLayer selection).1 l = selectionAt s l) ∧
      ∃ c, (handleNodeClick s newLayer selection).2 = some c ∧
        (runCommit wd c (handleNodeClick s newLayer selection).1).threw = false ∧
        selectionAt (runCommit wd c (handleNodeClick s newLayer selection).1).state
            newLayer = some selection ∧
        (runCommit wd c (handleNodeClick s newLayer selection).1).state.layer
            = newLayer ∧
        (runCommit wd c (handleNodeClick s newLayer selection).1).state.history
            = s.history ++ [newLayer] ∧
        ∀ l, l ≠ newLayer →
          selectionAt (runCommit wd c (handleNodeClick s newLayer selection).1).state l
            = selectionAt s l := by
  have hcall : handleNodeClick s newLayer selection
      = ({ s with transitioning := true, zoomDirection := .zoomIn },
         some (.click newLayer selection s.selectedContinent s.selectedCountry)) := by
    simp [handleNodeClick, hidle, hlayer]
  rw [hcall]
  refine ⟨rfl, rfl, rfl, rfl, ?_, _, rfl, ?_⟩
  · intro l; cases l <;> rfl
  · cases newLayer with
    | earth => simp [resolves] at hres
    | continent =>
      simp only [resolves] at hres
      obtain ⟨continent, hc⟩ := Option.isSome_iff_exists.mp hres
      simp only [runCommit, commitClick, hc]
      refine ⟨trivial, rfl, rfl, rfl, ?_⟩
      intro l hl; cases l <;> first | rfl | exact absurd rfl hl
    | country =>
      simp only [resolves] at hres
      cases hcont : getProp wd.children (jsKey s.selectedContinent) with
      | none => simp [hcont] at hres
      | some continent =>
        simp only [hcont] at hres
        obtain ⟨country, hc⟩ := Option.isSome_iff_exists.mp hres
        simp only [runCommit, commitClick, hcont, hc]
        refine ⟨trivial, rfl, rfl, rfl, ?_⟩
        intro l hl; cases l <;> first | rfl | exact absurd rfl hl
    | city =>
      simp only [resolves] at hres
      cases hcont : getProp wd.children (jsKey s.selectedContinent) with
      | none => simp [hcont] at hres
      | some continent =>
        simp only [hcont] at hres
        cases hcountry : getProp continent.children (jsKey s.selectedCountry) with
        | none => simp [hcountry] at hres
        | some country =>
          simp only [hcountry] at hres
          obtain ⟨city, hc⟩ := Option.isSome_iff_exists.mp hres
          simp only [runCommit, commitClick, hcont, hcountry, hc]
          refine ⟨trivial, rfl, rfl, rfl, ?_⟩
          intro l hl; cases l <;> first | rfl | exact absurd rfl hl

/-- Witness of C3: the first click on the sample catalog. -/
theorem click_then_commit_witness :
    initialState.transitioning = false ∧ initialState.layer ≠ .city ∧
      resolves sampleWorld initialState .continent "europe" = true ∧
      (handleNodeClick initialState .continent "europe").1.transitioning = true :=
  ⟨rfl, by decide, by decide,
   (click_then_commit sampleWorld initialState .continent "europe" rfl
      (by decide) (by decide)).1⟩

/-- C5: in an idle state with layer other than Planet, whatever its history
and selections, `goHome` schedules a commit that yields layer Planet,
history `['earth']`, the three selection keys null and the default
background colour `'#0A1628'`. -/
theorem goHome_then_commit (wd : WorldData) (s : NavState)
    (hidle : s.transitioning = false) (hlayer : s.layer ≠ .earth) :
    ∃ c, (goHome s).2 = some c ∧
      (runCommit wd c (goHome s).1).state.layer = .earth ∧
      (runCommit wd c (goHome s).1).state.history = [.earth] ∧
      (runCommit wd c (goHome s).1).state.selectedContinent = none ∧
      (runCommit wd c (goHome s).1).state.selectedCountry = none ∧
      (runCommit wd c (goHome s).1).state.selectedCity = none ∧
      (runCommit wd c (goHome s).1).state.bgColor = "#0A1628" := by
  have hcall : goHome s
      = ({ s with transitioning := true, zoomDirection := .zoomOut }, some .home) := by
    simp [goHome, hidle, hlayer]
  rw [hcall]
  exact ⟨_, rfl, rfl, rfl, rfl, rfl, rfl, rfl⟩

/-- Witness of C5 at City(europe, france, paris) of the sample catalog. -/
theorem goHome_then_commit_witness :
    sampleCityState.transitioning = false ∧ sampleCityState.layer ≠ .earth ∧
      ∃ c, (goHome sampleCityState).2 = some c ∧
        (runCommit sampleWorld c (goHome sampleCityState).1).state.layer = .earth ∧
        (runCommit sampleWorld c (goHome sampleCityState).1).state.history = [.earth] ∧
        (runCommit sampleWorld c (goHome sampleCityState).1).state.selectedContinent = none ∧
        (runCommit sampleWorld c (goHome sampleCityState).1).state.selectedCountry = none ∧
        (runCommit sampleWorld c (goHome sampleCityState).1).state.selectedCity = none ∧
        (runCommit sampleWorld c (goHome sampleCityState).1).state.bgColor = "#0A1628" :=
  ⟨rfl, by decide, goHome_then_commit sampleWorld sampleCityState rfl (by decide)⟩

/-! ## Invariants -/

/-- The frame at 800 ms ends the transition and resets the progress. -/
theorem animate_end (s : NavState) :
    (animate 0 800 s).1 = { s with transitioning := false, zoomProgress := 0 } := by
  simp [animate]

/-- A command that schedules nothing settles to the state it returned. -/
theorem settle_none (wd : WorldData) (s : NavState) : settle wd (s, none) = s := rfl

/-- A command that schedules a commit settles to the committed state with
the transition ended. -/
theorem settle_some (wd : WorldData) (s : NavState) (c : Commit) :
    settle wd (s, some c)
      = { (runCommit wd c s).state with transitioning := false, zoomProgress := 0 } := by
  simp [settle, animate_end]

/-- The initial state satisfies the invariant. -/
theorem navInv_initial (wd : WorldData) : NavInv wd initialState :=
  ⟨rfl, rfl, rfl⟩

/-- A set selection cell is used as its own property key. -/
theorem jsKey_some (k : String) : jsKey (some k) = k := rfl

/-- A descending command preserves the invariant. -/
theorem navInv_exec (wd : WorldData) (s : NavState) (c : Cmd)
    (hinv : NavInv wd s) (hd : descends s c = true) : NavInv wd (exec wd s c) := by
  obtain ⟨layer, history, sc, sco, sci, hov, tr, bg, zp, zd⟩ := s
  obtain ⟨htr, hhist, hres⟩ := hinv
  simp only at htr hhist
  subst htr hhist
  cases c with
  | click newLayer selection =>
    cases layer with
    | earth =>
      cases newLayer <;> simp [descends, Layer.depth] at hd
      cases h1 : getProp wd.children selection <;>
        simp [exec, issue, handleNodeClick, settle, animate_end, runCommit, commitClick,
          NavInv, resolvedUpTo, layersUpTo, pushLayer, h1, jsKey_some]
    | continent =>
      cases newLayer <;> simp [descends, Layer.depth] at hd
      simp only [resolvedUpTo] at hres
      obtain ⟨continent, h1⟩ := Option.isSome_iff_exists.mp hres
      cases h2 : getProp continent.children selection <;>
        simp [exec, issue, handleNodeClick, settle, animate_end, runCommit, commitClick,
          NavInv, resolvedUpTo, layersUpTo, pushLayer, h1, h2, jsKey_some]
    | country =>
      cases newLayer <;> simp [descends, Layer.depth] at hd
      simp only [resolvedUpTo] at hres
      cases h1 : getProp wd.children (jsKey sc) with
      | none => simp [h1] at hres
      | some continent =>
        simp only [h1] at hres
        obtain ⟨country, h2⟩ := Option.isSome_iff_exists.mp hres
        cases h3 : getProp country.children selection <;>
          simp [exec, issue, handleNodeClick, settle, animate_end, runCommit, commitClick,
            NavInv, resolvedUpTo, layersUpTo, pushLayer, h1, h2, h3, jsKey_some]
    | city =>
      simpa [exec, issue, handleNodeClick, settle, NavInv, layersUpTo] using hres
  | back =>
    cases layer with
    | earth =>
      simp [exec, issue, goBack, settle, NavInv, layersUpTo, resolvedUpTo]
    | continent =>
      simp [exec, issue, goBack, settle, animate_end, runCommit, commitBack, NavInv,
        layersUpTo, resolvedUpTo]
    | country =>
      simp only [resolvedUpTo] at hres
      cases h1 : getProp wd.children (jsKey sc) with
      | none => simp [h1] at hres
      | some continent =>
        simp [exec, issue, goBack, settle, animate_end, runCommit, commitBack, NavInv,
          layersUpTo, resolvedUpTo, h1]
    | city =>
      simp only [resolvedUpTo] at hres
      cases h1 : getProp wd.children (jsKey sc) with
      | none => simp [h1] at hres
      | some continent =>
        simp only [h1] at hres
        obtain ⟨country, h2⟩ := Option.isSome_iff_exists.mp hres
        simp [exec, issue, goBack, settle, animate_end, runCommit, commitBack, NavInv,
          layersUpTo, resolvedUpTo, h1, h2]
  | home =>
    cases layer <;>
      simp [exec, issue, goHome, settle, animate_end, runCommit,
        commitHome, resolvedUpTo, NavInv, layersUpTo] at hres ⊢

/-- A resolved descending command is a descending command. -/
theorem descends_of_descendsResolved (wd : WorldData) (s : NavState) (c : Cmd)
    (h : descendsResolved wd s c = true) : descends s c = true := by
  cases c with
  | click newLayer selection =>
    simp only [descendsResolved, descends, Bool.or_eq_true, Bool.and_eq_true] at h ⊢
    rcases h with h | ⟨h, _⟩
    · exact Or.inl h
    · exact Or.inr h
  | back => rfl
  | home => rfl

/-- A descending click is a descending command. -/
theorem descends_of_descendingClick (s : NavState) (c : Cmd)
    (h : descendingClick s c = true) : descends s c = true := by
  cases c with
  | click newLayer selection => exact h
  | back => rfl
  | home => rfl

/-- Every state reached by descending commands satisfies the invariant. -/
theorem navInv_of_reachable (wd : WorldData) (ok : NavState → Cmd → Bool)
    (hok : ∀ s c, ok s c = true → descends s c = true) (s : NavState)
    (h : Reachable wd ok s) : NavInv wd s := by
  induction h with
  | init => exact navInv_initial wd
  | step c _ hc ih => exact navInv_exec wd _ c ih (hok _ c hc)

/-- A resolved descending command keeps the selection path consistent with
the layer. -/
theorem consistent_exec (wd : WorldData) (s : NavState) (c : Cmd)
    (hinv : NavInv wd s) (hcons : selectionConsistent s = true)
    (hd : descendsResolved wd s c = true) :
    selectionConsistent (exec wd s c) = true := by
  obtain ⟨layer, history, sc, sco, sci, hov, tr, bg, zp, zd⟩ := s
  obtain ⟨htr, hhist, hres⟩ := hinv
  simp only at htr hhist
  subst htr hhist
  cases c with
  | click newLayer selection =>
    cases layer with
    | earth =>
      cases newLayer <;> simp [descendsResolved, Layer.depth, resolves] at hd
      obtain ⟨continent, h1⟩ := Option.isSome_iff_exists.mp hd
      simp [selectionConsistent] at hcons
      simp [exec, issue, handleNodeClick, settle, animate_end, runCommit, commitClick,
        selectionConsistent, pushLayer, h1, hcons]
    | continent =>
      cases newLayer <;> simp [descendsResolved, Layer.depth, resolves] at hd
      simp [selectionConsistent] at hcons
      cases h1 : getProp wd.children (jsKey sc) with
      | none => simp [h1] at hd
      | some continent =>
        simp only [h1] at hd
        obtain ⟨country, h2⟩ := Option.isSome_iff_exists.mp hd
        simp [exec, issue, handleNodeClick, settle, animate_end, runCommit, commitClick,
          selectionConsistent, pushLayer, h1, h2, hcons]
    | country =>
      cases newLayer <;> simp [descendsResolved, Layer.depth, resolves] at hd
      simp [selectionConsistent] at hcons
      cases h1 : getProp wd.children (jsKey sc) with
      | none => simp [h1] at hd
      | some continent =>
        simp only [h1] at hd
        cases h2 : getProp continent.children (jsKey sco) with
        | none => simp [h2] at hd
        | some country =>
          simp only [h2] at hd
          obtain ⟨city, h3⟩ := Option.isSome_iff_exists.mp hd
          simp [exec, issue, handleNodeClick, settle, animate_end, runCommit, commitClick,
            selectionConsistent, pushLayer, h1, h2, h3, hcons]
    | city =>
      simpa [exec, issue, handleNodeClick, settle] using hcons
  | back =>
    cases layer with
    | earth =>
      simpa [exec, issue, goBack, settle, layersUpTo] using hcons
    | continent =>
      simp [exec, issue, goBack, settle, animate_end, runCommit, commitBack,
        layersUpTo, selectionConsistent]
    | country =>
      simp only [resolvedUpTo] at hres
      simp [selectionConsistent] at hcons
      cases h1 : getProp wd.children (jsKey sc) with
      | none => simp [h1] at hres
      | some continent =>
        simp [exec, issue, goBack, settle, animate_end, runCommit, commitBack,
          layersUpTo, selectionConsistent, h1, hcons]
    | city =>
      simp only [resolvedUpTo] at hres
      simp [selectionConsistent] at hcons
      cases h1 : getProp wd.children (jsKey sc) with
      | none => simp [h1] at hres
      | some continent =>
        simp only [h1] at hres
        obtain ⟨country, h2⟩ := Option.isSome_iff_exists.mp hres
        simp [exec, issue, goBack, settle, animate_end, runCommit, commitBack,
          layersUpTo, selectionConsistent, h1, h2, hcons]
  | home =>
    cases layer
    · simpa [exec, issue, goHome, settle] using hcons
    all_goals
      simp [exec, issue, goHome, settle, animate_end, runCommit, commitHome,
        selectionConsistent]

/-- The handler of a command changes neither layer, history nor selection. -/
theorem issue_fst (s : NavState) (c : Cmd) :
    (issue s c).1.layer = s.layer ∧ (issue s c).1.history = s.history ∧
      (issue s c).1.selectedContinent = s.selectedContinent ∧
      (issue s c).1.selectedCountry = s.selectedCountry ∧
      (issue s c).1.selectedCity = s.selectedCity := by
  cases c with
  | click newLayer selection =>
    simp only [issue, handleNodeClick]
    split_ifs <;> exact ⟨rfl, rfl, rfl, rfl, rfl⟩
  | back =>
    simp only [issue, goBack]
    split_ifs <;> exact ⟨rfl, rfl, rfl, rfl, rfl⟩
  | home =>
    simp only [issue, goHome]
    split_ifs <;> exact ⟨rfl, rfl, rfl, rfl, rfl⟩

/-- A command that scheduled a commit settles to the committed state with the
transition ended. -/
theorem exec_of_commit (wd : WorldData) (s : NavState) (c : Cmd) (commit : Commit)
    (h : (issue s c).2 = some commit) :
    exec wd s c
      = { (runCommit wd commit (issue s c).1).state with
            transitioning := false, zoomProgress := 0 } := by
  unfold exec
  rw [show issue s c = ((issue s c).1, some commit) from Prod.ext rfl h]
  exact settle_some wd _ commit

/-- C6: in every state reached from the initial state by `handleNodeClick`,
`goBack` and `goHome` calls, each click targeting the layer immediately
below the current one and each command followed through its deferred commit
before the next, the last element of the history is the current layer and
`history.length - 1` is the depth of the current layer; this holds at rest,
right after the handler of the next command, and right after its deferred
commit. -/
theorem history_tracks_layer (wd : WorldData) (s : NavState)
    (h : Reachable wd descends s) :
    historyTracksLayer s ∧
      ∀ c, descends s c = true →
        historyTracksLayer (issue s c).1 ∧
          ∀ commit, (issue s c).2 = some commit →
            historyTracksLayer (runCommit wd commit (issue s c).1).state := by
  have key : ∀ t, Reachable wd descends t → historyTracksLayer t := by
    intro t ht
    obtain ⟨_, hhist, _⟩ := navInv_of_reachable wd descends (fun _ _ hc => hc) t ht
    unfold historyTracksLayer
    rw [hhist]
    cases t.layer <;> exact ⟨rfl, rfl⟩
  refine ⟨key s h, ?_⟩
  intro c hc
  constructor
  · obtain ⟨hl, hh, _⟩ := issue_fst s c
    have := key s h
    unfold historyTracksLayer at this ⊢
    rw [hl, hh]
    exact this
  · intro commit hcommit
    have := key _ (Reachable.step c h hc)
    rw [exec_of_commit wd s c commit hcommit] at this
    exact this

/-- C7: in every state reached from the initial state by `handleNodeClick`
(each click targeting the next deeper layer with a key that resolves),
`goBack` and `goHome`, each followed through its deferred commit before the
next, the selection path is consistent with the layer: at Planet the three
keys are null, at Continent only the continent key is set, at Country the
continent and country keys are set and the city key is null, at City all
three are set; this holds at rest, right after the handler of the next
command, and right after its deferred commit. -/
theorem selection_consistent_with_layer (wd : WorldData) (s : NavState)
    (h : Reachable wd (descendsResolved wd) s) :
    ((s.layer = .earth →
          s.selectedContinent = none ∧ s.selectedCountry = none ∧
            s.selectedCity = none) ∧
        (s.layer = .continent →
          s.selectedContinent.isSome = true ∧ s.selectedCountry = none ∧
            s.selectedCity = none) ∧
        (s.layer = .country →
          s.selectedContinent.isSome = true ∧ s.selectedCountry.isSome = true ∧
            s.selectedCity = none) ∧
        (s.layer = .city →
          s.selectedContinent.isSome = true ∧ s.selectedCountry.isSome = true ∧
            s.selectedCity.isSome = true)) ∧
      ∀ c, descendsResolved wd s c = true →
        selectionConsistent (issue s c).1 = true ∧
          ∀ commit, (issue s c).2 = some commit →
            selectionConsistent (runCommit wd commit (issue s c).1).state = true := by
  have key : ∀ t, Reachable wd (descendsResolved wd) t →
      selectionConsistent t = true := by
    intro t ht
    induction ht with
    | init => rfl
    | step c hr hc ih =>
      exact consistent_exec wd _ c
        (navInv_of_reachable wd _ (descends_of_descendsResolved wd) _ hr) ih hc
  refine ⟨?_, ?_⟩
  · have hcons := key s h
    revert hcons
    cases hl : s.layer <;> simp [selectionConsistent, hl] <;>
      exact fun h1 h2 h3 => ⟨h1, h2, h3⟩
  · intro c hc
    constructor
    · obtain ⟨hl, _, h1, h2, h3⟩ := issue_fst s c
      have := key s h
      unfold selectionConsistent at this ⊢
      rw [hl, h1, h2, h3]
      exact this
    · intro commit hcommit
      have := key _ (Reachable.step c h hc)
      rw [exec_of_commit wd s c commit hcommit] at this
      exact this

/-! ## The sample run Planet → Continent → Country → City -/

/-- Clicking `europe` at the initial state of the sample catalog. -/
theorem sample_exec_continent :
    exec sampleWorld initialState (.click .continent "europe") = sampleContinentState := by
  simp [exec, issue, handleNodeClick, settle, animate_end, runCommit, commitClick,
    pushLayer, initialState, sampleWorld, sampleContinentState, getProp, List.lookup]

/-- Clicking `france` at Continent(europe). -/
theorem sample_exec_country :
    exec sampleWorld sampleContinentState (.click .country "france")
      = sampleCountryState := by
  simp [exec, issue, handleNodeClick, settle, animate_end, runCommit, commitClick,
    pushLayer, sampleWorld, sampleContinentState, sampleCountryState, getProp,
    List.lookup, jsKey]

/-- Clicking `paris` at Country(europe, france). -/
theorem sample_exec_city :
    exec sampleWorld sampleCountryState (.click .city "paris") = sampleCityState := by
  simp [exec, issue, handleNodeClick, settle, animate_end, runCommit, commitClick,
    pushLayer, sampleWorld, sampleCountryState, sampleCityState, getProp,
    List.lookup, jsKey]

/-- The City state of the sample catalog is reached by three clicks, under
any command filter that allows them. -/
theorem sample_reachable (ok : NavState → Cmd → Bool)
    (h1 : ok initialState (.click .continent "europe") = true)
    (h2 : ok sampleContinentState (.click .country "france") = true)
    (h3 : ok sampleCountryState (.click .city "paris") = true) :
    Reachable sampleWorld ok sampleCityState := by
  have r1 : Reachable sampleWorld ok
      (exec sampleWorld initialState (.click .continent "europe")) :=
    Reachable.step (.click .continent "europe") Reachable.init h1
  rw [sample_exec_continent] at r1
  have r2 := Reachable.step (.click .country "france") r1 h2
  rw [sample_exec_country] at r2
  have r3 := Reachable.step (.click .city "paris") r2 h3
  rw [sample_exec_city] at r3
  exact r3

/-- C4: in a state with a history longer than 1 reached by clicks that each
target the next deeper layer (such a state is idle), `goBack` schedules a
commit that does not throw, removes the last history entry, sets the layer
to the new last entry, sets every selection key deeper than that layer to
null and keeps the shallower ones; from City(A,B,C) it yields layer Country
with continent A and country B retained, the city key null and history
`[earth, continent, country]`. -/
theorem goBack_then_commit (wd : WorldData) (s : NavState)
    (h : Reachable wd descendingClick s) (hlen : 1 < s.history.length) :
    ∃ c s', (goBack s).2 = some c ∧
      runCommit wd c (goBack s).1 = { state := s', fetches := [], threw := false } ∧
      s'.history = s.history.dropLast ∧
      s'.history.getLast? = some s'.layer ∧
      (∀ l : Layer, s'.layer.depth < l.depth → selectionAt s' l = none) ∧
      (∀ l : Layer, l.depth ≤ s'.layer.depth → selectionAt s' l = selectionAt s l) ∧
      (s.layer = .city →
        s'.layer = .country ∧ s'.selectedContinent = s.selectedContinent ∧
          s'.selectedCountry = s.selectedCountry ∧ s'.selectedCity = none ∧
          s'.history = [.earth, .continent, .country]) := by
  obtain ⟨htr, hhist, hres⟩ :=
    navInv_of_reachable wd descendingClick descends_of_descendingClick s h
  obtain ⟨layer, history, sc, sco, sci, hov, tr, bg, zp, zd⟩ := s
  simp only at htr hhist hlen
  subst htr hhist
  cases layer with
  | earth => simp [layersUpTo] at hlen
  | continent =>
    have hgo : goBack
        (⟨.continent, layersUpTo .continent, sc, sco, sci, hov, false, bg, zp, zd⟩ : NavState)
        = ((⟨.continent, layersUpTo .continent, sc, sco, sci, hov, true, bg, zp, .zoomOut⟩ :
              NavState),
           some (.back [.earth] .earth sc sco)) := by
      simp [goBack, layersUpTo]
    rw [hgo]
    refine ⟨_, _, rfl, rfl, rfl, rfl, ?_, ?_, ?_⟩
    · intro l _; cases l <;> rfl
    · intro l hl; cases l <;> simp [Layer.depth] at hl; rfl
    · intro hc; cases hc
  | country =>
    have hgo : goBack
        (⟨.country, layersUpTo .country, sc, sco, sci, hov, false, bg, zp, zd⟩ : NavState)
        = ((⟨.country, layersUpTo .country, sc, sco, sci, hov, true, bg, zp, .zoomOut⟩ :
              NavState),
           some (.back [.earth, .continent] .continent sc sco)) := by
      simp [goBack, layersUpTo]
    rw [hgo]
    simp only [resolvedUpTo] at hres
    cases h1 : getProp wd.children (jsKey sc) with
    | none => simp [h1] at hres
    | some continent =>
      have hrun : runCommit wd (.back [.earth, .continent] .continent sc sco)
          (⟨.country, layersUpTo .country, sc, sco, sci, hov, true, bg, zp, .zoomOut⟩ :
            NavState)
          = { state := ⟨.continent, [.earth, .continent], sc, none, none, hov, true,
                continent.color ++ "30", zp, .zoomOut⟩,
              fetches := [], threw := false } := by
        simp only [runCommit, commitBack, h1]
      refine ⟨_, _, rfl, hrun, rfl, rfl, ?_, ?_, ?_⟩
      · intro l hl; cases l <;> simp [Layer.depth] at hl <;> rfl
      · intro l hl; cases l <;> simp [Layer.depth] at hl <;> rfl
      · intro hc; cases hc
  | city =>
    have hgo : goBack
        (⟨.city, layersUpTo .city, sc, sco, sci, hov, false, bg, zp, zd⟩ : NavState)
        = ((⟨.city, layersUpTo .city, sc, sco, sci, hov, true, bg, zp, .zoomOut⟩ :
              NavState),
           some (.back [.earth, .continent, .country] .country sc sco)) := by
      simp [goBack, layersUpTo]
    rw [hgo]
    simp only [resolvedUpTo] at hres
    cases h1 : getProp wd.children (jsKey sc) with
    | none => simp [h1] at hres
    | some continent =>
      simp only [h1] at hres
      obtain ⟨country, h2⟩ := Option.isSome_iff_exists.mp hres
      have hrun : runCommit wd (.back [.earth, .continent, .country] .country sc sco)
          (⟨.city, layersUpTo .city, sc, sco, sci, hov, true, bg, zp, .zoomOut⟩ :
            NavState)
          = { state := ⟨.country, [.earth, .continent, .country], sc, sco, none, hov,
                true, country.color ++ "20", zp, .zoomOut⟩,
              fetches := [], threw := false } := by
        simp only [runCommit, commitBack, h1, h2]
      refine ⟨_, _, rfl, hrun, rfl, rfl, ?_, ?_, ?_⟩
      · intro l hl; cases l <;> simp [Layer.depth] at hl; rfl
      · intro l hl; cases l <;> simp [Layer.depth] at hl <;> rfl
      · intro _; exact ⟨rfl, rfl, rfl, rfl, rfl⟩

/-- Witness of C4 at City(europe, france, paris) of the sample catalog. -/
theorem goBack_then_commit_witness :
    Reachable sampleWorld descendingClick sampleCityState ∧
      1 < sampleCityState.history.length ∧
      ∃ c s', (goBack sampleCityState).2 = some c ∧
        runCommit sampleWorld c (goBack sampleCityState).1
          = { state := s', fetches := [], threw := false } ∧
        s'.history = sampleCityState.history.dropLast ∧
        s'.history.getLast? = some s'.layer ∧
        (∀ l : Layer, s'.layer.depth < l.depth → selectionAt s' l = none) ∧
        (∀ l : Layer, l.depth ≤ s'.layer.depth →
          selectionAt s' l = selectionAt sampleCityState l) ∧
        (sampleCityState.layer = .city →
          s'.layer = .country ∧
            s'.selectedContinent = sampleCityState.selectedContinent ∧
            s'.selectedCountry = sampleCityState.selectedCountry ∧
            s'.selectedCity = none ∧
            s'.history = [.earth, .continent, .country]) :=
  ⟨sample_reachable descendingClick (by decide) (by decide) (by decide),
   by decide,
   goBack_then_commit sampleWorld sampleCityState
     (sample_reachable descendingClick (by decide) (by decide) (by decide))
     (by decide)⟩

/-- Witness of C6 at City(europe, france, paris) of the sample catalog. -/
theorem history_tracks_layer_witness :
    Reachable sampleWorld descends sampleCityState ∧
      historyTracksLayer sampleCityState :=
  ⟨sample_reachable descends (by decide) (by decide) (by decide),
   (history_tracks_layer sampleWorld sampleCityState
     (sample_reachable descends (by decide) (by decide) (by decide))).1⟩

/-- Witness of C7 at City(europe, france, paris) of the sample catalog. -/
theorem selection_consistent_with_layer_witness :
    Reachable sampleWorld (descendsResolved sampleWorld) sampleCityState ∧
      (sampleCityState.layer = .city →
        sampleCityState.selectedContinent.isSome = true ∧
          sampleCityState.selectedCountry.isSome = true ∧
          sampleCityState.selectedCity.isSome = true) :=
  ⟨sample_reachable (descendsResolved sampleWorld) (by decide) (by decide) (by decide),
   (selection_consistent_with_layer sampleWorld sampleCityState
     (sample_reachable (descendsResolved sampleWorld)
       (by decide) (by decide) (by decide))).1.2.2.2⟩

/-! ## Hit-testing -/

/-- The test on squares is the test on the Euclidean distance. -/
theorem isHit_iff_withinRadius (r x y : ℚ) (n : Node) (hr : 0 < r) :
    isHit r x y n = true ↔ withinRadius r x y n := by
  have hr' : (0 : ℝ) < (r : ℝ) := by exact_mod_cast hr
  unfold isHit withinRadius
  rw [decide_eq_true_iff, Real.sqrt_lt' hr']
  constructor
  · intro h
    have h' : (((x - n.nodeX) ^ 2 + (y - n.nodeY) ^ 2 : ℚ) : ℝ) < ((r ^ 2 : ℚ) : ℝ) := by
      exact_mod_cast h
    push_cast at h'
    exact h'
  · intro h
    have h' : (((x - n.nodeX) ^ 2 + (y - n.nodeY) ^ 2 : ℚ) : ℝ) < ((r ^ 2 : ℚ) : ℝ) := by
      push_cast
      exact h
    exact_mod_cast h'

/-- The hover loop returns null exactly when no node passes the test. -/
theorem firstHit_eq_none_iff (r x y : ℚ) (nodes : List Node) :
    firstHit r x y nodes = none ↔ ∀ n ∈ nodes, isHit r x y n = false := by
  induction nodes with
  | nil => simp [firstHit]
  | cons n rest ih =>
    by_cases hn : isHit r x y n = true
    · simp [firstHit, hn]
    · simp [firstHit, hn, ih]

/-- The hover loop returns the key of the first node that passes the test. -/
theorem firstHit_eq_some_iff (r x y : ℚ) (nodes : List Node) (k : String) :
    firstHit r x y nodes = some k ↔
      ∃ (i : ℕ) (n : Node), nodes[i]? = some n ∧ n.key = k ∧ isHit r x y n = true ∧
        ∀ (j : ℕ) (m : Node), j < i → nodes[j]? = some m → isHit r x y m = false := by
  induction nodes with
  | nil => simp [firstHit]
  | cons a rest ih =>
    by_cases ha : isHit r x y a = true
    · simp only [firstHit, ha, if_true, Option.some.injEq]
      constructor
      · intro hk
        exact ⟨0, a, List.getElem?_cons_zero, hk, ha,
          fun j m hj _ => absurd hj (Nat.not_lt_zero j)⟩
      · rintro ⟨i, n, hi, hk, _, hfirst⟩
        cases i with
        | zero =>
          simp only [List.getElem?_cons_zero, Option.some.injEq] at hi
          rw [hi]; exact hk
        | succ i =>
          have := hfirst 0 a (Nat.succ_pos i) List.getElem?_cons_zero
          rw [ha] at this
          cases this
    · have ha' : isHit r x y a = false := by simpa using ha
      simp only [firstHit, ha', Bool.false_eq_true, if_false, ih]
      constructor
      · rintro ⟨i, n, hi, hk, hn, hfirst⟩
        refine ⟨i + 1, n, by simpa using hi, hk, hn, ?_⟩
        intro j m hj hm
        cases j with
        | zero =>
          simp only [List.getElem?_cons_zero, Option.some.injEq] at hm
          rw [← hm]; exact ha'
        | succ j =>
          exact hfirst j m (Nat.lt_of_succ_lt_succ hj) (by simpa using hm)
      · rintro ⟨i, n, hi, hk, hn, hfirst⟩
        cases i with
        | zero =>
          simp only [List.getElem?_cons_zero, Option.some.injEq] at hi
          rw [hi, hn] at ha'
          cases ha'
        | succ i =>
          refine ⟨i, n, by simpa using hi, hk, hn, ?_⟩
          intro j m hj hm
          exact hfirst (j + 1) m (Nat.succ_lt_succ hj) (by simpa using hm)

/-! ## Hit-testing at a node centre -/

/-- A node passes the test at its own centre. -/
theorem isHit_self (r : ℚ) (n : Node) (hr : 0 < r) :
    isHit r n.nodeX n.nodeY n = true := by
  have h0 : (0 : ℚ) ^ 2 + 0 ^ 2 = 0 := by norm_num
  simp only [isHit, sub_self, decide_eq_true_iff, h0]
  positivity

/-- At the centre of a node that no earlier node covers, the hover loop
returns the key of that node. -/
theorem firstHit_at_centre (r : ℚ) (nodes : List Node) (i : ℕ) (n : Node)
    (hr : 0 < r) (hi : nodes[i]? = some n)
    (hfirst : ∀ (j : ℕ) (m : Node), j < i → nodes[j]? = some m →
      isHit r n.nodeX n.nodeY m = false) :
    firstHit r n.nodeX n.nodeY nodes = some n.key :=
  (firstHit_eq_some_iff r n.nodeX n.nodeY nodes n.key).mpr
    ⟨i, n, hi, rfl, isHit_self r n hr, hfirst⟩

/-- The entry at position `j` of a grid is the node computed for index
`start + j`. -/
theorem gridNodesFrom_getElem? (factor : ℚ) (w h cols : ℕ) (keys : List String) :
    ∀ (start j : ℕ),
      (gridNodesFrom factor w h cols start keys)[j]?
        = (keys[j]?).map (gridNode factor w h cols (start + j)) := by
  induction keys with
  | nil => intro start j; simp [gridNodesFrom]
  | cons k rest ih =>
    intro start j
    cases j with
    | zero => simp [gridNodesFrom]
    | succ j =>
      simp only [gridNodesFrom, List.getElem?_cons_succ, ih]
      rw [show start + 1 + j = start + (j + 1) by omega]

/-- Distinct naturals are at least one apart. -/
theorem one_le_sq_sub_of_ne (a b : ℕ) (hab : a ≠ b) :
    (1 : ℚ) ≤ ((a : ℚ) - (b : ℚ)) ^ 2 := by
  rcases Nat.lt_or_gt_of_ne hab with hlt | hgt
  · have h1 : (a : ℚ) + 1 ≤ (b : ℚ) := by exact_mod_cast hlt
    nlinarith
  · have h1 : (b : ℚ) + 1 ≤ (a : ℚ) := by exact_mod_cast hgt
    nlinarith

/-- Two grid nodes at different indices are at least one spacing apart, so
with a spacing of at least the radius neither is hit at the centre of the
other. -/
theorem isHit_gridNode_of_ne (r factor : ℚ) (w h cols i j : ℕ) (k k' : String)
    (hr : 0 < r) (hsp : r ≤ min (w : ℚ) (h : ℚ) * factor) (hij : i ≠ j) :
    isHit r (gridNode factor w h cols i k).nodeX (gridNode factor w h cols i k).nodeY
      (gridNode factor w h cols j k') = false := by
  have hsplit : i % cols ≠ j % cols ∨ i / cols ≠ j / cols := by
    by_contra hcon
    push_neg at hcon
    apply hij
    rw [← Nat.div_add_mod i cols, ← Nat.div_add_mod j cols, hcon.1, hcon.2]
  simp only [isHit, gridNode, decide_eq_false_iff_not, not_lt]
  set sp : ℚ := min (w : ℚ) (h : ℚ) * factor with hspdef
  have hsp0 : 0 < sp := lt_of_lt_of_le hr hsp
  have hrr : r ^ 2 ≤ sp ^ 2 := by nlinarith
  have hx : ((w : ℚ) / 2 - (cols : ℚ) * sp / 2 + ((i % cols : ℕ) : ℚ) * sp + sp / 2
      - ((w : ℚ) / 2 - (cols : ℚ) * sp / 2 + ((j % cols : ℕ) : ℚ) * sp + sp / 2)) ^ 2
      = ((((i % cols : ℕ) : ℚ)) - ((j % cols : ℕ) : ℚ)) ^ 2 * sp ^ 2 := by ring
  have hy : ((h : ℚ) / 2 + ((i / cols : ℕ) : ℚ) * sp - 30
      - ((h : ℚ) / 2 + ((j / cols : ℕ) : ℚ) * sp - 30)) ^ 2
      = ((((i / cols : ℕ) : ℚ)) - ((j / cols : ℕ) : ℚ)) ^ 2 * sp ^ 2 := by ring
  rw [hx, hy]
  have hsq : 0 ≤ sp ^ 2 := sq_nonneg sp
  rcases hsplit with hc | hrow
  · have h1 := one_le_sq_sub_of_ne _ _ hc
    have h2 : 0 ≤ ((((i / cols : ℕ) : ℚ)) - ((j / cols : ℕ) : ℚ)) ^ 2 := sq_nonneg _
    nlinarith [mul_nonneg h2 hsq, mul_le_mul_of_nonneg_right h1 hsq]
  · have h1 := one_le_sq_sub_of_ne _ _ hrow
    have h2 : 0 ≤ ((((i % cols : ℕ) : ℚ)) - ((j % cols : ℕ) : ℚ)) ^ 2 := sq_nonneg _
    nlinarith [mul_nonneg h2 hsq, mul_le_mul_of_nonneg_right h1 hsq]

/-- Hover at the centre of the grid node at position `i` returns its key when
either no earlier node covers the centre or the spacing is at least the
radius. -/
theorem firstHit_grid_at_centre (r factor : ℚ) (w h : ℕ) (keys : List String)
    (i : ℕ) (n : Node) (hr : 0 < r)
    (hi : (gridNodes factor w h keys)[i]? = some n)
    (hcond : (∀ (j : ℕ) (m : Node), j < i → (gridNodes factor w h keys)[j]? = some m →
        ¬ withinRadius r n.nodeX n.nodeY m) ∨ r ≤ min (w : ℚ) (h : ℚ) * factor) :
    firstHit r n.nodeX n.nodeY (gridNodes factor w h keys) = some n.key := by
  apply firstHit_at_centre r _ i n hr hi
  intro j m hj hm
  rcases hcond with hfree | hsp
  · cases hh : isHit r n.nodeX n.nodeY m with
    | false => rfl
    | true =>
      exact absurd ((isHit_iff_withinRadius r _ _ m hr).mp hh) (hfree j m hj hm)
  · unfold gridNodes at hi hm
    rw [gridNodesFrom_getElem?] at hi hm
    cases hki : keys[i]? with
    | none => simp [hki] at hi
    | some ki =>
      cases hkj : keys[j]? with
      | none => simp [hkj] at hm
      | some kj =>
        simp only [hki, hkj, Option.map_some', Option.some.injEq, Nat.zero_add] at hi hm
        rw [← hi, ← hm]
        exact isHit_gridNode_of_ne r factor w h _ i j ki kj hr hsp (Nat.ne_of_gt hj)

/-- With two entries the grid has two columns. -/
theorem ceilSqrt_two : ceilSqrt 2 = 2 := by
  have h : Nat.sqrt 2 = 1 := by
    symm; rw [Nat.eq_sqrt]; omega
  simp [ceilSqrt, h]

/-- The Continent grid of the sample catalog on an 800 by 200 canvas. -/
theorem sample_grid_small :
    gridNodes (22 / 100) 800 200 (keysOf sampleCountries)
      = [⟨"france", 378, 70⟩, ⟨"spain", 422, 70⟩] := by
  have hlen : (keysOf sampleCountries).length = 2 := rfl
  rw [gridNodes, hlen, ceilSqrt_two]
  simp only [keysOf, sampleCountries, List.map, gridNodesFrom, gridNode]
  norm_num

/-- The Continent grid of the sample catalog on a 400 by 800 canvas. -/
theorem sample_grid_phone :
    gridNodes (22 / 100) 400 800 (keysOf sampleCountries)
      = [⟨"france", 156, 370⟩, ⟨"spain", 244, 370⟩] := by
  have hlen : (keysOf sampleCountries).length = 2 := rfl
  rw [gridNodes, hlen, ceilSqrt_two]
  simp only [keysOf, sampleCountries, List.map, gridNodesFrom, gridNode]
  norm_num

/-- Counterexample to C8 as stated: on an 800 by 200 canvas the Continent
grid of the sample catalog places `spain` at (422, 70), and the hover
hit-test at that point returns `france`, the earlier node 44 pixels away. -/
theorem hover_at_centre_counterexample :
    (gridNodes (22 / 100) 800 200 (keysOf sampleCountries))[1]?
        = some ⟨"spain", 422, 70⟩ ∧
      checkContinentNodeHover sampleWorld (some "europe") 422 70 800 200
        = .ok (some "france") := by
  constructor
  · rw [sample_grid_small]; rfl
  · show (Except.ok (firstHit 50 422 70
      (gridNodes (22 / 100) 800 200 (keysOf sampleCountries))) :
        Except JsError (Option String)) = .ok (some "france")
    rw [sample_grid_small]
    simp only [firstHit, isHit]
    norm_num

/-- C8 (amended): for each of the layers Planet, Continent and Country, every
selection path that resolves, every viewport size and rotation, and every
node K of the layer's layout, the hover hit-test at K's computed centre
returns K provided no node earlier in iteration order lies strictly within
the hit radius of that centre; in the Continent and Country grids this is so
whenever the spacing (0.22, resp. 0.25, times the smaller canvas side) is at
least the hit radius (50, resp. 55). -/
theorem hover_at_centre_returns_node (M : JsMath) (wd : WorldData)
    (selectedContinent selectedCountry : Option String) (rotation : ℚ) (w h : ℕ) :
    (∀ (i : ℕ) (n : Node), (earthNodes M wd w h rotation)[i]? = some n →
        (∀ (j : ℕ) (m : Node), j < i → (earthNodes M wd w h rotation)[j]? = some m →
          ¬ withinRadius 25 n.nodeX n.nodeY m) →
        checkEarthNodeHover M wd rotation n.nodeX n.nodeY w h = some n.key) ∧
      (∀ countries, countriesOf wd selectedContinent = .ok countries →
        ∀ (i : ℕ) (n : Node),
          (gridNodes (22 / 100) w h (keysOf countries))[i]? = some n →
          ((∀ (j : ℕ) (m : Node), j < i →
              (gridNodes (22 / 100) w h (keysOf countries))[j]? = some m →
              ¬ withinRadius 50 n.nodeX n.nodeY m) ∨
            50 ≤ min (w : ℚ) (h : ℚ) * (22 / 100)) →
          checkContinentNodeHover wd selectedContinent n.nodeX n.nodeY w h
            = .ok (some n.key)) ∧
      (∀ cities, citiesOf wd selectedContinent selectedCountry = .ok cities →
        ∀ (i : ℕ) (n : Node),
          (gridNodes (25 / 100) w h (keysOf cities))[i]? = some n →
          ((∀ (j : ℕ) (m : Node), j < i →
              (gridNodes (25 / 100) w h (keysOf cities))[j]? = some m →
              ¬ withinRadius 55 n.nodeX n.nodeY m) ∨
            55 ≤ min (w : ℚ) (h : ℚ) * (25 / 100)) →
          checkCountryNodeHover wd selectedContinent selectedCountry n.nodeX n.nodeY w h
            = .ok (some n.key)) := by
  refine ⟨?_, ?_, ?_⟩
  · intro i n hi hfree
    apply firstHit_at_centre 25 _ i n (by norm_num) hi
    intro j m hj hm
    cases hh : isHit 25 n.nodeX n.nodeY m with
    | false => rfl
    | true =>
      exact absurd ((isHit_iff_withinRadius 25 _ _ m (by norm_num)).mp hh)
        (hfree j m hj hm)
  · intro countries hc i n hi hcond
    simp only [checkContinentNodeHover, hc]
    rw [firstHit_grid_at_centre 50 (22 / 100) w h _ i n (by norm_num) hi hcond]
  · intro cities hc i n hi hcond
    simp only [checkCountryNodeHover, hc]
    rw [firstHit_grid_at_centre 55 (25 / 100) w h _ i n (by norm_num) hi hcond]

/-- Witness of C8 (amended): on a 400 by 800 canvas the spacing of the
Continent grid is 88, and hover at the centre of `spain` returns `spain`. -/
theorem hover_at_centre_returns_node_witness :
    countriesOf sampleWorld (some "europe") = .ok sampleCountries ∧
      (gridNodes (22 / 100) 400 800 (keysOf sampleCountries))[1]?
        = some ⟨"spain", 244, 370⟩ ∧
      (50 : ℚ) ≤ min ((400 : ℕ) : ℚ) ((800 : ℕ) : ℚ) * (22 / 100) ∧
      checkContinentNodeHover sampleWorld (some "europe") 244 370 400 800
        = .ok (some "spain") :=
  ⟨rfl, by rw [sample_grid_phone]; rfl, by norm_num,
   (hover_at_centre_returns_node sampleMath sampleWorld (some "europe")
      none 0 400 800).2.1 sampleCountries rfl 1 ⟨"spain", 244, 370⟩
      (by rw [sample_grid_phone]; rfl) (Or.inr (by norm_num))⟩

/-! ## The click path -/

/-- The first node a click loop reports is the node the hover loop returns. -/
theorem allHits_head? (r x y : ℚ) (nodes : List Node) :
    (allHits r x y nodes).head? = firstHit r x y nodes := by
  induction nodes with
  | nil => rfl
  | cons n rest ih =>
    by_cases hn : isHit r x y n = true
    · simp [allHits, firstHit, hn]
    · simp [allHits, firstHit, hn, ih]

/-- C10 fails on the code: on a 400 by 800 canvas at Continent(europe) of the
sample catalog, the pointer (200, 370) is 44 pixels from both `france` and
`spain`; one click event reports both nodes to `onNodeClick`, while the
hover hit-test returns `france` only; `handleNodeClick`, called twice from
the same render, accepts both calls, and the two deferred commits push
`country` onto the history twice. -/
theorem click_reports_every_node_in_radius :
    handleCanvasClick sampleMath sampleWorld .continent (some "europe")
        none 0 200 370 400 800
        = .ok [(.country, "france"), (.country, "spain")] ∧
      hoveredKey sampleMath sampleWorld .continent (some "europe")
        none 0 200 370 400 800 = .ok (some "france") ∧
      (handleNodeClick sampleContinentState .country "france").2
        = some (.click .country "france" (some "europe") none) ∧
      (handleNodeClick sampleContinentState .country "spain").2
        = some (.click .country "spain" (some "europe") none) ∧
      (runCommit sampleWorld (.click .country "spain" (some "europe") none)
          (runCommit sampleWorld (.click .country "france" (some "europe") none)
            (handleNodeClick sampleContinentState .country "france").1).state).state.history
        = [.earth, .continent, .country, .country] := by
  refine ⟨?_, ?_, rfl, rfl, rfl⟩
  · show (Except.ok ((allHits 50 200 370
      (gridNodes (22 / 100) 400 800 (keysOf sampleCountries))).map
        (fun k => (Layer.country, k))) : Except JsError (List (Layer × String))) = _
    rw [sample_grid_phone]
    simp only [allHits, isHit]
    norm_num
  · show (Except.ok (firstHit 50 200 370
      (gridNodes (22 / 100) 400 800 (keysOf sampleCountries))) :
        Except JsError (Option String)) = _
    rw [sample_grid_phone]
    simp only [firstHit, isHit]
    norm_num

/-! ## Paint path and hit-test path -/

/-- The grid paint loop computes the nodes of the grid hit-test loop. -/
theorem paintGridFrom_eq_gridNodesFrom (factor : ℚ) (w h cols : ℕ)
    (keys : List String) :
    ∀ index : ℕ,
      paintGridFrom (min (w : ℚ) (h : ℚ) * factor)
          ((w : ℚ) / 2 - ((cols : ℚ) * (min (w : ℚ) (h : ℚ) * factor)) / 2)
          ((h : ℚ) / 2) cols index keys
        = gridNodesFrom factor w h cols index keys := by
  induction keys with
  | nil => intro index; rfl
  | cons k rest ih =>
    intro index
    simp only [paintGridFrom, gridNodesFrom, gridNode, ih]

/-- C11: for the layers Planet, Continent and Country, every selection
path, viewport size and rotation, the node centres the paint path computes
(in untransformed canvas coordinates) are the node centres the hit-test path
computes for the same inputs. At Planet the paint path first advances the
rotation by 0.0015 and the hit-test reads the advanced value; at Continent
and Country the paint path draws either nothing (falsy or unresolved key) or
exactly the hit-test nodes. -/
theorem paint_centres_eq_hit_test_centres (M : JsMath) (wd : WorldData)
    (selectedContinent selectedCountry : Option String) (rotation : ℚ) (w h : ℕ) :
    ((drawEarthLayer M wd w h rotation).1 = rotation + 15 / 10000 ∧
        (drawEarthLayer M wd w h rotation).2
          = earthNodes M wd w h (drawEarthLayer M wd w h rotation).1) ∧
      (∀ countries, countriesOf wd selectedContinent = .ok countries →
        jsFalsy selectedContinent = false →
        drawContinentLayer wd selectedContinent w h
          = gridNodes (22 / 100) w h (keysOf countries)) ∧
      (∀ cities, citiesOf wd selectedContinent selectedCountry = .ok cities →
        jsFalsy selectedContinent = false → jsFalsy selectedCountry = false →
        drawCountryLayer wd selectedContinent selectedCountry w h
          = .ok (gridNodes (25 / 100) w h (keysOf cities))) := by
  refine ⟨⟨rfl, rfl⟩, ?_, ?_⟩
  · intro countries hc hf
    unfold countriesOf at hc
    cases h1 : getProp wd.children (jsKey selectedContinent) with
    | none => simp [h1] at hc
    | some continent =>
      simp only [h1, Except.ok.injEq] at hc
      subst hc
      simp only [drawContinentLayer, hf, h1, gridNodes]
      exact paintGridFrom_eq_gridNodesFrom (22 / 100) w h _ _ 0
  · intro cities hc hf1 hf2
    unfold citiesOf at hc
    cases h1 : getProp wd.children (jsKey selectedContinent) with
    | none => simp [h1] at hc
    | some continent =>
      simp only [h1] at hc
      cases h2 : getProp continent.children (jsKey selectedCountry) with
      | none => simp [h2] at hc
      | some country =>
        simp only [h2, Except.ok.injEq] at hc
        subst hc
        simp only [drawCountryLayer, hf1, hf2, h1, h2, gridNodes]
        exact congrArg Except.ok (paintGridFrom_eq_gridNodesFrom (25 / 100) w h _ _ 0)

/-- Witness of C11 on the Continent layer of the sample catalog. -/
theorem paint_centres_eq_hit_test_centres_witness :
    countriesOf sampleWorld (some "europe") = .ok sampleCountries ∧
      jsFalsy (some "europe") = false ∧
      drawContinentLayer sampleWorld (some "europe") 400 800
        = gridNodes (22 / 100) 400 800 (keysOf sampleCountries) :=
  ⟨rfl, by decide,
   (paint_centres_eq_hit_test_centres sampleMath sampleWorld (some "europe") none 0
      400 800).2.1 sampleCountries rfl (by decide)⟩

/-! ## Grid layout -/

/-- The column count `ceilSqrt n` is the ceiling of the real square root. -/
theorem ceilSqrt_eq_ceil (n : ℕ) : ceilSqrt n = ⌈Real.sqrt (n : ℝ)⌉₊ := by
  unfold ceilSqrt
  have hle : Nat.sqrt n * Nat.sqrt n ≤ n := Nat.sqrt_le n
  have hlt : n < (Nat.sqrt n + 1) * (Nat.sqrt n + 1) := Nat.lt_succ_sqrt n
  split
  · next heq =>
    have hs : Real.sqrt (n : ℝ) = (Nat.sqrt n : ℝ) := by
      have : (n : ℝ) = (Nat.sqrt n : ℝ) * (Nat.sqrt n : ℝ) := by exact_mod_cast heq.symm
      rw [this]
      exact Real.sqrt_mul_self (Nat.cast_nonneg _)
    rw [hs, Nat.ceil_natCast]
  · next hne =>
    have hlt2 : Nat.sqrt n * Nat.sqrt n < n := lt_of_le_of_ne hle hne
    symm
    rw [Nat.ceil_eq_iff (Nat.succ_ne_zero _)]
    constructor
    · have h1 : ((Nat.sqrt n : ℝ)) * (Nat.sqrt n : ℝ) < (n : ℝ) := by exact_mod_cast hlt2
      have h2 : (Nat.sqrt n : ℝ) = Real.sqrt ((Nat.sqrt n : ℝ) * (Nat.sqrt n : ℝ)) :=
        (Real.sqrt_mul_self (Nat.cast_nonneg _)).symm
      show ((Nat.sqrt n : ℕ) : ℝ) < Real.sqrt (n : ℝ)
      rw [h2]
      exact Real.sqrt_lt_sqrt (mul_nonneg (Nat.cast_nonneg _) (Nat.cast_nonneg _)) h1
    · have h1 : (n : ℝ) ≤ ((Nat.sqrt n + 1 : ℕ) : ℝ) * ((Nat.sqrt n + 1 : ℕ) : ℝ) := by
        exact_mod_cast hlt.le
      have h2 : Real.sqrt (((Nat.sqrt n + 1 : ℕ) : ℝ) * ((Nat.sqrt n + 1 : ℕ) : ℝ))
          = ((Nat.sqrt n + 1 : ℕ) : ℝ) := Real.sqrt_mul_self (Nat.cast_nonneg _)
      rw [← h2]
      exact Real.sqrt_le_sqrt h1

/-- The number of columns of a grid with at least one entry is positive. -/
theorem ceilSqrt_pos (n : ℕ) (hn : 1 ≤ n) : 1 ≤ ceilSqrt n := by
  unfold ceilSqrt
  split
  · exact Nat.sqrt_pos.mpr hn
  · exact Nat.succ_le_succ (Nat.zero_le _)

/-- Counterexample to C12 as stated: on a 400 by 800 canvas the two
countries of the sample catalog form a single row at y = 370, so the
midpoint of the first and last row is 370 and not the viewport centre 400
(the x midpoint, 200, is the viewport centre). -/
theorem grid_vertical_centring_counterexample :
    ∃ first last : Node,
      (gridNodes (22 / 100) 400 800 (keysOf sampleCountries)).head? = some first ∧
      (gridNodes (22 / 100) 400 800 (keysOf sampleCountries)).getLast? = some last ∧
      (first.nodeX + last.nodeX) / 2 = ((400 : ℕ) : ℚ) / 2 ∧
      (first.nodeY + last.nodeY) / 2 ≠ ((800 : ℕ) : ℚ) / 2 := by
  refine ⟨⟨"france", 156, 370⟩, ⟨"spain", 244, 370⟩, ?_, ?_, ?_, ?_⟩
  · rw [sample_grid_phone]; rfl
  · rw [sample_grid_phone]; rfl
  · norm_num
  · norm_num

/-- C12 (amended): for every child count of at least 1 and every viewport, the
grid layouts use `cols = ceil(sqrt(n))` columns, place index `i` at column
`i mod cols` and row `floor(i / cols)`, and are centred horizontally on the
viewport centre (the midpoint of the first and last column of a row is
`w / 2`); vertically the first row lies at `h / 2 - 30` and row `r` lies
`r` spacings below it, so the rows are not centred on `h / 2`. -/
theorem grid_layout (factor : ℚ) (w h : ℕ) (keys : List String)
    (hn : 1 ≤ keys.length) :
    ceilSqrt keys.length = ⌈Real.sqrt (keys.length : ℝ)⌉₊ ∧
      (∀ (i : ℕ) (key : String), keys[i]? = some key →
        (gridNodes factor w h keys)[i]? = some
          { key := key,
            nodeX := (w : ℚ) / 2
              - ((ceilSqrt keys.length : ℚ) * (min (w : ℚ) (h : ℚ) * factor)) / 2
              + ((i % ceilSqrt keys.length : ℕ) : ℚ) * (min (w : ℚ) (h : ℚ) * factor)
              + (min (w : ℚ) (h : ℚ) * factor) / 2,
            nodeY := (h : ℚ) / 2
              + ((i / ceilSqrt keys.length : ℕ) : ℚ) * (min (w : ℚ) (h : ℚ) * factor)
              - 30 }) ∧
      (∀ (r : ℕ) (k k' : String),
        ((gridNode factor w h (ceilSqrt keys.length) (r * ceilSqrt keys.length) k).nodeX
          + (gridNode factor w h (ceilSqrt keys.length)
              (r * ceilSqrt keys.length + (ceilSqrt keys.length - 1)) k').nodeX) / 2
          = (w : ℚ) / 2) ∧
      (∀ (i : ℕ) (k : String),
        (gridNode factor w h (ceilSqrt keys.length) i k).nodeY
          = (h : ℚ) / 2 - 30
            + ((i / ceilSqrt keys.length : ℕ) : ℚ) * (min (w : ℚ) (h : ℚ) * factor)) := by
  have hpos := ceilSqrt_pos keys.length hn
  refine ⟨ceilSqrt_eq_ceil _, ?_, ?_, ?_⟩
  · intro i key hi
    unfold gridNodes
    rw [gridNodesFrom_getElem?, hi]
    simp only [Option.map_some', Nat.zero_add, gridNode]
  · intro r k k'
    have h0 : (r * ceilSqrt keys.length) % ceilSqrt keys.length = 0 :=
      Nat.mul_mod_left _ _
    have h1 : (r * ceilSqrt keys.length + (ceilSqrt keys.length - 1))
        % ceilSqrt keys.length = ceilSqrt keys.length - 1 := by
      rw [Nat.mul_comm r, Nat.mul_add_mod]
      exact Nat.mod_eq_of_lt (by omega)
    have hc : ((ceilSqrt keys.length - 1 : ℕ) : ℚ) = (ceilSqrt keys.length : ℚ) - 1 := by
      rw [Nat.cast_sub hpos]; simp
    simp only [gridNode, h0, h1, hc, Nat.cast_zero]
    ring
  · intro i k
    simp only [gridNode]
    ring

/-- Witness of C12 (amended) on the countries of the sample catalog. -/
theorem grid_layout_witness :
    1 ≤ (keysOf sampleCountries).length ∧
      ceilSqrt (keysOf sampleCountries).length
        = ⌈Real.sqrt ((keysOf sampleCountries).length : ℝ)⌉₊ :=
  ⟨by decide, (grid_layout (22 / 100) 400 800 (keysOf sampleCountries) (by decide)).1⟩

/-! ## Animation ticks -/

/-- The state after `animate` is the state after its setter calls, and the
frame request is the one of `animateCalls`. -/
theorem animate_eq_calls (startTime now : ℤ) (s : NavState) :
    animate startTime now s
      = ((animateCalls startTime now).1.foldl applySetter s,
         (animateCalls startTime now).2) := by
  by_cases hlt : min ((((now - startTime : ℤ) : ℚ)) / 800) 1 < 1
  · simp only [animate, animateCalls, animateProgress, hlt, if_true]
    rfl
  · simp only [animate, animateCalls, animateProgress, hlt, if_false]
    rfl

/-- C13: a tick at least 800 ms after the start of the transition computes
the progress exactly 1, passes it to `setZoomProgress`, deactivates the
transition in that same call (`setTransitioning(false)`, after which it
resets the stored progress to 0) and requests no further frame. -/
theorem tick_after_duration_ends_transition (startTime now : ℤ) (s : NavState)
    (_hactive : s.transitioning = true) (hlate : startTime + 800 ≤ now) :
    animateProgress startTime now = 1 ∧
      animateCalls startTime now
        = ([.setZoomProgress 1, .setTransitioning false, .setZoomProgress 0], false) ∧
      (animate startTime now s).1.transitioning = false ∧
      (animate startTime now s).1.zoomProgress = 0 ∧
      (animate startTime now s).2 = false := by
  have hp : animateProgress startTime now = 1 := by
    unfold animateProgress
    apply min_eq_right
    rw [le_div_iff₀ (by norm_num : (0 : ℚ) < 800)]
    have : ((800 : ℤ) : ℚ) ≤ ((now - startTime : ℤ) : ℚ) := by
      exact_mod_cast (by omega : (800 : ℤ) ≤ now - startTime)
    simpa using this
  have hc : animateCalls startTime now
      = ([.setZoomProgress 1, .setTransitioning false, .setZoomProgress 0], false) := by
    simp [animateCalls, hp]
  refine ⟨hp, hc, ?_, ?_, ?_⟩
  · rw [animate_eq_calls, hc]; rfl
  · rw [animate_eq_calls, hc]; rfl
  · rw [animate_eq_calls, hc]

/-- Witness of C13: a transition started at 1000 and ticked at 1800. -/
theorem tick_after_duration_ends_transition_witness :
    ({ initialState with transitioning := true } : NavState).transitioning = true ∧
      (1000 : ℤ) + 800 ≤ 1800 ∧
      animateCalls 1000 1800
        = ([.setZoomProgress 1, .setTransitioning false, .setZoomProgress 0], false) :=
  ⟨rfl, by decide,
   (tick_after_duration_ends_transition 1000 1800
      { initialState with transitioning := true } rfl (by decide)).2.1⟩

/-- Counterexample to C14 as stated: when the clock reads less than the start
time (the wall clock was set back), the stored progress is negative; with
start 1000 and tick 200 it is -1, outside [0, 1] and different from the
clamped value 0. -/
theorem tick_progress_counterexample :
    animateCalls 1000 200 = ([.setZoomProgress (-1)], true) ∧
      animateProgress 1000 200 ≠ clamp01 ((((200 - 1000 : ℤ) : ℚ)) / 800) ∧
      ¬ (0 ≤ animateProgress 1000 200) := by
  have hp : animateProgress 1000 200 = -1 := by
    unfold animateProgress
    norm_num
  refine ⟨?_, ?_, ?_⟩
  · simp [animateCalls, hp]
  · rw [hp]; unfold clamp01; norm_num
  · rw [hp]; norm_num

/-- C14 (amended): for every start time and tick timestamp the progress the
tick stores is `min((now - start) / 800, 1)`, at most 1; when the tick is not
earlier than the start it equals `clamp((now - start) / 800, 0, 1)` and lies
in [0, 1]. -/
theorem tick_progress_clamped (startTime now : ℤ) :
    (∃ rest frame,
        animateCalls startTime now
          = (.setZoomProgress (min ((((now - startTime : ℤ) : ℚ)) / 800) 1) :: rest,
             frame)) ∧
      animateProgress startTime now ≤ 1 ∧
      (startTime ≤ now →
        animateProgress startTime now
            = clamp01 ((((now - startTime : ℤ) : ℚ)) / 800) ∧
          0 ≤ animateProgress startTime now ∧ animateProgress startTime now ≤ 1) := by
  have hle : animateProgress startTime now ≤ 1 := by
    unfold animateProgress; exact min_le_right _ _
  refine ⟨?_, hle, ?_⟩
  · by_cases hlt : animateProgress startTime now < 1
    · exact ⟨[], true, by simp only [animateCalls, hlt, if_true]; rfl⟩
    · exact ⟨[.setTransitioning false, .setZoomProgress 0], false,
        by simp only [animateCalls, hlt, if_false]; rfl⟩
  · intro hnow
    have h0 : (0 : ℚ) ≤ (((now - startTime : ℤ) : ℚ)) / 800 := by
      apply div_nonneg _ (by norm_num)
      exact_mod_cast (by omega : (0 : ℤ) ≤ now - startTime)
    have hp0 : 0 ≤ animateProgress startTime now := by
      unfold animateProgress; exact le_min h0 (by norm_num)
    refine ⟨?_, hp0, hle⟩
    unfold clamp01
    rw [max_eq_right]
    · rfl
    · exact le_min h0 (by norm_num)

/-- Witness of C14 (amended): start 1000, tick 1200, progress 1/4. -/
theorem tick_progress_clamped_witness :
    (1000 : ℤ) ≤ 1200 ∧
      animateProgress 1000 1200 = clamp01 ((((1200 - 1000 : ℤ) : ℚ)) / 800) ∧
      0 ≤ animateProgress 1000 1200 ∧ animateProgress 1000 1200 ≤ 1 :=
  ⟨by decide, (tick_progress_clamped 1000 1200).2.2 (by decide)⟩

/-! ## Pending commits -/

/-- C15 fails on the code: on a 400 by 800 canvas at Continent(europe) of the
sample catalog, one click at (200, 370) at clock value 0 starts two timers,
both due at 400, so two deferred commits are pending at once; run in turn
they push `country` onto the history twice. -/
theorem one_click_two_pending_commits :
    onCanvasClick sampleMath sampleWorld sampleContinentState 0 0 200 370 400 800
      = .ok ({ sampleContinentState with transitioning := true, zoomDirection := .zoomIn },
             [{ due := 400, commit := .click .country "france" (some "europe") none },
              { due := 400, commit := .click .country "spain" (some "europe") none }]) ∧
      (runCommit sampleWorld (.click .country "spain" (some "europe") none)
          (runCommit sampleWorld (.click .country "france" (some "europe") none)
            { sampleContinentState with
                transitioning := true, zoomDirection := .zoomIn }).state).state.history
        = [.earth, .continent, .country, .country] := by
  constructor
  · have hcalls : handleCanvasClick sampleMath sampleWorld sampleContinentState.layer
        sampleContinentState.selectedContinent sampleContinentState.selectedCountry
        0 200 370 400 800
        = .ok [(.country, "france"), (.country, "spain")] := by
      show (Except.ok ((allHits 50 200 370
        (gridNodes (22 / 100) 400 800 (keysOf sampleCountries))).map
          (fun k => (Layer.country, k))) : Except JsError (List (Layer × String))) = _
      rw [sample_grid_phone]
      simp only [allHits, isHit]
      norm_num
    simp only [onCanvasClick, hcalls]
    rfl
  · rfl

/-! ## Target layer of a click -/

/-- A click loop reports only keys of the nodes it ranges over. -/
theorem mem_allHits (r x y : ℚ) (nodes : List Node) (k : String)
    (hk : k ∈ allHits r x y nodes) : k ∈ nodes.map Node.key := by
  induction nodes with
  | nil => simp [allHits] at hk
  | cons n rest ih =>
    by_cases hn : isHit r x y n = true
    · simp only [allHits, hn, if_true, List.mem_cons] at hk
      rcases hk with hk | hk
      · simp [hk]
      · simp [ih hk]
    · have hn' : isHit r x y n = false := by simpa using hn
      simp only [allHits, hn', Bool.false_eq_true, if_false] at hk
      simp [ih hk]

/-- The keys of the grid nodes are the entry keys. -/
theorem gridNodesFrom_keys (factor : ℚ) (w h cols : ℕ) (keys : List String) :
    ∀ index : ℕ, (gridNodesFrom factor w h cols index keys).map Node.key = keys := by
  induction keys with
  | nil => intro index; rfl
  | cons k rest ih =>
    intro index
    simp only [gridNodesFrom, List.map_cons, ih, gridNode]

/-- A key of `Object.entries(obj)` resolves in `obj`. -/
theorem getProp_isSome_of_mem_keys {α : Type} (obj : List (String × α)) (k : String)
    (hk : k ∈ keysOf obj) : (getProp obj k).isSome = true := by
  induction obj with
  | nil => simp [keysOf] at hk
  | cons e rest ih =>
    obtain ⟨k0, v⟩ := e
    by_cases hkk : k = k0
    · subst hkk
      simp [getProp, List.lookup]
    · have hmem : k ∈ keysOf rest := by
        simp only [keysOf, List.map_cons, List.mem_cons] at hk
        rcases hk with hk | hk
        · exact absurd hk hkk
        · exact hk
      have hbeq : (k == k0) = false := by simpa using hkk
      have := ih hmem
      simpa [getProp, List.lookup, hbeq] using this

/-- Every call the canvas click path makes targets the layer immediately
below the current one, with a key that resolves under the current selection. -/
theorem canvas_click_calls_descend (M : JsMath) (wd : WorldData) (s : NavState)
    (rotation x y : ℚ) (w h : ℕ) (calls : List (Layer × String))
    (hcalls : handleCanvasClick M wd s.layer s.selectedContinent s.selectedCountry
      rotation x y w h = .ok calls)
    (call : Layer × String) (hmem : call ∈ calls) :
    call.1.depth = s.layer.depth + 1 ∧ resolves wd s call.1 call.2 = true := by
  obtain ⟨l, k⟩ := call
  cases hl : s.layer with
  | earth =>
    simp only [hl, handleCanvasClick, checkEarthNodeClick, Except.ok.injEq] at hcalls
    subst hcalls
    simp only [List.mem_map, Prod.mk.injEq] at hmem
    obtain ⟨k1, hk1, hl1, hk2⟩ := hmem
    subst hl1 hk2
    refine ⟨rfl, ?_⟩
    have hkey := mem_allHits _ _ _ _ _ hk1
    have hkeys : (earthNodes M wd w h rotation).map Node.key = keysOf wd.children := by
      simp [earthNodes, earthNode, keysOf, List.map_map, Function.comp_def]
    rw [hkeys] at hkey
    simpa [resolves] using getProp_isSome_of_mem_keys wd.children k1 hkey
  | continent =>
    simp only [hl, handleCanvasClick, checkContinentNodeClick, countriesOf] at hcalls
    cases h1 : getProp wd.children (jsKey s.selectedContinent) with
    | none => simp [h1] at hcalls
    | some continent =>
      simp only [h1, Except.ok.injEq] at hcalls
      subst hcalls
      simp only [List.mem_map, Prod.mk.injEq] at hmem
      obtain ⟨k1, hk1, hl1, hk2⟩ := hmem
      subst hl1 hk2
      refine ⟨rfl, ?_⟩
      have hkey := mem_allHits _ _ _ _ _ hk1
      rw [gridNodes, gridNodesFrom_keys] at hkey
      simpa [resolves, h1] using getProp_isSome_of_mem_keys continent.children k1 hkey
  | country =>
    simp only [hl, handleCanvasClick, checkCountryNodeClick, citiesOf] at hcalls
    cases h1 : getProp wd.children (jsKey s.selectedContinent) with
    | none => simp [h1] at hcalls
    | some continent =>
      simp only [h1] at hcalls
      cases h2 : getProp continent.children (jsKey s.selectedCountry) with
      | none => simp [h2] at hcalls
      | some country =>
        simp only [h2, Except.ok.injEq] at hcalls
        subst hcalls
        simp only [List.mem_map, Prod.mk.injEq] at hmem
        obtain ⟨k1, hk1, hl1, hk2⟩ := hmem
        subst hl1 hk2
        refine ⟨rfl, ?_⟩
        have hkey := mem_allHits _ _ _ _ _ hk1
        rw [gridNodes, gridNodesFrom_keys] at hkey
        simpa [resolves, h1, h2] using
          getProp_isSome_of_mem_keys country.children k1 hkey
  | city =>
    simp only [hl, handleCanvasClick, Except.ok.injEq] at hcalls
    subst hcalls
    simp at hmem

/-- The callback of a click whose key resolves sets the layer to the target
layer, whatever the state it runs on. -/
theorem commitClick_layer_of_resolves (wd : WorldData) (s t : NavState)
    (newLayer : Layer) (selection : String)
    (hres : resolves wd s newLayer selection = true) :
    (commitClick wd newLayer selection s.selectedContinent s.selectedCountry t).state.layer
      = newLayer := by
  cases newLayer with
  | earth => simp [resolves] at hres
  | continent =>
    simp only [resolves] at hres
    obtain ⟨continent, hc⟩ := Option.isSome_iff_exists.mp hres
    simp only [commitClick, hc]
    rfl
  | country =>
    simp only [resolves] at hres
    cases hcont : getProp wd.children (jsKey s.selectedContinent) with
    | none => simp [hcont] at hres
    | some continent =>
      simp only [hcont] at hres
      obtain ⟨country, hc⟩ := Option.isSome_iff_exists.mp hres
      simp only [commitClick, hcont, hc]
      rfl
  | city =>
    simp only [resolves] at hres
    cases hcont : getProp wd.children (jsKey s.selectedContinent) with
    | none => simp [hcont] at hres
    | some continent =>
      simp only [hcont] at hres
      cases hcountry : getProp continent.children (jsKey s.selectedCountry) with
      | none => simp [hcountry] at hres
      | some country =>
        simp only [hcountry] at hres
        obtain ⟨city, hc⟩ := Option.isSome_iff_exists.mp hres
        simp only [commitClick, hcont, hcountry, hc]
        rfl

/-- Counterexample to C16 as stated: at the idle state Continent(europe) of
the sample catalog, `handleNodeClick('continent', 'europe')` is accepted and
its commit leaves the layer at Continent (it stays, and appends to the
history), and `handleNodeClick('earth', 'europe')` is accepted and its commit
sets the layer to Planet (it ascends). -/
theorem click_target_counterexample :
    sampleContinentState.transitioning = false ∧
      sampleContinentState.layer = .continent ∧
      (handleNodeClick sampleContinentState .continent "europe").2
        = some (.click .continent "europe" (some "europe") none) ∧
      (runCommit sampleWorld (.click .continent "europe" (some "europe") none)
        (handleNodeClick sampleContinentState .continent "europe").1).state.layer
        = .continent ∧
      (runCommit sampleWorld (.click .continent "europe" (some "europe") none)
        (handleNodeClick sampleContinentState .continent "europe").1).state.history
        = [.earth, .continent, .continent] ∧
      (handleNodeClick sampleContinentState .earth "europe").2
        = some (.click .earth "europe" (some "europe") none) ∧
      (runCommit sampleWorld (.click .earth "europe" (some "europe") none)
        (handleNodeClick sampleContinentState .earth "europe").1).state.layer
        = .earth :=
  ⟨rfl, rfl, rfl, rfl, rfl, rfl, rfl⟩

/-- C16 (amended): in an idle state with layer other than City, a
`handleNodeClick` whose target is the layer immediately below the current
one and whose key resolves under the current selection commits to that
layer, one level deeper than before; every call the canvas click path makes
is of that kind. `handleNodeClick` does not check its target layer. -/
theorem click_commit_one_level_deeper (M : JsMath) (wd : WorldData) (s : NavState)
    (hidle : s.transitioning = false) (hlayer : s.layer ≠ .city) :
    (∀ (newLayer : Layer) (selection : String),
        newLayer.depth = s.layer.depth + 1 →
        resolves wd s newLayer selection = true →
        ∃ c, (handleNodeClick s newLayer selection).2 = some c ∧
          (runCommit wd c (handleNodeClick s newLayer selection).1).state.layer
            = newLayer ∧
          (runCommit wd c (handleNodeClick s newLayer selection).1).state.layer.depth
            = s.layer.depth + 1) ∧
      (∀ (rotation x y : ℚ) (w h : ℕ) (calls : List (Layer × String)),
        handleCanvasClick M wd s.layer s.selectedContinent s.selectedCountry
            rotation x y w h = .ok calls →
        ∀ call ∈ calls,
          call.1.depth = s.layer.depth + 1 ∧ resolves wd s call.1 call.2 = true) := by
  constructor
  · intro newLayer selection hnext hres
    have hcall : handleNodeClick s newLayer selection
        = ({ s with transitioning := true, zoomDirection := .zoomIn },
           some (.click newLayer selection s.selectedContinent s.selectedCountry)) := by
      simp [handleNodeClick, hidle, hlayer]
    rw [hcall]
    have hl := commitClick_layer_of_resolves wd s
      { s with transitioning := true, zoomDirection := .zoomIn } newLayer selection hres
    refine ⟨_, rfl, hl, ?_⟩
    show (commitClick wd newLayer selection s.selectedContinent s.selectedCountry
      { s with transitioning := true, zoomDirection := .zoomIn }).state.layer.depth = _
    rw [hl, hnext]
  · intro rotation x y w h calls hcalls call hmem
    exact canvas_click_calls_descend M wd s rotation x y w h calls hcalls call hmem

/-- Witness of C16 (amended): the first click on the sample catalog. -/
theorem click_commit_one_level_deeper_witness :
    initialState.transitioning = false ∧ initialState.layer ≠ .city ∧
      Layer.continent.depth = initialState.layer.depth + 1 ∧
      resolves sampleWorld initialState .continent "europe" = true ∧
      ∃ c, (handleNodeClick initialState .continent "europe").2 = some c ∧
        (runCommit sampleWorld c
          (handleNodeClick initialState .continent "europe").1).state.layer
          = .continent ∧
        (runCommit sampleWorld c
          (handleNodeClick initialState .continent "europe").1).state.layer.depth
          = initialState.layer.depth + 1 :=
  ⟨rfl, by decide, rfl, by decide,
   (click_commit_one_level_deeper sampleMath sampleWorld initialState rfl
      (by decide)).1 .continent "europe" rfl (by decide)⟩

/-! ## Prefetch calls of the click callback -/

/-- C17: the deferred commit of a click entering Country(A,B) issues one
`fetchWeather` call for each city of B's catalog children, in catalog order,
with that city's name, latitude and longitude, and no other call; the commit
of a click entering City(A,B,C) issues exactly one call, for C; the commit of
a click entering Continent issues none; a commit that throws issues none. -/
theorem click_commit_fetches (wd : WorldData) (t : NavState) (selection : String)
    (selectedContinent selectedCountry : Option String) :
    (∀ continent country,
        getProp wd.children (jsKey selectedContinent) = some continent →
        getProp continent.children selection = some country →
        (runCommit wd (.click .country selection selectedContinent selectedCountry) t).fetches
            = country.children.map
                (fun kc => { name := kc.2.name, lat := kc.2.lat, lon := kc.2.lon }) ∧
          (runCommit wd
              (.click .country selection selectedContinent selectedCountry) t).fetches.length
            = country.children.length ∧
          (runCommit wd
              (.click .country selection selectedContinent selectedCountry) t).state.layer
            = .country) ∧
      (∀ continent country city,
        getProp wd.children (jsKey selectedContinent) = some continent →
        getProp continent.children (jsKey selectedCountry) = some country →
        getProp country.children selection = some city →
        (runCommit wd (.click .city selection selectedContinent selectedCountry) t).fetches
            = [{ name := city.name, lat := city.lat, lon := city.lon }] ∧
          (runCommit wd
              (.click .city selection selectedContinent selectedCountry) t).state.layer
            = .city) ∧
      (runCommit wd
          (.click .continent selection selectedContinent selectedCountry) t).fetches = [] ∧
      (∀ newLayer,
        (runCommit wd
            (.click newLayer selection selectedContinent selectedCountry) t).threw = true →
        (runCommit wd
            (.click newLayer selection selectedContinent selectedCountry) t).fetches
          = []) := by
  refine ⟨?_, ?_, ?_, ?_⟩
  · intro continent country h1 h2
    simp only [runCommit, commitClick, h1, h2, List.length_map]
    exact ⟨rfl, trivial, rfl⟩
  · intro continent country city h1 h2 h3
    simp only [runCommit, commitClick, h1, h2, h3]
    exact ⟨rfl, rfl⟩
  · simp only [runCommit, commitClick]
    cases getProp wd.children selection <;> rfl
  · intro newLayer hthrew
    cases newLayer with
    | earth => simp [runCommit, commitClick] at hthrew
    | continent =>
      simp only [runCommit, commitClick]
      cases getProp wd.children selection <;> rfl
    | country =>
      simp only [runCommit, commitClick] at hthrew ⊢
      cases h1 : getProp wd.children (jsKey selectedContinent) with
      | none => simp
      | some continent =>
        cases h2 : getProp continent.children selection with
        | none => simp [h2]
        | some country => simp [h1, h2] at hthrew
    | city =>
      simp only [runCommit, commitClick] at hthrew ⊢
      cases h1 : getProp wd.children (jsKey selectedContinent) with
      | none => simp
      | some continent =>
        cases h2 : getProp continent.children (jsKey selectedCountry) with
        | none => simp [h2]
        | some country =>
          cases h3 : getProp country.children selection with
          | none => simp [h2, h3]
          | some city => simp [h1, h2, h3] at hthrew

/-- Witness of C17: entering Country(europe, france) of the sample catalog
prefetches Paris and Lyon. -/
theorem click_commit_fetches_witness :
    getProp sampleWorld.children (jsKey (some "europe"))
        = some { name := "Europe", color := "#4A90D9",
                 position := { x := 1 / 4, y := 1 }, children := sampleCountries } ∧
      getProp sampleCountries "france"
        = some { name := "France", color := "#3B7DD8", children := sampleFrenchCities } ∧
      (runCommit sampleWorld (.click .country "france" (some "europe") none)
          sampleContinentState).fetches
        = sampleFrenchCities.map
            (fun kc => { name := kc.2.name, lat := kc.2.lat, lon := kc.2.lon }) :=
  ⟨rfl, rfl,
   ((click_commit_fetches sampleWorld sampleContinentState "france" (some "europe")
      none).1 _ _ rfl rfl).1⟩

/-! ## Weather cache -/

/-- Reading back the key just assigned gives the assigned value. -/
theorem getProp_setProp_self {α : Type} (obj : List (String × α)) (k : String) (v : α) :
    getProp (setProp obj k v) k = some v := by
  induction obj with
  | nil => simp [setProp, getProp, List.lookup]
  | cons e rest ih =>
    obtain ⟨k0, v0⟩ := e
    by_cases hk : k0 = k
    · simp [setProp, hk, getProp, List.lookup]
    · have hbeq : (k == k0) = false := by
        simpa using fun h : k = k0 => hk h.symm
      simp only [setProp, hk, if_false, getProp, List.lookup, hbeq]
      exact ih

/-- An assignment to one key leaves the other keys as they are. -/
theorem getProp_setProp_of_ne {α : Type} (obj : List (String × α)) (k k' : String)
    (v : α) (hne : k' ≠ k) : getProp (setProp obj k v) k' = getProp obj k' := by
  induction obj with
  | nil =>
    have hbeq : (k' == k) = false := by simpa using hne
    simp [setProp, getProp, List.lookup, hbeq]
  | cons e rest ih =>
    obtain ⟨k0, v0⟩ := e
    by_cases hk : k0 = k
    · subst hk
      have hbeq : (k' == k0) = false := by simpa using hne
      simp [setProp, getProp, List.lookup, hbeq]
    · simp only [setProp, hk, if_false, getProp, List.lookup]
      cases hb : (k' == k0) with
      | true => rfl
      | false => exact ih

/-- A call of `fetchWeather` leaves every existing cache entry as it is. -/
theorem fetchWeather_keeps_entry (toLowerCase : String → String)
    (cache : List (String × Snapshot)) (resp : Response) (cityName k : String)
    (snap : Snapshot) (hk : getProp cache k = some snap) :
    getProp (fetchWeather toLowerCase cache resp cityName).cache k = some snap := by
  unfold fetchWeather
  cases hc : getProp cache (toLowerCase cityName) with
  | some cached => simpa [hc] using hk
  | none =>
    have hne : k ≠ toLowerCase cityName := by
      intro h; rw [h, hc] at hk; cases hk
    cases ha : fetchAttempt toLowerCase resp with
    | error e => simpa [hc, ha] using hk
    | ok r =>
      cases r with
      | none => simpa [hc, ha] using hk
      | some w =>
        simp only [hc, ha]
        rw [getProp_setProp_of_ne _ _ _ _ hne]
        exact hk

/-- A sequence of `fetchWeather` calls leaves every existing cache entry as
it is. -/
theorem fetchMany_keeps_entry (toLowerCase : String → String)
    (calls : List (String × Response)) :
    ∀ (cache : List (String × Snapshot)) (k : String) (snap : Snapshot),
      getProp cache k = some snap →
      getProp (fetchMany toLowerCase cache calls) k = some snap := by
  induction calls with
  | nil => intro cache k snap hk; exact hk
  | cons call rest ih =>
    intro cache k snap hk
    exact ih _ k snap (fetchWeather_keeps_entry toLowerCase cache call.2 call.1 k snap hk)

/-- After a call of `fetchWeather` that resolved to a snapshot, the cache
holds that snapshot under the lowercase name. -/
theorem fetchWeather_caches_result (toLowerCase : String → String)
    (cache : List (String × Snapshot)) (resp : Response) (cityName : String)
    (snap : Snapshot)
    (hres : (fetchWeather toLowerCase cache resp cityName).result = some snap) :
    getProp (fetchWeather toLowerCase cache resp cityName).cache (toLowerCase cityName)
      = some snap := by
  unfold fetchWeather at hres ⊢
  cases hc : getProp cache (toLowerCase cityName) with
  | some cached =>
    simp only [hc, Option.some.injEq] at hres ⊢
    exact hres
  | none =>
    cases ha : fetchAttempt toLowerCase resp with
    | error e => simp [hc, ha] at hres
    | ok r =>
      cases r with
      | none => simp [hc, ha] at hres
      | some w =>
        simp only [hc, ha, Option.some.injEq] at hres ⊢
        rw [getProp_setProp_self, hres]

/-- A call of `fetchWeather` for a cached name returns the entry, leaves the
cache as it is and issues no request. -/
theorem fetchWeather_of_cached (toLowerCase : String → String)
    (cache : List (String × Snapshot)) (resp : Response) (cityName : String)
    (snap : Snapshot) (hk : getProp cache (toLowerCase cityName) = some snap) :
    fetchWeather toLowerCase cache resp cityName
      = { result := some snap, cache := cache, requested := false } := by
  simp only [fetchWeather, hk]

/-- C18 (amended): for every city name whose lowercase form has a cache
entry, `fetchWeather` resolves to that entry, issues no network request and
leaves the cache unchanged; and after a `fetchWeather` that resolved to a
snapshot, whatever calls of `fetchWeather` run to completion one after the
other in between (no call overlapping another), a later `fetchWeather` or
`getCachedWeather` for a name with the same lowercase form gives that same
snapshot, again without a request. -/
theorem fetchWeather_cache_hit (toLowerCase : String → String)
    (cache : List (String × Snapshot)) (resp : Response) (cityName : String) :
    (∀ snap, getProp cache (toLowerCase cityName) = some snap →
        fetchWeather toLowerCase cache resp cityName
          = { result := some snap, cache := cache, requested := false }) ∧
      (∀ snap, (fetchWeather toLowerCase cache resp cityName).result = some snap →
        ∀ (between : List (String × Response)) (later : String) (resp' : Response),
          toLowerCase later = toLowerCase cityName →
          (fetchWeather toLowerCase
              (fetchMany toLowerCase
                (fetchWeather toLowerCase cache resp cityName).cache between)
              resp' later).result = some snap ∧
            (fetchWeather toLowerCase
              (fetchMany toLowerCase
                (fetchWeather toLowerCase cache resp cityName).cache between)
              resp' later).requested = false ∧
            getCachedWeather toLowerCase
              (fetchMany toLowerCase
                (fetchWeather toLowerCase cache resp cityName).cache between)
              later = some snap) := by
  constructor
  · intro snap hk
    exact fetchWeather_of_cached toLowerCase cache resp cityName snap hk
  · intro snap hres between later resp' hlow
    have hentry := fetchMany_keeps_entry toLowerCase between _ _ snap
      (fetchWeather_caches_result toLowerCase cache resp cityName snap hres)
    rw [← hlow] at hentry
    have hhit := fetchWeather_of_cached toLowerCase _ resp' later snap hentry
    refine ⟨?_, ?_, hentry⟩
    · rw [hhit]
    · rw [hhit]

/-- Witness of C18: Paris is cached, and asking for `PARIS` hits the cache. -/
theorem fetchWeather_cache_hit_witness :
    getProp sampleCache (sampleLower "Paris") = some sampleSnapshot ∧
      fetchWeather sampleLower sampleCache .failed "Paris"
        = { result := some sampleSnapshot, cache := sampleCache, requested := false } ∧
      sampleLower "PARIS" = sampleLower "Paris" ∧
      getCachedWeather sampleLower
        (fetchMany sampleLower
          (fetchWeather sampleLower sampleCache .failed "Paris").cache []) "PARIS"
        = some sampleSnapshot :=
  ⟨by decide,
   (fetchWeather_cache_hit sampleLower sampleCache .failed "Paris").1 sampleSnapshot
     (by decide),
   by decide,
   ((fetchWeather_cache_hit sampleLower sampleCache .failed "Paris").2 sampleSnapshot
     (by rw [(fetchWeather_cache_hit sampleLower sampleCache .failed "Paris").1
       sampleSnapshot (by decide)]) [] "PARIS" .failed (by decide)).2.2⟩

/-! ## Overlapping fetches -/

/-- A call of `fetchWeather` with nothing in between its two halves is the
atomic `fetchWeather`. -/
theorem fetchWeather_eq_start_finish (toLowerCase : String → String)
    (cache : List (String × Snapshot)) (resp : Response) (cityName : String) :
    fetchWeather toLowerCase cache resp cityName
      = match fetchStart toLowerCase cache cityName with
        | some cached => { result := some cached, cache := cache, requested := false }
        | none =>
          { result := (fetchFinish toLowerCase cache resp cityName).1,
            cache := (fetchFinish toLowerCase cache resp cityName).2,
            requested := true } := by
  unfold fetchWeather fetchStart fetchFinish
  cases hc : getProp cache (toLowerCase cityName) with
  | some cached => simp only [hc]
  | none =>
    cases ha : fetchAttempt toLowerCase resp with
    | error e => simp only [hc, ha]
    | ok r => cases r <;> simp only [hc, ha]

/-- Counterexample to C18 as stated: two calls for `Paris` start on an empty
cache, so both miss and both are in flight; the first resolves to a snapshot
with 18 degrees and caches it; the second, whose response says 19 degrees,
then resolves and overwrites the entry, so a `getCachedWeather` after the
successful first call returns a different snapshot. -/
theorem overlapping_fetch_counterexample :
    fetchStart sampleLower [] "Paris" = none ∧
      (fetchFinish sampleLower [] (sampleResponse 18) "Paris").1
        = some { temp := 18, humidity := 60, condition := "Sunny", icon := "sun.png",
                 windSpeed := 3, description := "sunny" } ∧
      getCachedWeather sampleLower
          (fetchFinish sampleLower [] (sampleResponse 18) "Paris").2 "Paris"
        = some { temp := 18, humidity := 60, condition := "Sunny", icon := "sun.png",
                 windSpeed := 3, description := "sunny" } ∧
      getCachedWeather sampleLower
          (fetchFinish sampleLower
            (fetchFinish sampleLower [] (sampleResponse 18) "Paris").2
            (sampleResponse 19) "Paris").2 "Paris"
        = some { temp := 19, humidity := 60, condition := "Sunny", icon := "sun.png",
                 windSpeed := 3, description := "sunny" } := by
  have h18 : jsRound 18 = 18 := by
    unfold jsRound; rw [Int.floor_eq_iff]; norm_num
  have h19 : jsRound 19 = 19 := by
    unfold jsRound; rw [Int.floor_eq_iff]; norm_num
  have hw : jsRound (10 / (36 / 10)) = 3 := by
    unfold jsRound; rw [Int.floor_eq_iff]; norm_num
  have hl : sampleLower "Sunny" = "sunny" := by decide
  have hp : sampleLower "Paris" = "paris" := by decide
  refine ⟨rfl, ?_, ?_, ?_⟩
  · simp only [fetchFinish, sampleResponse, fetchAttempt, h18, hw, hl]
  · simp only [fetchFinish, sampleResponse, fetchAttempt, h18, hw, hl, hp,
      getCachedWeather, setProp, getProp, List.lookup, beq_self_eq_true]
  · simp only [fetchFinish, sampleResponse, fetchAttempt, h18, h19, hw, hl, hp,
      getCachedWeather, setProp, getProp, List.lookup, beq_self_eq_true, if_true]

/-! ## Temperature colours -/

/-- C24: for every temperature `t`, `getColorForTemp` returns `'#4DA6FF'`
exactly when `t < 10`, `'#66CC66'` exactly when `10 ≤ t < 20`, `'#FF9933'`
exactly when `20 ≤ t < 30` and `'#FF4C4C'` exactly when `t ≥ 30`, so every
temperature has exactly one of the four colours. -/
theorem getColorForTemp_bands (t : ℚ) :
    (getColorForTemp t = "#4DA6FF" ↔ t < 10) ∧
      (getColorForTemp t = "#66CC66" ↔ 10 ≤ t ∧ t < 20) ∧
      (getColorForTemp t = "#FF9933" ↔ 20 ≤ t ∧ t < 30) ∧
      (getColorForTemp t = "#FF4C4C" ↔ 30 ≤ t) := by
  unfold getColorForTemp
  by_cases h1 : t < 10
  · rw [if_pos h1]
    exact ⟨⟨fun _ => h1, fun _ => rfl⟩,
      ⟨fun h => absurd h (by decide), fun h => absurd h1 (not_lt.mpr h.1)⟩,
      ⟨fun h => absurd h (by decide), fun h => absurd h1 (not_lt.mpr (by linarith [h.1]))⟩,
      ⟨fun h => absurd h (by decide), fun h => absurd h1 (not_lt.mpr (by linarith))⟩⟩
  · rw [if_neg h1]
    have h1' : 10 ≤ t := not_lt.mp h1
    by_cases h2 : t < 20
    · rw [if_pos h2]
      exact ⟨⟨fun h => absurd h (by decide), fun h => absurd h h1⟩,
        ⟨fun _ => ⟨h1', h2⟩, fun _ => rfl⟩,
        ⟨fun h => absurd h (by decide), fun h => absurd h2 (not_lt.mpr h.1)⟩,
        ⟨fun h => absurd h (by decide), fun h => absurd h2 (not_lt.mpr (by linarith))⟩⟩
    · rw [if_neg h2]
      have h2' : 20 ≤ t := not_lt.mp h2
      by_cases h3 : t < 30
      · rw [if_pos h3]
        exact ⟨⟨fun h => absurd h (by decide), fun h => absurd h h1⟩,
          ⟨fun h => absurd h (by decide), fun h => absurd h.2 h2⟩,
          ⟨fun _ => ⟨h2', h3⟩, fun _ => rfl⟩,
          ⟨fun h => absurd h (by decide), fun h => absurd h3 (not_lt.mpr h)⟩⟩
      · rw [if_neg h3]
        exact ⟨⟨fun h => absurd h (by decide), fun h => absurd h h1⟩,
          ⟨fun h => absurd h (by decide), fun h => absurd h.2 h2⟩,
          ⟨fun h => absurd h (by decide), fun h => absurd h.2 h3⟩,
          ⟨fun _ => not_lt.mp h3, fun _ => rfl⟩⟩

/-! ## Grid cells -/

/-- A grid with `ceilSqrt n` columns and as many rows has room for `n` nodes. -/
theorem le_ceilSqrt_sq (n : ℕ) : n ≤ ceilSqrt n * ceilSqrt n := by
  unfold ceilSqrt
  split
  · next heq => exact le_of_eq heq.symm
  · exact (Nat.lt_succ_sqrt n).le

/-- C25: for every child count `n ≥ 1` with `cols = ceil(sqrt(n))`, every
index `i < n` is placed at column `i mod cols < cols` and row
`floor(i / cols) < cols`, so the grid has no more rows than columns and the
`n` nodes fit in a `cols` by `cols` square; the node the grid loops compute
for index `i` sits at that column and row. -/
theorem grid_fits_square (factor : ℚ) (w h : ℕ) (keys : List String)
    (hn : 1 ≤ keys.length) (i : ℕ) (hi : i < keys.length) :
    ceilSqrt keys.length = ⌈Real.sqrt (keys.length : ℝ)⌉₊ ∧
      i % ceilSqrt keys.length < ceilSqrt keys.length ∧
      i / ceilSqrt keys.length < ceilSqrt keys.length ∧
      ∃ (n : Node) (col row : ℕ),
        (gridNodes factor w h keys)[i]? = some n ∧
        col = i % ceilSqrt keys.length ∧ row = i / ceilSqrt keys.length ∧
        col < ceilSqrt keys.length ∧ row < ceilSqrt keys.length ∧
        n.nodeX = (w : ℚ) / 2
            - ((ceilSqrt keys.length : ℚ) * (min (w : ℚ) (h : ℚ) * factor)) / 2
            + (col : ℚ) * (min (w : ℚ) (h : ℚ) * factor)
            + (min (w : ℚ) (h : ℚ) * factor) / 2 ∧
        n.nodeY = (h : ℚ) / 2 + (row : ℚ) * (min (w : ℚ) (h : ℚ) * factor) - 30 := by
  have hpos : 0 < ceilSqrt keys.length := ceilSqrt_pos _ hn
  have hcol : i % ceilSqrt keys.length < ceilSqrt keys.length := Nat.mod_lt _ hpos
  have hrow : i / ceilSqrt keys.length < ceilSqrt keys.length := by
    rw [Nat.div_lt_iff_lt_mul hpos]
    exact lt_of_lt_of_le hi (le_ceilSqrt_sq _)
  refine ⟨ceilSqrt_eq_ceil _, hcol, hrow, ?_⟩
  refine ⟨gridNode factor w h (ceilSqrt keys.length) i (keys.get ⟨i, hi⟩), _, _,
    ?_, rfl, rfl, hcol, hrow, rfl, rfl⟩
  unfold gridNodes
  rw [gridNodesFrom_getElem?, List.getElem?_eq_getElem hi]
  simp

/-- Witness of C25: index 1 of the two countries of the sample catalog. -/
theorem grid_fits_square_witness :
    1 ≤ (keysOf sampleCountries).length ∧ 1 < (keysOf sampleCountries).length ∧
      1 % ceilSqrt (keysOf sampleCountries).length
        < ceilSqrt (keysOf sampleCountries).length ∧
      1 / ceilSqrt (keysOf sampleCountries).length
        < ceilSqrt (keysOf sampleCountries).length :=
  ⟨by decide, by decide,
   (grid_fits_square (22 / 100) 400 800 (keysOf sampleCountries) (by decide) 1
      (by decide)).2.1,
   (grid_fits_square (22 / 100) 400 800 (keysOf sampleCountries) (by decide) 1
      (by decide)).2.2.1⟩

/-! ## Background colour of a click commit -/

/-- Counterexample to C22 as stated: the commit of the click entering
City(europe, france, paris) of the sample catalog sets the background to the
constant `'#12192B'`, which is neither the colour of France nor the colour of
Europe followed by a suffix (a city has no colour in the catalog). -/
theorem city_bgColor_counterexample :
    (runCommit sampleWorld (.click .city "paris" (some "europe") (some "france"))
        (handleNodeClick sampleCountryState .city "paris").1).state.bgColor = "#12192B" ∧
      (∀ suffix : String, "#12192B" ≠ "#3B7DD8" ++ suffix) ∧
      (∀ suffix : String, "#12192B" ≠ "#4A90D9" ++ suffix) := by
  refine ⟨rfl, ?_, ?_⟩
  · intro suffix h
    have hd := congrArg String.data h
    rw [String.data_append] at hd
    simp at hd
  · intro suffix h
    have hd := congrArg String.data h
    rw [String.data_append] at hd
    simp at hd

/-- C22 (amended): for an accepted click whose key resolves, the background
colour set by the deferred commit is the selected continent's catalog colour
followed by `'30'` for target Continent, the selected country's catalog
colour followed by `'20'` for target Country, and the constant `'#12192B'`
for target City. -/
theorem click_commit_bgColor (wd : WorldData) (t : NavState) (selection : String)
    (selectedContinent selectedCountry : Option String) :
    (∀ continent, getProp wd.children selection = some continent →
        (runCommit wd
            (.click .continent selection selectedContinent selectedCountry) t).state.bgColor
          = continent.color ++ "30") ∧
      (∀ continent country,
        getProp wd.children (jsKey selectedContinent) = some continent →
        getProp continent.children selection = some country →
        (runCommit wd
            (.click .country selection selectedContinent selectedCountry) t).state.bgColor
          = country.color ++ "20") ∧
      (∀ continent country city,
        getProp wd.children (jsKey selectedContinent) = some continent →
        getProp continent.children (jsKey selectedCountry) = some country →
        getProp country.children selection = some city →
        (runCommit wd
            (.click .city selection selectedContinent selectedCountry) t).state.bgColor
          = "#12192B") := by
  refine ⟨?_, ?_, ?_⟩
  · intro continent h1
    simp only [runCommit, commitClick, h1]
    rfl
  · intro continent country h1 h2
    simp only [runCommit, commitClick, h1, h2]
    rfl
  · intro continent country city h1 h2 h3
    simp only [runCommit, commitClick, h1, h2, h3]
    rfl

/-- Witness of C22 (amended): entering Continent(europe) of the sample
catalog sets the background to the colour of Europe followed by `'30'`. -/
theorem click_commit_bgColor_witness :
    getProp sampleWorld.children "europe"
        = some { name := "Europe", color := "#4A90D9",
                 position := { x := 1 / 4, y := 1 }, children := sampleCountries } ∧
      (runCommit sampleWorld (.click .continent "europe" none none)
          initialState).state.bgColor = "#4A90D9" ++ "30" :=
  ⟨rfl, (click_commit_bgColor sampleWorld initialState "europe" none none).1 _ rfl⟩

/-! ## Click with a key that does not resolve -/

/-- The callback of a click on Continent, Country or City whose key does not
resolve throws after recording the key: layer, history, the other selection
keys and the fetch list are untouched, and only a City target has changed the
background colour by then. -/
theorem commitClick_of_not_resolves (wd : WorldData) (s t : NavState)
    (newLayer : Layer) (selection : String) (hne : newLayer ≠ .earth)
    (hres : resolves wd s newLayer selection = false) :
    (commitClick wd newLayer selection s.selectedContinent s.selectedCountry t).threw
        = true ∧
      (commitClick wd newLayer selection s.selectedContinent s.selectedCountry t).fetches
        = [] ∧
      (commitClick wd newLayer selection s.selectedContinent s.selectedCountry t).state.layer
        = t.layer ∧
      (commitClick wd newLayer selection s.selectedContinent
          s.selectedCountry t).state.history = t.history ∧
      selectionAt
          (commitClick wd newLayer selection s.selectedContinent s.selectedCountry t).state
          newLayer = some selection ∧
      (∀ l, l ≠ newLayer →
        selectionAt
            (commitClick wd newLayer selection s.selectedContinent
              s.selectedCountry t).state l = selectionAt t l) ∧
      (commitClick wd newLayer selection s.selectedContinent
          s.selectedCountry t).state.bgColor
        = if newLayer = .city then "#12192B" else t.bgColor := by
  cases newLayer with
  | earth => exact absurd rfl hne
  | continent =>
    simp only [resolves] at hres
    have h1 : getProp wd.children selection = none := by
      cases h : getProp wd.children selection with
      | none => rfl
      | some c => simp [h] at hres
    simp only [commitClick, h1]
    refine ⟨?_, ?_, ?_, ?_, ?_, ?_, ?_⟩ <;>
      first
      | trivial
      | rfl
      | (intro l hl; cases l <;> first | rfl | exact absurd rfl hl)
  | country =>
    simp only [resolves] at hres
    cases h1 : getProp wd.children (jsKey s.selectedContinent) with
    | none =>
      simp only [commitClick, h1]
      refine ⟨?_, ?_, ?_, ?_, ?_, ?_, ?_⟩ <;>
        first
        | trivial
        | rfl
        | (intro l hl; cases l <;> first | rfl | exact absurd rfl hl)
    | some continent =>
      have h2 : getProp continent.children selection = none := by
        cases h : getProp continent.children selection with
        | none => rfl
        | some c => simp [h1, h] at hres
      simp only [commitClick, h1, h2]
      refine ⟨?_, ?_, ?_, ?_, ?_, ?_, ?_⟩ <;>
        first
        | trivial
        | rfl
        | (intro l hl; cases l <;> first | rfl | exact absurd rfl hl)
  | city =>
    simp only [resolves] at hres
    cases h1 : getProp wd.children (jsKey s.selectedContinent) with
    | none =>
      simp only [commitClick, h1]
      refine ⟨?_, ?_, ?_, ?_, ?_, ?_, ?_⟩ <;>
        first
        | trivial
        | rfl
        | (intro l hl; cases l <;> first | rfl | exact absurd rfl hl)
    | some continent =>
      cases h2 : getProp continent.children (jsKey s.selectedCountry) with
      | none =>
        simp only [commitClick, h1, h2]
        refine ⟨?_, ?_, ?_, ?_, ?_, ?_, ?_⟩ <;>
          first
          | trivial
          | rfl
          | (intro l hl; cases l <;> first | rfl | exact absurd rfl hl)
      | some country =>
        have h3 : getProp country.children selection = none := by
          cases h : getProp country.children selection with
          | none => rfl
          | some c => simp [h1, h2, h] at hres
        simp only [commitClick, h1, h2, h3]
        refine ⟨?_, ?_, ?_, ?_, ?_, ?_, ?_⟩ <;>
          first
          | trivial
          | rfl
          | (intro l hl; cases l <;> first | rfl | exact absurd rfl hl)

/-! ## Click followed by `goBack` -/

/-- A resolved descending command keeps the background colour in step with
the layer. -/
theorem bgTracksLayer_exec (wd : WorldData) (s : NavState) (c : Cmd)
    (hinv : NavInv wd s) (hbg : bgTracksLayer wd s)
    (hd : descendsResolved wd s c = true) : bgTracksLayer wd (exec wd s c) := by
  obtain ⟨layer, history, sc, sco, sci, hov, tr, bg, zp, zd⟩ := s
  obtain ⟨htr, hhist, hres⟩ := hinv
  simp only at htr hhist
  subst htr hhist
  cases c with
  | click newLayer selection =>
    cases layer with
    | earth =>
      cases newLayer <;> simp [descendsResolved, Layer.depth, resolves] at hd
      obtain ⟨continent, h1⟩ := Option.isSome_iff_exists.mp hd
      simp [exec, issue, handleNodeClick, settle, animate_end, runCommit, commitClick,
        bgTracksLayer, pushLayer, h1, jsKey_some]
    | continent =>
      cases newLayer <;> simp [descendsResolved, Layer.depth, resolves] at hd
      cases h1 : getProp wd.children (jsKey sc) with
      | none => simp [h1] at hd
      | some continent =>
        simp only [h1] at hd
        obtain ⟨country, h2⟩ := Option.isSome_iff_exists.mp hd
        simp [exec, issue, handleNodeClick, settle, animate_end, runCommit, commitClick,
          bgTracksLayer, pushLayer, h1, h2, jsKey_some]
    | country =>
      cases newLayer <;> simp [descendsResolved, Layer.depth, resolves] at hd
      cases h1 : getProp wd.children (jsKey sc) with
      | none => simp [h1] at hd
      | some continent =>
        simp only [h1] at hd
        cases h2 : getProp continent.children (jsKey sco) with
        | none => simp [h2] at hd
        | some country =>
          simp only [h2] at hd
          obtain ⟨city, h3⟩ := Option.isSome_iff_exists.mp hd
          simp [exec, issue, handleNodeClick, settle, animate_end, runCommit, commitClick,
            bgTracksLayer, pushLayer, h1, h2, h3]
    | city =>
      simpa [exec, issue, handleNodeClick, settle, bgTracksLayer] using hbg
  | back =>
    cases layer with
    | earth =>
      simpa [exec, issue, goBack, settle, layersUpTo, bgTracksLayer] using hbg
    | continent =>
      simp [exec, issue, goBack, settle, animate_end, runCommit, commitBack,
        layersUpTo, bgTracksLayer]
    | country =>
      simp only [resolvedUpTo] at hres
      cases h1 : getProp wd.children (jsKey sc) with
      | none => simp [h1] at hres
      | some continent =>
        simp [exec, issue, goBack, settle, animate_end, runCommit, commitBack,
          layersUpTo, bgTracksLayer, h1]
    | city =>
      simp only [resolvedUpTo] at hres
      cases h1 : getProp wd.children (jsKey sc) with
      | none => simp [h1] at hres
      | some continent =>
        simp only [h1] at hres
        obtain ⟨country, h2⟩ := Option.isSome_iff_exists.mp hres
        simp [exec, issue, goBack, settle, animate_end, runCommit, commitBack,
          layersUpTo, bgTracksLayer, h1, h2]
  | home =>
    cases layer
    · simpa [exec, issue, goHome, settle, bgTracksLayer] using hbg
    all_goals
      simp [exec, issue, goHome, settle, animate_end, runCommit, commitHome,
        bgTracksLayer]

/-- Every state reached by resolved descending commands has a consistent
selection path and a background colour in step with its layer. -/
theorem consistent_of_reachable (wd : WorldData) (s : NavState)
    (h : Reachable wd (descendsResolved wd) s) :
    selectionConsistent s = true ∧ bgTracksLayer wd s := by
  induction h with
  | init => exact ⟨rfl, rfl⟩
  | step c hr hc ih =>
    have hinv := navInv_of_reachable wd _ (descends_of_descendsResolved wd) _ hr
    exact ⟨consistent_exec wd _ c hinv ih.1 hc, bgTracksLayer_exec wd _ c hinv ih.2 hc⟩

/-- The sample state with the stale key `atlantis` is what a click on that key
leaves behind. -/
theorem sample_exec_stale :
    exec sampleWorld initialState (.click .continent "atlantis") = sampleStaleState := by
  simp [exec, issue, handleNodeClick, settle, animate_end, runCommit, commitClick,
    initialState, sampleWorld, sampleStaleState, getProp, List.lookup]

/-- Counterexample to C26 as stated: the idle Planet state reached by one
click that targets the next deeper layer with the key `atlantis` (which does
not resolve, so its callback recorded the key and threw) holds the continent
key `atlantis`; the click on `europe` followed by `goBack` leaves the
continent key null, not `atlantis`. -/
theorem click_goBack_counterexample :
    Reachable sampleWorld descendingClick sampleStaleState ∧
      sampleStaleState.transitioning = false ∧
      sampleStaleState.layer = .earth ∧
      Layer.continent.depth = sampleStaleState.layer.depth + 1 ∧
      resolves sampleWorld sampleStaleState .continent "europe" = true ∧
      (exec sampleWorld (exec sampleWorld sampleStaleState (.click .continent "europe"))
        .back).selectedContinent = none ∧
      sampleStaleState.selectedContinent = some "atlantis" := by
  refine ⟨?_, rfl, rfl, rfl, by decide, ?_, rfl⟩
  · have r1 : Reachable sampleWorld descendingClick
        (exec sampleWorld initialState (.click .continent "atlantis")) :=
      Reachable.step (.click .continent "atlantis") Reachable.init (by decide)
    rw [sample_exec_stale] at r1
    exact r1
  · simp [exec, issue, handleNodeClick, goBack, settle, animate_end, runCommit,
      commitClick, commitBack, pushLayer, sampleWorld, sampleStaleState, getProp,
      List.lookup]

/-- C26 (amended): in every idle state with layer other than City reached by
commands whose clicks each target the next deeper layer with a key that
resolves, a click on the next deeper layer with a key that resolves, followed
through its deferred commit, and then `goBack`, followed through its deferred
commit, restore layer, the three selection keys, history and background
colour to their values before the click. -/
theorem click_then_goBack_restores (wd : WorldData) (s : NavState)
    (newLayer : Layer) (selection : String)
    (hreach : Reachable wd (descendsResolved wd) s) (hlayer : s.layer ≠ .city)
    (hnext : newLayer.depth = s.layer.depth + 1)
    (hres : resolves wd s newLayer selection = true) :
    (exec wd (exec wd s (.click newLayer selection)) .back).layer = s.layer ∧
      (exec wd (exec wd s (.click newLayer selection)) .back).selectedContinent
        = s.selectedContinent ∧
      (exec wd (exec wd s (.click newLayer selection)) .back).selectedCountry
        = s.selectedCountry ∧
      (exec wd (exec wd s (.click newLayer selection)) .back).selectedCity
        = s.selectedCity ∧
      (exec wd (exec wd s (.click newLayer selection)) .back).history = s.history ∧
      (exec wd (exec wd s (.click newLayer selection)) .back).bgColor = s.bgColor := by
  obtain ⟨htr, hhist, hresolved⟩ :=
    navInv_of_reachable wd _ (descends_of_descendsResolved wd) s hreach
  obtain ⟨hcons, hbg⟩ := consistent_of_reachable wd s hreach
  obtain ⟨layer, history, sc, sco, sci, hov, tr, bg, zp, zd⟩ := s
  simp only at htr hhist hlayer hnext
  subst htr hhist
  cases layer with
  | earth =>
    cases newLayer <;> simp [Layer.depth] at hnext
    simp only [resolves] at hres
    obtain ⟨continent, h1⟩ := Option.isSome_iff_exists.mp hres
    simp [selectionConsistent] at hcons
    simp only [bgTracksLayer] at hbg
    obtain ⟨⟨hc1, hc2⟩, hc3⟩ := hcons
    subst hc1 hc2 hc3 hbg
    simp [exec, issue, handleNodeClick, goBack, settle, animate_end, runCommit,
      commitClick, commitBack, pushLayer, layersUpTo, h1]
  | continent =>
    cases newLayer <;> simp [Layer.depth] at hnext
    simp only [resolves] at hres
    simp [selectionConsistent] at hcons
    simp only [bgTracksLayer] at hbg
    obtain ⟨continent, h1, hbg1⟩ := hbg
    simp only [h1] at hres
    obtain ⟨country, h2⟩ := Option.isSome_iff_exists.mp hres
    obtain ⟨⟨_, hc2⟩, hc3⟩ := hcons
    subst hc2 hc3 hbg1
    simp [exec, issue, handleNodeClick, goBack, settle, animate_end, runCommit,
      commitClick, commitBack, pushLayer, layersUpTo, h1, h2]
  | country =>
    cases newLayer <;> simp [Layer.depth] at hnext
    simp only [resolves] at hres
    simp [selectionConsistent] at hcons
    simp only [bgTracksLayer] at hbg
    obtain ⟨continent, country, h1, h2, hbg1⟩ := hbg
    simp only [h1, h2] at hres
    obtain ⟨city, h3⟩ := Option.isSome_iff_exists.mp hres
    obtain ⟨_, hc3⟩ := hcons
    subst hc3 hbg1
    simp [exec, issue, handleNodeClick, goBack, settle, animate_end, runCommit,
      commitClick, commitBack, pushLayer, layersUpTo, h1, h2, h3]
  | city => exact absurd rfl hlayer

/-- Witness of C26 (amended): at Country(europe, france) of the sample
catalog, the click on `paris` followed by `goBack` restores the layer. -/
theorem click_then_goBack_restores_witness :
    Reachable sampleWorld (descendsResolved sampleWorld)
        (exec sampleWorld sampleContinentState (.click .country "france")) ∧
      (exec sampleWorld sampleContinentState (.click .country "france")).layer ≠ .city ∧
      Layer.city.depth
        = (exec sampleWorld sampleContinentState (.click .country "france")).layer.depth
          + 1 ∧
      resolves sampleWorld
        (exec sampleWorld sampleContinentState (.click .country "france")) .city "paris"
        = true ∧
      (exec sampleWorld
        (exec sampleWorld
          (exec sampleWorld sampleContinentState (.click .country "france"))
          (.click .city "paris")) .back).layer
        = (exec sampleWorld sampleContinentState (.click .country "france")).layer := by
  have hr : Reachable sampleWorld (descendsResolved sampleWorld)
      (exec sampleWorld sampleContinentState (.click .country "france")) := by
    have r1 : Reachable sampleWorld (descendsResolved sampleWorld)
        (exec sampleWorld initialState (.click .continent "europe")) :=
      Reachable.step (.click .continent "europe") Reachable.init (by decide)
    rw [sample_exec_continent] at r1
    exact Reachable.step (.click .country "france") r1 (by decide)
  have h1 : (exec sampleWorld sampleContinentState (.click .country "france")).layer
      ≠ .city := by
    rw [sample_exec_country]; decide
  have h2 : Layer.city.depth
      = (exec sampleWorld sampleContinentState (.click .country "france")).layer.depth
        + 1 := by
    rw [sample_exec_country]; rfl
  have h3 : resolves sampleWorld
      (exec sampleWorld sampleContinentState (.click .country "france")) .city "paris"
      = true := by
    rw [sample_exec_country]; decide
  exact ⟨hr, h1, h2, h3,
    (click_then_goBack_restores sampleWorld _ .city "paris" hr h1 h2 h3).1⟩

/-! ## Reads through the prototype chain -/

/-- A read that finds an own property returns it. -/
theorem readProp_of_some {α : Type} (obj : List (String × α)) (k : String) (v : α)
    (h : getProp obj k = some v) : readProp obj k = .own v := by
  simp only [readProp, h]

/-- A read that finds no own property, on a key that is not the name of a
member of `Object.prototype`, is `undefined`. -/
theorem readProp_of_none {α : Type} (obj : List (String × α)) (k : String)
    (h : getProp obj k = none) (hk : k ∉ objectPrototypeNames) :
    readProp obj k = .undefined := by
  simp only [readProp, h, hk, if_false]

/-- A read that finds no own property, on the name of a member of
`Object.prototype`, returns that member. -/
theorem readProp_of_member {α : Type} (obj : List (String × α)) (k : String)
    (h : getProp obj k = none) (hk : k ∈ objectPrototypeNames) :
    readProp obj k = .inherited k := by
  simp only [readProp, h, hk, if_true]

/-- A read that finds no own property never returns an own value. -/
theorem readProp_ne_own {α : Type} (obj : List (String × α)) (k : String)
    (h : getProp obj k = none) :
    readProp obj k = .undefined ∨ readProp obj k = .inherited k := by
  by_cases hk : k ∈ objectPrototypeNames
  · exact Or.inr (readProp_of_member obj k h hk)
  · exact Or.inl (readProp_of_none obj k h hk)

/-- For a key that is not the name of a member of `Object.prototype` the
click callback with reads through the prototype chain is the callback with
own-property reads. -/
theorem proto_commitClick_eq (wd : WorldData) (newLayer : Layer) (selection : String)
    (selectedContinent selectedCountry : Option String) (s : NavState)
    (hsel : selection ∉ objectPrototypeNames) :
    Proto.commitClick wd newLayer selection selectedContinent selectedCountry s
      = Proto.ofResult
          (commitClick wd newLayer selection selectedContinent selectedCountry s) := by
  cases newLayer with
  | earth => rfl
  | continent =>
    cases h1 : getProp wd.children selection with
    | none =>
      simp only [Proto.commitClick, commitClick, readProp_of_none _ _ h1 hsel, h1]
      rfl
    | some continent =>
      simp only [Proto.commitClick, commitClick, readProp_of_some _ _ _ h1, h1]
      rfl
  | country =>
    cases h1 : getProp wd.children (jsKey selectedContinent) with
    | none =>
      rcases readProp_ne_own _ _ h1 with hr | hr <;>
        simp only [Proto.commitClick, commitClick, hr, h1] <;> rfl
    | some continent =>
      cases h2 : getProp continent.children selection with
      | none =>
        simp only [Proto.commitClick, commitClick, readProp_of_some _ _ _ h1, h1,
          readProp_of_none _ _ h2 hsel, h2]
        rfl
      | some country =>
        simp only [Proto.commitClick, commitClick, readProp_of_some _ _ _ h1, h1,
          readProp_of_some _ _ _ h2, h2]
        simp [Proto.ofResult, Proto.fetchOf, fetchOf]
  | city =>
    cases h1 : getProp wd.children (jsKey selectedContinent) with
    | none =>
      rcases readProp_ne_own _ _ h1 with hr | hr <;>
        simp only [Proto.commitClick, commitClick, hr, h1] <;> rfl
    | some continent =>
      cases h2 : getProp continent.children (jsKey selectedCountry) with
      | none =>
        rcases readProp_ne_own _ _ h2 with hr | hr <;>
          simp only [Proto.commitClick, commitClick, readProp_of_some _ _ _ h1, h1,
            hr, h2] <;> rfl
      | some country =>
        cases h3 : getProp country.children selection with
        | none =>
          simp only [Proto.commitClick, commitClick, readProp_of_some _ _ _ h1, h1,
            readProp_of_some _ _ _ h2, h2, readProp_of_none _ _ h3 hsel, h3]
          rfl
        | some city =>
          simp only [Proto.commitClick, commitClick, readProp_of_some _ _ _ h1, h1,
            readProp_of_some _ _ _ h2, h2, readProp_of_some _ _ _ h3, h3]
          rfl

/-- No callback touches the hovered key. -/
theorem proto_runCommit_hoveredNode (wd : WorldData) (c : Commit) (s : NavState) :
    (Proto.runCommit wd c s).state.hoveredNode = s.hoveredNode := by
  cases c with
  | click newLayer selection selectedContinent selectedCountry =>
    cases newLayer with
    | earth => rfl
    | continent =>
      simp only [Proto.runCommit, Proto.commitClick]
      cases readProp wd.children selection <;> rfl
    | country =>
      simp only [Proto.runCommit, Proto.commitClick]
      cases readProp wd.children (jsKey selectedContinent) with
      | undefined => rfl
      | inherited member => rfl
      | own continent =>
        show (match readProp continent.children selection with
          | .undefined => _ | .inherited _ => _ | .own _ => _ : Proto.CommitResult).state.hoveredNode
            = s.hoveredNode
        cases readProp continent.children selection <;> rfl
    | city =>
      simp only [Proto.runCommit, Proto.commitClick]
      cases readProp wd.children (jsKey selectedContinent) with
      | undefined => rfl
      | inherited member => rfl
      | own continent =>
        show (match readProp continent.children (jsKey selectedCountry) with
          | .undefined => _ | .inherited _ => _ | .own _ => _ : Proto.CommitResult).state.hoveredNode
            = s.hoveredNode
        cases readProp continent.children (jsKey selectedCountry) with
        | undefined => rfl
        | inherited member => rfl
        | own country =>
          show (match readProp country.children selection with
            | .undefined => _ | .inherited _ => _ | .own _ => _ : Proto.CommitResult).state.hoveredNode
              = s.hoveredNode
          cases readProp country.children selection <;> rfl
  | back newHistory prevLayer selectedContinent selectedCountry =>
    cases prevLayer with
    | earth => rfl
    | continent =>
      simp only [Proto.runCommit, Proto.commitBack]
      cases readProp wd.children (jsKey selectedContinent) <;> rfl
    | country =>
      simp only [Proto.runCommit, Proto.commitBack]
      cases readProp wd.children (jsKey selectedContinent) with
      | undefined => rfl
      | inherited member => rfl
      | own continent =>
        show (match readProp continent.children (jsKey selectedCountry) with
          | .undefined => _ | .inherited _ => _ | .own _ => _ : Proto.CommitResult).state.hoveredNode
            = s.hoveredNode
        cases readProp continent.children (jsKey selectedCountry) <;> rfl
    | city => rfl
  | home => rfl

/-! ## Failed fetches -/

/-- For a name whose cache key is not cached and is not the name of a member
of `Object.prototype`, a failed request, a response that is not OK and a
body without `current` all make `fetchWeather` resolve to null after one
request, with the cache unchanged, and the `then` handler of the app leaves
`weatherData` unchanged. -/
theorem proto_fetchWeather_failure_null (toLowerCase : String → String)
    (cache : List (String × Snapshot)) (weatherData : List (String × Proto.FetchValue))
    (cityName : String)
    (hmiss : getProp cache (toLowerCase cityName) = none)
    (hkey : toLowerCase cityName ∉ objectPrototypeNames) (resp : Response)
    (hresp : resp = .failed ∨ (∃ body, resp = .http false body) ∨
      resp = .http true (.json none)) :
    Proto.fetchWeather toLowerCase cache resp cityName
        = { result := none, cache := cache, requested := true } ∧
      Proto.onWeatherFetched toLowerCase weatherData cityName
        (Proto.fetchWeather toLowerCase cache resp cityName).result = weatherData := by
  have hcall : Proto.fetchWeather toLowerCase cache resp cityName
      = { result := none, cache := cache, requested := true } := by
    rcases hresp with h | ⟨body, h⟩ | h <;> subst h <;>
      simp only [Proto.fetchWeather, readProp_of_none _ _ hmiss hkey, fetchAttempt]
  rw [hcall]
  exact ⟨rfl, rfl⟩

/-- For a name whose cache key is the name of a member of `Object.prototype`
and is not an own key of the cache, `fetchWeather` returns that member
without a request, whatever the network would answer, and the `then` handler
stores it in `weatherData`. -/
theorem proto_fetchWeather_of_member (toLowerCase : String → String)
    (cache : List (String × Snapshot)) (weatherData : List (String × Proto.FetchValue))
    (cityName : String) (resp : Response)
    (hmiss : getProp cache (toLowerCase cityName) = none)
    (hkey : toLowerCase cityName ∈ objectPrototypeNames) :
    Proto.fetchWeather toLowerCase cache resp cityName
        = { result := some (.inherited (toLowerCase cityName)), cache := cache,
            requested := false } ∧
      Proto.onWeatherFetched toLowerCase weatherData cityName
          (Proto.fetchWeather toLowerCase cache resp cityName).result
        = setProp weatherData (toLowerCase cityName)
            (.inherited (toLowerCase cityName)) := by
  have hcall : Proto.fetchWeather toLowerCase cache resp cityName
      = { result := some (.inherited (toLowerCase cityName)), cache := cache,
          requested := false } := by
    simp only [Proto.fetchWeather, readProp_of_member _ _ hmiss hkey]
  rw [hcall]
  exact ⟨rfl, rfl⟩

/-- C19: evaluation at the failing input. The name `constructor` is not in
the empty cache, yet with the request failing, answered with a status that is
not OK, or answered without `current`, `fetchWeather('constructor', …)` does
not resolve to null: it returns the member `constructor` of
`Object.prototype` (the function `Object`) without issuing the request, and
the `then` handler of the app stores that value in `weatherData`; the same
holds for `__proto__`. -/
theorem fetchWeather_inherited_key_not_null :
    getProp ([] : List (String × Snapshot)) (sampleLower "constructor") = none ∧
      (∀ resp : Response,
        Proto.fetchWeather sampleLower [] resp "constructor"
            = { result := some (.inherited "constructor"), cache := [],
                requested := false } ∧
          Proto.onWeatherFetched sampleLower [] "constructor"
              (Proto.fetchWeather sampleLower [] resp "constructor").result
            = [("constructor", .inherited "constructor")]) ∧
      (∀ resp : Response,
        Proto.fetchWeather sampleLower [] resp "__proto__"
          = { result := some (.inherited "__proto__"), cache := [],
              requested := false }) := by
  refine ⟨by decide, ?_, ?_⟩
  · intro resp
    exact proto_fetchWeather_of_member sampleLower [] [] "constructor" resp
      (by decide) (by decide)
  · intro resp
    exact (proto_fetchWeather_of_member sampleLower [] [] "__proto__" resp
      (by decide) (by decide)).1

/-! ## Tooltip on unresolved keys -/

/-- The tooltip renders nothing for a key that names no node in the scope of
the layer and selection and is not the name of a member of
`Object.prototype`. -/
theorem tooltip_none_of_not_resolves (toLowerCase : String → String) (wd : WorldData)
    (layer : Layer) (selectedContinent selectedCountry : Option String)
    (weatherData : List (String × Proto.FetchValue)) (k : String)
    (hk : hoverResolves wd layer selectedContinent selectedCountry k = false)
    (hmember : k ∉ objectPrototypeNames) :
    WeatherTooltip toLowerCase wd (some k) layer selectedContinent selectedCountry
      weatherData = none := by
  unfold WeatherTooltip
  split
  · rfl
  · simp only [jsKey_some]
    cases layer with
    | earth =>
      simp only [hoverResolves] at hk
      cases h1 : getProp wd.children k with
      | none => simp only [getTooltipContent, readProp_of_none _ _ h1 hmember]
      | some c => simp [h1] at hk
    | continent =>
      simp only [hoverResolves] at hk
      simp only [getTooltipContent]
      split
      · rfl
      · cases h1 : getProp wd.children (jsKey selectedContinent) with
        | none =>
          rcases readProp_ne_own _ _ h1 with hr | hr <;> simp only [hr]
        | some continent =>
          cases h2 : getProp continent.children k with
          | none =>
            simp only [readProp_of_some _ _ _ h1, readProp_of_none _ _ h2 hmember]
          | some c => simp [h1, h2] at hk
    | country =>
      simp only [hoverResolves] at hk
      simp only [getTooltipContent]
      split
      · rfl
      · cases h1 : getProp wd.children (jsKey selectedContinent) with
        | none =>
          rcases readProp_ne_own _ _ h1 with hr | hr <;> simp only [hr]
        | some continent =>
          cases h2 : getProp continent.children (jsKey selectedCountry) with
          | none =>
            rcases readProp_ne_own _ _ h2 with hr | hr <;>
              simp only [readProp_of_some _ _ _ h1, hr]
          | some country =>
            cases h3 : getProp country.children k with
            | none =>
              simp only [readProp_of_some _ _ _ h1, readProp_of_some _ _ _ h2,
                readProp_of_none _ _ h3 hmember]
            | some c => simp [h1, h2, h3] at hk
    | city => rfl

/-! ## Commit of a click on an unresolved key -/

/-- Counterexample to C23 as stated: at the initial state of the sample
catalog the commit of `handleNodeClick('continent', 'atlantis')` ends in an
uncaught `TypeError` after it has set the continent key; at
Country(europe, france) the commit of `handleNodeClick('city', 'atlantis')`
has also changed the background colour before it throws. -/
theorem unresolved_click_counterexample :
    resolves sampleWorld initialState .continent "atlantis" = false ∧
      (handleNodeClick initialState .continent "atlantis").2
        = some (.click .continent "atlantis" none none) ∧
      (Proto.runCommit sampleWorld (.click .continent "atlantis" none none)
        (handleNodeClick initialState .continent "atlantis").1).threw = true ∧
      (Proto.runCommit sampleWorld (.click .continent "atlantis" none none)
        (handleNodeClick initialState .continent "atlantis").1).state.selectedContinent
        = some "atlantis" ∧
      initialState.selectedContinent = none ∧
      resolves sampleWorld sampleCountryState .city "atlantis" = false ∧
      (Proto.runCommit sampleWorld (.click .city "atlantis" (some "europe") (some "france"))
        (handleNodeClick sampleCountryState .city "atlantis").1).threw = true ∧
      (Proto.runCommit sampleWorld (.click .city "atlantis" (some "europe") (some "france"))
        (handleNodeClick sampleCountryState .city "atlantis").1).state.bgColor
        = "#12192B" ∧
      sampleCountryState.bgColor = "#3B7DD820" := by
  refine ⟨by decide, rfl, rfl, rfl, rfl, by decide, rfl, rfl, rfl⟩

/-- A click on a key that is the name of a member of `Object.prototype` and
names no catalog entry does not throw at target Continent: at the initial
state of the sample catalog the commit of
`handleNodeClick('continent', 'constructor')` sets the background colour to
`'undefined30'`, moves to layer Continent and extends the history. -/
theorem inherited_click_commit :
    resolves sampleWorld initialState .continent "constructor" = false ∧
      Proto.runCommit sampleWorld (.click .continent "constructor" none none)
          (handleNodeClick initialState .continent "constructor").1
        = { state :=
              { initialState with
                  layer := .continent, history := [.earth, .continent],
                  selectedContinent := some "constructor", bgColor := "undefined30",
                  transitioning := true, zoomDirection := .zoomIn },
            fetches := [], threw := false } := by
  refine ⟨by decide, rfl⟩

/-- C23 (amended): in an idle state with layer other than City, the deferred
commit of a `handleNodeClick` on Continent, Country or City whose key does
not resolve under the current selection and is not the name of a member of
`Object.prototype` leaves layer, history and the selection keys of the other
layers unchanged and issues no `fetchWeather` call, but it is not a no-op: it
records the key as the selection of the target layer (and for target City
sets the background colour to `'#12192B'`), and it ends in an uncaught
`TypeError`. The canvas click path passes only keys that resolve. -/
theorem unresolved_click_commit (M : JsMath) (wd : WorldData) (s : NavState)
    (newLayer : Layer) (selection : String)
    (hidle : s.transitioning = false) (hlayer : s.layer ≠ .city)
    (hne : newLayer ≠ .earth)
    (hres : resolves wd s newLayer selection = false)
    (hmember : selection ∉ objectPrototypeNames) :
    (∃ c, (handleNodeClick s newLayer selection).2 = some c ∧
        (Proto.runCommit wd c (handleNodeClick s newLayer selection).1).threw = true ∧
        (Proto.runCommit wd c (handleNodeClick s newLayer selection).1).fetches = [] ∧
        (Proto.runCommit wd c (handleNodeClick s newLayer selection).1).state.layer
          = s.layer ∧
        (Proto.runCommit wd c (handleNodeClick s newLayer selection).1).state.history
          = s.history ∧
        selectionAt (Proto.runCommit wd c (handleNodeClick s newLayer selection).1).state
          newLayer = some selection ∧
        (∀ l, l ≠ newLayer →
          selectionAt
              (Proto.runCommit wd c (handleNodeClick s newLayer selection).1).state l
            = selectionAt s l) ∧
        (Proto.runCommit wd c (handleNodeClick s newLayer selection).1).state.bgColor
          = if newLayer = .city then "#12192B" else s.bgColor) ∧
      (∀ (rotation x y : ℚ) (w h : ℕ) (calls : List (Layer × String)),
        handleCanvasClick M wd s.layer s.selectedContinent s.selectedCountry
            rotation x y w h = .ok calls →
        ∀ call ∈ calls, resolves wd s call.1 call.2 = true) := by
  constructor
  · have hcall : handleNodeClick s newLayer selection
        = ({ s with transitioning := true, zoomDirection := .zoomIn },
           some (.click newLayer selection s.selectedContinent s.selectedCountry)) := by
      simp [handleNodeClick, hidle, hlayer]
    rw [hcall]
    obtain ⟨h1, h2, h3, h4, h5, h6, h7⟩ := commitClick_of_not_resolves wd s
      { s with transitioning := true, zoomDirection := .zoomIn } newLayer selection
      hne hres
    refine ⟨_, rfl, ?_⟩
    simp only [Proto.runCommit]
    rw [proto_commitClick_eq wd newLayer selection s.selectedContinent s.selectedCountry
      _ hmember]
    refine ⟨h1, ?_, h3, h4, h5, h6, h7⟩
    show List.map _ _ = []
    rw [h2]
    rfl
  · intro rotation x y w h calls hcalls call hmem
    exact (canvas_click_calls_descend M wd s rotation x y w h calls hcalls call hmem).2

/-- Witness of C23 (amended): the key `atlantis` at the initial state of the
sample catalog. -/
theorem unresolved_click_commit_witness :
    initialState.transitioning = false ∧ initialState.layer ≠ .city ∧
      Layer.continent ≠ Layer.earth ∧
      resolves sampleWorld initialState .continent "atlantis" = false ∧
      "atlantis" ∉ objectPrototypeNames ∧
      ∃ c, (handleNodeClick initialState .continent "atlantis").2 = some c ∧
        (Proto.runCommit sampleWorld c
          (handleNodeClick initialState .continent "atlantis").1).threw = true ∧
        (Proto.runCommit sampleWorld c
          (handleNodeClick initialState .continent "atlantis").1).fetches = [] ∧
        (Proto.runCommit sampleWorld c
          (handleNodeClick initialState .continent "atlantis").1).state.layer
          = initialState.layer ∧
        (Proto.runCommit sampleWorld c
          (handleNodeClick initialState .continent "atlantis").1).state.history
          = initialState.history ∧
        selectionAt (Proto.runCommit sampleWorld c
          (handleNodeClick initialState .continent "atlantis").1).state .continent
          = some "atlantis" ∧
        (∀ l, l ≠ Layer.continent →
          selectionAt (Proto.runCommit sampleWorld c
            (handleNodeClick initialState .continent "atlantis").1).state l
            = selectionAt initialState l) ∧
        (Proto.runCommit sampleWorld c
          (handleNodeClick initialState .continent "atlantis").1).state.bgColor
          = if Layer.continent = .city then "#12192B" else initialState.bgColor :=
  ⟨rfl, by decide, by decide, by decide, by decide,
   (unresolved_click_commit sampleMath sampleWorld initialState .continent "atlantis"
      rfl (by decide) (by decide) (by decide) (by decide)).1⟩

/-! ## Stale hover after a commit -/

/-- Counterexample to C21 as stated: in a catalog where the continent
`australia` has a country with the same key, the pointer hovers the
continent node at Planet (the tooltip shows the continent); after the commit
of the click on it the hovered key is still `australia`, and the tooltip now
shows the country of that key, a node of the new layer. -/
theorem stale_hover_counterexample :
    WeatherTooltip sampleLower collidingWorld (some "australia") .earth none none []
        = some { name := some "Australia (continent)", type := "Continent", icon := "🌍",
                 color := some "#2E8B57", weather := none } ∧
      (Proto.runCommit collidingWorld (.click .continent "australia" none none)
        (handleNodeClick { initialState with hoveredNode := some "australia" }
          .continent "australia").1).state.layer = .continent ∧
      (Proto.runCommit collidingWorld (.click .continent "australia" none none)
        (handleNodeClick { initialState with hoveredNode := some "australia" }
          .continent "australia").1).state.hoveredNode = some "australia" ∧
      (Proto.runCommit collidingWorld (.click .continent "australia" none none)
        (handleNodeClick { initialState with hoveredNode := some "australia" }
          .continent "australia").1).state.selectedContinent = some "australia" ∧
      WeatherTooltip sampleLower collidingWorld (some "australia") .continent
          (some "australia") none []
        = some { name := some "Australia (country)", type := "Country", icon := "🏴",
                 color := some "#20B2AA", weather := none } := by
  refine ⟨rfl, rfl, rfl, rfl, rfl⟩

/-- C21 (amended): every deferred commit (click, `goBack` or `goHome`) leaves
the hovered key as it was, and right after it the tooltip renders nothing for
that key whenever the key names no catalog node in the scope of the new layer
and selection and is not the name of a member of `Object.prototype`; so a
stale key of that kind gives no tooltip for a node of the new layer unless
the catalog uses the same key for such a node, and no key gives one at layer
City. -/
theorem stale_hover_after_commit (toLowerCase : String → String) (wd : WorldData)
    (c : Commit) (s : NavState) (weatherData : List (String × Proto.FetchValue)) :
    (Proto.runCommit wd c s).state.hoveredNode = s.hoveredNode ∧
      (∀ k : String, s.hoveredNode = some k → k ∉ objectPrototypeNames →
        hoverResolves wd (Proto.runCommit wd c s).state.layer
            (Proto.runCommit wd c s).state.selectedContinent
            (Proto.runCommit wd c s).state.selectedCountry k = false →
        WeatherTooltip toLowerCase wd (Proto.runCommit wd c s).state.hoveredNode
            (Proto.runCommit wd c s).state.layer
            (Proto.runCommit wd c s).state.selectedContinent
            (Proto.runCommit wd c s).state.selectedCountry weatherData = none) ∧
      ((Proto.runCommit wd c s).state.layer = .city →
        WeatherTooltip toLowerCase wd (Proto.runCommit wd c s).state.hoveredNode
            (Proto.runCommit wd c s).state.layer
            (Proto.runCommit wd c s).state.selectedContinent
            (Proto.runCommit wd c s).state.selectedCountry weatherData = none) := by
  have hh := proto_runCommit_hoveredNode wd c s
  refine ⟨hh, ?_, ?_⟩
  · intro k hk hmember hres
    rw [hh, hk]
    exact tooltip_none_of_not_resolves toLowerCase wd _ _ _ weatherData k hres hmember
  · intro hcity
    rw [hcity]
    unfold WeatherTooltip
    split <;> rfl

/-- Witness of C21 (amended): in the sample catalog the continent key
`europe` names no country of Europe, so after the click on it the tooltip
renders nothing. -/
theorem stale_hover_after_commit_witness :
    ({ initialState with hoveredNode := some "europe" } : NavState).hoveredNode
        = some "europe" ∧
      "europe" ∉ objectPrototypeNames ∧
      hoverResolves sampleWorld
        (Proto.runCommit sampleWorld (.click .continent "europe" none none)
          { initialState with hoveredNode := some "europe" }).state.layer
        (Proto.runCommit sampleWorld (.click .continent "europe" none none)
          { initialState with hoveredNode := some "europe" }).state.selectedContinent
        (Proto.runCommit sampleWorld (.click .continent "europe" none none)
          { initialState with hoveredNode := some "europe" }).state.selectedCountry
        "europe" = false ∧
      WeatherTooltip sampleLower sampleWorld
        (Proto.runCommit sampleWorld (.click .continent "europe" none none)
          { initialState with hoveredNode := some "europe" }).state.hoveredNode
        (Proto.runCommit sampleWorld (.click .continent "europe" none none)
          { initialState with hoveredNode := some "europe" }).state.layer
        (Proto.runCommit sampleWorld (.click .continent "europe" none none)
          { initialState with hoveredNode := some "europe" }).state.selectedContinent
        (Proto.runCommit sampleWorld (.click .continent "europe" none none)
          { initialState with hoveredNode := some "europe" }).state.selectedCountry
        [] = none :=
  ⟨rfl, by decide, by decide,
   (stale_hover_after_commit sampleLower sampleWorld
      (.click .continent "europe" none none)
      { initialState with hoveredNode := some "europe" } []).2.1 "europe" rfl
      (by decide) (by decide)⟩

/-! ## Hover hit-testing in binary64 -/

/-- The comparison of two numbers is the comparison of their values. -/
theorem double_lt_iff (a b : Double) :
    Double.lt a b = true ↔ a.toRat < b.toRat := by
  obtain ⟨e, he⟩ : ∃ e, e = min a.exp b.exp := ⟨_, rfl⟩
  have hea : e ≤ a.exp := he ▸ min_le_left _ _
  have heb : e ≤ b.exp := he ▸ min_le_right _ _
  have h2 : (2 : ℚ) ≠ 0 := by norm_num
  have hpa : (2 : ℚ) ^ a.exp = 2 ^ e * 2 ^ (a.exp - e).toNat := by
    rw [← zpow_natCast, ← zpow_add₀ h2, Int.toNat_of_nonneg (by omega)]
    congr 1
    omega
  have hpb : (2 : ℚ) ^ b.exp = 2 ^ e * 2 ^ (b.exp - e).toNat := by
    rw [← zpow_natCast, ← zpow_add₀ h2, Int.toNat_of_nonneg (by omega)]
    congr 1
    omega
  have hpos : (0 : ℚ) < 2 ^ e := zpow_pos (by norm_num) e
  unfold Double.lt Double.align Double.toRat
  simp only [decide_eq_true_iff, ← he]
  rw [hpa, hpb]
  have hcast : (a.mant * 2 ^ (a.exp - e).toNat < b.mant * 2 ^ (b.exp - e).toNat) ↔
      ((a.mant : ℚ) * 2 ^ (a.exp - e).toNat < (b.mant : ℚ) * 2 ^ (b.exp - e).toNat) := by
    constructor
    · intro h
      exact_mod_cast h
    · intro h
      exact_mod_cast h
  rw [hcast]
  constructor
  · intro h
    calc (a.mant : ℚ) * (2 ^ e * 2 ^ (a.exp - e).toNat)
        = 2 ^ e * ((a.mant : ℚ) * 2 ^ (a.exp - e).toNat) := by ring
      _ < 2 ^ e * ((b.mant : ℚ) * 2 ^ (b.exp - e).toNat) :=
          mul_lt_mul_of_pos_left h hpos
      _ = (b.mant : ℚ) * (2 ^ e * 2 ^ (b.exp - e).toNat) := by ring
  · intro h
    have h' : 2 ^ e * ((a.mant : ℚ) * 2 ^ (a.exp - e).toNat)
        < 2 ^ e * ((b.mant : ℚ) * 2 ^ (b.exp - e).toNat) := by
      calc 2 ^ e * ((a.mant : ℚ) * 2 ^ (a.exp - e).toNat)
          = (a.mant : ℚ) * (2 ^ e * 2 ^ (a.exp - e).toNat) := by ring
        _ < (b.mant : ℚ) * (2 ^ e * 2 ^ (b.exp - e).toNat) := h
        _ = 2 ^ e * ((b.mant : ℚ) * 2 ^ (b.exp - e).toNat) := by ring
    exact lt_of_mul_lt_mul_left h' (le_of_lt hpos)

/-- The hover loop returns null exactly when no node passes the test. -/
theorem binary64_firstHit_eq_none_iff (r x y : Double) (nodes : List Binary64.Node) :
    Binary64.firstHit r x y nodes = none ↔
      ∀ n ∈ nodes, Double.lt (Binary64.distance x y n) r = false := by
  induction nodes with
  | nil => simp [Binary64.firstHit]
  | cons n rest ih =>
    by_cases hn : Double.lt (Binary64.distance x y n) r = true
    · simp [Binary64.firstHit, hn]
    · simp [Binary64.firstHit, hn, ih]

/-- The hover loop returns the key of the first node that passes the test. -/
theorem binary64_firstHit_eq_some_iff (r x y : Double) (nodes : List Binary64.Node)
    (k : String) :
    Binary64.firstHit r x y nodes = some k ↔
      ∃ (i : ℕ) (n : Binary64.Node), nodes[i]? = some n ∧ n.key = k ∧
        Double.lt (Binary64.distance x y n) r = true ∧
        ∀ (j : ℕ) (m : Binary64.Node), j < i → nodes[j]? = some m →
          Double.lt (Binary64.distance x y m) r = false := by
  induction nodes with
  | nil => simp [Binary64.firstHit]
  | cons a rest ih =>
    by_cases ha : Double.lt (Binary64.distance x y a) r = true
    · simp only [Binary64.firstHit, ha, if_true, Option.some.injEq]
      constructor
      · intro hk
        exact ⟨0, a, List.getElem?_cons_zero, hk, ha,
          fun j m hj _ => absurd hj (Nat.not_lt_zero j)⟩
      · rintro ⟨i, n, hi, hk, _, hfirst⟩
        cases i with
        | zero =>
          simp only [List.getElem?_cons_zero, Option.some.injEq] at hi
          rw [hi]; exact hk
        | succ i =>
          have := hfirst 0 a (Nat.succ_pos i) List.getElem?_cons_zero
          rw [ha] at this
          cases this
    · have ha' : Double.lt (Binary64.distance x y a) r = false := by simpa using ha
      simp only [Binary64.firstHit, ha', Bool.false_eq_true, if_false, ih]
      constructor
      · rintro ⟨i, n, hi, hk, hn, hfirst⟩
        refine ⟨i + 1, n, by simpa using hi, hk, hn, ?_⟩
        intro j m hj hm
        cases j with
        | zero =>
          simp only [List.getElem?_cons_zero, Option.some.injEq] at hm
          rw [← hm]; exact ha'
        | succ j =>
          exact hfirst j m (Nat.lt_of_succ_lt_succ hj) (by simpa using hm)
      · rintro ⟨i, n, hi, hk, hn, hfirst⟩
        cases i with
        | zero =>
          simp only [List.getElem?_cons_zero, Option.some.injEq] at hi
          rw [hi, hn] at ha'
          cases ha'
        | succ i =>
          refine ⟨i, n, by simpa using hi, hk, hn, ?_⟩
          intro j m hj hm
          exact hfirst (j + 1) m (Nat.succ_lt_succ hj) (by simpa using hm)

/-- The hover loop meets `FirstComputed` for the value of its radius. -/
theorem binary64_firstHit_firstComputed (r x y : Double) (nodes : List Binary64.Node) :
    Binary64.FirstComputed r.toRat x y nodes (Binary64.firstHit r x y nodes) := by
  have hfalse : ∀ n : Binary64.Node,
      Double.lt (Binary64.distance x y n) r = false ↔
        ¬ (Binary64.distance x y n).toRat < r.toRat := by
    intro n
    rw [← double_lt_iff]
    cases Double.lt (Binary64.distance x y n) r <;> simp
  unfold Binary64.FirstComputed
  constructor
  · rw [binary64_firstHit_eq_none_iff]
    constructor
    · intro h n hn
      exact (hfalse n).mp (h n hn)
    · intro h n hn
      exact (hfalse n).mpr (h n hn)
  · intro k
    rw [binary64_firstHit_eq_some_iff]
    constructor
    · rintro ⟨i, n, hi, hk, hn, hfirst⟩
      exact ⟨i, n, hi, hk, (double_lt_iff _ _).mp hn,
        fun j m hj hm => (hfalse m).mp (hfirst j m hj hm)⟩
    · rintro ⟨i, n, hi, hk, hn, hfirst⟩
      exact ⟨i, n, hi, hk, (double_lt_iff _ _).mpr hn,
        fun j m hj hm => (hfalse m).mpr (hfirst j m hj hm)⟩

/-- The three hit radii as numbers. -/
theorem double_radii :
    (Double.ofNat 25).toRat = 25 ∧ (Double.ofNat 50).toRat = 50 ∧
      (Double.ofNat 55).toRat = 55 := by
  have h25 : Double.ofNat 25 = { mant := 25, exp := 0 } := by decide
  have h50 : Double.ofNat 50 = { mant := 50, exp := 0 } := by decide
  have h55 : Double.ofNat 55 = { mant := 55, exp := 0 } := by decide
  rw [h25, h50, h55]
  simp [Double.toRat]

/-- With five entries the exact grid has three columns. -/
theorem ceilSqrt_five : ceilSqrt 5 = 3 := by
  have h : Nat.sqrt 5 = 2 := by
    symm; rw [Nat.eq_sqrt]; omega
  simp [ceilSqrt, h]

/-- The Continent grid of `fiveWorld` on a 360 by 640 canvas, in exact
arithmetic. -/
theorem five_grid_exact :
    gridNodes (22 / 100) 360 640 (keysOf fiveCountries)
      = [⟨"a", 504 / 5, 290⟩, ⟨"b", 180, 290⟩, ⟨"c", 1296 / 5, 290⟩,
         ⟨"d", 504 / 5, 1846 / 5⟩, ⟨"e", 180, 1846 / 5⟩] := by
  have hlen : (keysOf fiveCountries).length = 5 := rfl
  rw [gridNodes, hlen, ceilSqrt_five]
  simp only [keysOf, fiveCountries, List.map, gridNodesFrom, gridNode]
  norm_num

set_option maxRecDepth 100000 in
/-- The Continent grid of `fiveWorld` on a 360 by 640 canvas, as the program
computes it: `b` is centred at `179.99999999999997`, not at `180`. -/
theorem five_grid_computed :
    Binary64.gridNodes (Double.lit 22 100) 360 640 (keysOf fiveCountries)
      = [⟨"a", ⟨7093169413108530, -46⟩, ⟨5101733952880640, -44⟩⟩,
         ⟨"b", ⟨6333186975989759, -45⟩, ⟨5101733952880640, -44⟩⟩,
         ⟨"c", ⟨4559894622712627, -44⟩, ⟨5101733952880640, -44⟩⟩,
         ⟨"d", ⟨7093169413108530, -46⟩, ⟨6495035087598387, -44⟩⟩,
         ⟨"e", ⟨6333186975989759, -45⟩, ⟨6495035087598387, -44⟩⟩] := by
  decide

set_option maxRecDepth 100000 in
/-- The hover loop of the program on the Continent grid of `fiveWorld` at
the pointer `(166, 242)` and at the pointer `(offGridX, offGridY)`. -/
theorem five_firstHit_computed :
    Binary64.firstHit (Double.ofNat 50) (Double.ofNat 166) (Double.ofNat 242)
        (Binary64.gridNodes (Double.lit 22 100) 360 640 (keysOf fiveCountries))
        = some "b" ∧
      Binary64.firstHit (Double.ofNat 50) offGridX offGridY
        (Binary64.gridNodes (Double.lit 22 100) 360 640 (keysOf fiveCountries))
        = none := by
  constructor <;> decide

/-- The hover hit-test of the program at the pointer `(166, 242)` and at the
pointer `(offGridX, offGridY)`. -/
theorem five_hover_computed :
    Binary64.checkContinentNodeHover fiveWorld (some "europe") (Double.ofNat 166)
        (Double.ofNat 242) 360 640 = .ok (some "b") ∧
      Binary64.checkContinentNodeHover fiveWorld (some "europe") offGridX offGridY
        360 640 = .ok none :=
  ⟨congrArg Except.ok five_firstHit_computed.1,
   congrArg Except.ok five_firstHit_computed.2⟩

/-- Counterexample to C9 as stated, on a 360 by 640 canvas at a Continent
with five countries. At the pointer `(166, 242)` the program returns `b`,
whose layout centre `(180, 290)` is at Euclidean distance exactly 50 from the
pointer, and no node of the layout is strictly within 50 of the pointer: the
program computes the centre as `179.99999999999997` and the distance as
`49.99999999999999`. At the pointer
`(273.1999999999996, 338.0000000000001)` the program returns null, although
`c` is strictly within 50 of the pointer, measured from the centre the
program computed for it as well as from its layout centre `(259.2, 290)`:
the computed distance is 50. -/
theorem hover_boundary_counterexample :
    (Double.ofNat 166).toRat = 166 ∧ (Double.ofNat 242).toRat = 242 ∧
      Binary64.checkContinentNodeHover fiveWorld (some "europe") (Double.ofNat 166)
        (Double.ofNat 242) 360 640 = .ok (some "b") ∧
      (gridNodes (22 / 100) 360 640 (keysOf fiveCountries))[1]?
        = some ⟨"b", 180, 290⟩ ∧
      Real.sqrt (((166 : ℝ) - 180) ^ 2 + ((242 : ℝ) - 290) ^ 2) = 50 ∧
      (∀ n ∈ gridNodes (22 / 100) 360 640 (keysOf fiveCountries),
        ¬ withinRadius 50 166 242 n) ∧
      Binary64.checkContinentNodeHover fiveWorld (some "europe") offGridX offGridY
        360 640 = .ok none ∧
      (Binary64.gridNodes (Double.lit 22 100) 360 640 (keysOf fiveCountries))[2]?
        = some ⟨"c", ⟨4559894622712627, -44⟩, ⟨5101733952880640, -44⟩⟩ ∧
      withinRadius 50 offGridX.toRat offGridY.toRat
        ⟨"c", (⟨4559894622712627, -44⟩ : Double).toRat,
          (⟨5101733952880640, -44⟩ : Double).toRat⟩ ∧
      (gridNodes (22 / 100) 360 640 (keysOf fiveCountries))[2]?
        = some ⟨"c", 1296 / 5, 290⟩ ∧
      withinRadius 50 offGridX.toRat offGridY.toRat ⟨"c", 1296 / 5, 290⟩ := by
  have h166 : Double.ofNat 166 = { mant := 166, exp := 0 } := by decide
  have h242 : Double.ofNat 242 = { mant := 242, exp := 0 } := by decide
  refine ⟨?_, ?_, five_hover_computed.1, ?_, ?_, ?_, five_hover_computed.2, ?_, ?_,
    ?_, ?_⟩
  · rw [h166]; simp [Double.toRat]
  · rw [h242]; simp [Double.toRat]
  · rw [five_grid_exact]; rfl
  · have hsq : ((166 : ℝ) - 180) ^ 2 + ((242 : ℝ) - 290) ^ 2 = 50 ^ 2 := by norm_num
    rw [hsq, Real.sqrt_sq (by norm_num)]
  · rw [five_grid_exact]
    intro n hn
    rw [← isHit_iff_withinRadius 50 166 242 n (by norm_num)]
    simp only [List.mem_cons, List.mem_singleton, List.not_mem_nil, or_false] at hn
    rcases hn with h | h | h | h | h <;> subst h <;> simp only [isHit] <;> norm_num
  · rw [five_grid_computed]; rfl
  · rw [← isHit_iff_withinRadius _ _ _ _ (by norm_num)]
    simp only [isHit, Double.toRat, offGridX, offGridY]
    norm_num
  · rw [five_grid_exact]; rfl
  · rw [← isHit_iff_withinRadius _ _ _ _ (by norm_num)]
    simp only [isHit, Double.toRat, offGridX, offGridY]
    norm_num

/-- C9 (amended): with hit radius 25 at Planet, 50 at Continent and 55 at
Country, the hover hit-test returns the key of the first node, in catalog
iteration order, for which the distance the program computes in binary64
arithmetic, `Math.sqrt((x - nodeX) ** 2 + (y - nodeY) ** 2)` from the centre
it computed for the node, is strictly less than the radius, and returns null
exactly when no node has such a computed distance (a computed distance equal
to the radius is not a hit). -/
theorem hover_returns_first_computed (M : Binary64.JsMath) (wd : WorldData)
    (selectedContinent selectedCountry : Option String) (rotation x y : Double)
    (w h : ℕ) :
    Binary64.FirstComputed 25 x y (Binary64.earthNodes M wd w h rotation)
        (Binary64.checkEarthNodeHover M wd rotation x y w h) ∧
      (∀ countries, countriesOf wd selectedContinent = .ok countries →
        ∃ res, Binary64.checkContinentNodeHover wd selectedContinent x y w h = .ok res ∧
          Binary64.FirstComputed 50 x y
            (Binary64.gridNodes (Double.lit 22 100) w h (keysOf countries)) res) ∧
      (∀ cities, citiesOf wd selectedContinent selectedCountry = .ok cities →
        ∃ res,
          Binary64.checkCountryNodeHover wd selectedContinent selectedCountry x y w h
            = .ok res ∧
          Binary64.FirstComputed 55 x y
            (Binary64.gridNodes (Double.lit 25 100) w h (keysOf cities)) res) := by
  have h25 := binary64_firstHit_firstComputed (Double.ofNat 25) x y
  have h50 := binary64_firstHit_firstComputed (Double.ofNat 50) x y
  have h55 := binary64_firstHit_firstComputed (Double.ofNat 55) x y
  rw [double_radii.1] at h25
  rw [double_radii.2.1] at h50
  rw [double_radii.2.2] at h55
  refine ⟨h25 _, ?_, ?_⟩
  · intro countries hc
    refine ⟨_, ?_, h50 _⟩
    simp only [Binary64.checkContinentNodeHover, hc]
  · intro cities hc
    refine ⟨_, ?_, h55 _⟩
    simp only [Binary64.checkCountryNodeHover, hc]

/-- Witness of C9 (amended) on the Continent layer of `fiveWorld`, at the
pointer `(166, 242)` of a 360 by 640 canvas. -/
theorem hover_returns_first_computed_witness :
    countriesOf fiveWorld (some "europe") = .ok fiveCountries ∧
      ∃ res,
        Binary64.checkContinentNodeHover fiveWorld (some "europe") (Double.ofNat 166)
          (Double.ofNat 242) 360 640 = .ok res ∧
        Binary64.FirstComputed 50 (Double.ofNat 166) (Double.ofNat 242)
          (Binary64.gridNodes (Double.lit 22 100) 360 640 (keysOf fiveCountries)) res :=
  ⟨rfl,
   (hover_returns_first_computed ⟨⟨0, 0⟩, fun a => a, fun a => a⟩ fiveWorld
      (some "europe") none ⟨0, 0⟩ (Double.ofNat 166) (Double.ofNat 242)
      360 640).2.1 fiveCountries rfl⟩

/-! ## Tooltip on a key inherited from the prototype -/

set_option maxRecDepth 100000 in
/-- On a 400 by 800 canvas the only country node of Continent(europe) of
`memberKeyWorld` is centred at `(200, 370)`, and the hover hit-test of the
program at that point returns its key, `constructor`. -/
theorem member_hover_computed :
    Binary64.firstHit (Double.ofNat 50) (Double.ofNat 200) (Double.ofNat 370)
        (Binary64.gridNodes (Double.lit 22 100) 400 800 ["constructor"])
      = some "constructor" := by
  decide

/-- C20: evaluation at the failing input. The key `constructor` names no
continent, no country of Europe and no city of France in the sample catalog,
yet for it the tooltip renders a node named `Object`, as a Continent at
Planet, a Country at Continent(europe) and a City at
Country(europe, france); for `__proto__` it renders a Continent without a
name. The app reaches such an input on `memberKeyWorld`: the pointer rests
on the country node `constructor` at Continent(europe), the hover hit-test
reports that key, `goBack` and its commit lead to Planet with the hovered
key unchanged, and the tooltip then shows a Continent named `Object`, where
no continent has that key. -/
theorem tooltip_inherited_key_renders (toLowerCase : String → String)
    (weatherData : List (String × Proto.FetchValue)) :
    hoverResolves sampleWorld .earth none none "constructor" = false ∧
      WeatherTooltip toLowerCase sampleWorld (some "constructor") .earth none none
          weatherData
        = some { name := some "Object", type := "Continent", icon := "🌍",
                 color := none, weather := none } ∧
      hoverResolves sampleWorld .continent (some "europe") none "constructor" = false ∧
      WeatherTooltip toLowerCase sampleWorld (some "constructor") .continent
          (some "europe") none weatherData
        = some { name := some "Object", type := "Country", icon := "🏴",
                 color := none, weather := none } ∧
      hoverResolves sampleWorld .country (some "europe") (some "france") "constructor"
        = false ∧
      (∃ content,
        WeatherTooltip toLowerCase sampleWorld (some "constructor") .country
            (some "europe") (some "france") weatherData = some content ∧
          content.name = some "Object" ∧ content.type = "City") ∧
      WeatherTooltip toLowerCase sampleWorld (some "__proto__") .earth none none
          weatherData
        = some { name := none, type := "Continent", icon := "🌍",
                 color := none, weather := none } ∧
      Binary64.checkContinentNodeHover memberKeyWorld memberHoverState.selectedContinent
          (Double.ofNat 200) (Double.ofNat 370) 400 800
        = .ok memberHoverState.hoveredNode ∧
      (goBack memberHoverState).2 = some (.back [.earth] .earth (some "europe") none) ∧
      (Proto.runCommit memberKeyWorld (.back [.earth] .earth (some "europe") none)
          (goBack memberHoverState).1).state.layer = .earth ∧
      (Proto.runCommit memberKeyWorld (.back [.earth] .earth (some "europe") none)
          (goBack memberHoverState).1).state.hoveredNode = some "constructor" ∧
      hoverResolves memberKeyWorld .earth none none "constructor" = false ∧
      WeatherTooltip toLowerCase memberKeyWorld
          (Proto.runCommit memberKeyWorld (.back [.earth] .earth (some "europe") none)
            (goBack memberHoverState).1).state.hoveredNode
          (Proto.runCommit memberKeyWorld (.back [.earth] .earth (some "europe") none)
            (goBack memberHoverState).1).state.layer
          (Proto.runCommit memberKeyWorld (.back [.earth] .earth (some "europe") none)
            (goBack memberHoverState).1).state.selectedContinent
          (Proto.runCommit memberKeyWorld (.back [.earth] .earth (some "europe") none)
            (goBack memberHoverState).1).state.selectedCountry weatherData
        = some { name := some "Object", type := "Continent", icon := "🌍",
                 color := none, weather := none } := by
  refine ⟨by decide, rfl, by decide, rfl, by decide, ⟨_, rfl, rfl, rfl⟩, rfl,
    congrArg Except.ok member_hover_computed, ?_, ?_, ?_, by decide, ?_⟩
  · simp [goBack, memberHoverState]
  · rfl
  · rfl
  · rfl

end TerraSphere
